import Mathlib

/-!
Verification of the drone-path-optimizer core: a shallow embedding of the
weather simulation module (`weatherSystem.js`), the A* pathfinding module
(`pathfinder.js`) and the mission simulation loop (`main.js`), with theorems
settling the specification claims about them.

Conventions of the embedding:
* JavaScript numbers are modelled as exact rationals (`ℚ`) where the source
  only performs field operations and comparisons, and as reals (`ℝ`) where
  `Math.sqrt` enters (distances, heuristic values, weather falloff).
* The terrain risk grid stores naturals; `Math.floor(m * 0.6)` on risk values
  is `3 * m / 5` in natural division (exact for the value range the code uses).
* JavaScript `Map`/`Set` objects keyed by the string `"x,y"` are modelled as
  association lists keyed by the integer pair itself (the string key encodes
  the pair injectively); `Map.set` is modelled by prepending (the newest
  binding shadows older ones, which is extensionally the same map).
* `Math.random()` is passed in as an explicit value source parameter.
-/

/-- A geographic point, as produced by the map library (`{lat, lng}`). -/
structure LatLng where
  lat : ℚ
  lng : ℚ
deriving DecidableEq, Repr

/-- The bounding box captured by `initGrid`/`init` from `bounds.getSouth()`
etc. in the source. -/
structure GridBounds where
  minLat : ℚ
  maxLat : ℚ
  minLng : ℚ
  maxLng : ℚ
deriving DecidableEq, Repr

/-- An integer grid coordinate (`{x, y}` node object in the source). -/
structure Cell where
  x : ℤ
  y : ℤ
deriving DecidableEq, Repr

/-! ## WeatherSystem (`weatherSystem.js`) -/

/-- The kind of a weather pattern: `'STORM'` or `'WIND'`. -/
inductive WKind where
  | storm
  | wind
deriving DecidableEq, Repr

/-- One moving weather system (an element of `this.patterns`). -/
structure WPattern where
  x : ℚ
  y : ℚ
  radius : ℚ
  kind : WKind
  intensity : ℚ
  driftX : ℚ
  driftY : ℚ
deriving DecidableEq, Repr

/-- One weather grid cell `{wind, rain, visibility, risk}`. -/
structure WCell where
  wind : ℝ
  rain : ℝ
  visibility : ℝ
  risk : ℝ

/-- The state of a `WeatherSystem` instance. `init` always sets `bounds`
before any other method is called, so `bounds` is a plain field.
`weatherGrid` is the `gridSize × gridSize` array `this.weatherGrid[y][x]`,
modelled as a function of `y` then `x`. -/
structure WeatherState where
  gridSize : ℤ
  weatherGrid : ℤ → ℤ → WCell
  bounds : GridBounds
  patterns : List WPattern
  timeOffset : ℚ

namespace WeatherState

/-- `isValid(x, y)` of `weatherSystem.js`. -/
def isValid (ws : WeatherState) (x y : ℤ) : Prop :=
  0 ≤ x ∧ x < ws.gridSize ∧ 0 ≤ y ∧ y < ws.gridSize

instance (ws : WeatherState) (x y : ℤ) : Decidable (ws.isValid x y) := by
  unfold isValid; infer_instance

/-- `latLngToGrid(latlng)` of `weatherSystem.js`: floor-divide into the grid,
then clamp each coordinate into `[0, gridSize - 1]`. -/
def latLngToGrid (ws : WeatherState) (p : LatLng) : Cell :=
  let latRange := ws.bounds.maxLat - ws.bounds.minLat
  let lngRange := ws.bounds.maxLng - ws.bounds.minLng
  let y : ℤ := ⌊(p.lat - ws.bounds.minLat) / latRange * ws.gridSize⌋
  let x : ℤ := ⌊(p.lng - ws.bounds.minLng) / lngRange * ws.gridSize⌋
  { x := max 0 (min x (ws.gridSize - 1)),
    y := max 0 (min y (ws.gridSize - 1)) }

/-- The per-cell accumulation loop body of `updateGrid`: fold the influence of
every pattern into `(wind, rain, visibility)`, starting from `(0, 0, 100)`. -/
noncomputable def accumulate (patterns : List WPattern) (x y : ℤ) : ℝ × ℝ × ℝ :=
  patterns.foldl
    (fun acc p =>
      let dist := Real.sqrt (((x : ℝ) - (p.x : ℝ)) ^ 2 + ((y : ℝ) - (p.y : ℝ)) ^ 2)
      if dist < (p.radius : ℝ) then
        let falloff := 1 - dist / (p.radius : ℝ)
        let power := falloff * (p.intensity : ℝ)
        match p.kind with
        | WKind.storm => (acc.1 + power * 60, acc.2.1 + power * 40, acc.2.2 - power * 80)
        | WKind.wind => (acc.1 + power * 80, acc.2.1, acc.2.2 - power * 20)
      else acc)
    (0, 0, 100)

/-- The cell value computed by one `updateGrid` iteration at `(x, y)`.
`rand x y` is the `Math.random()` draw used for the wind noise at that cell. -/
noncomputable def cellAt (patterns : List WPattern) (rand : ℤ → ℤ → ℝ) (x y : ℤ) : WCell :=
  let acc := accumulate patterns x y
  let wind := min 100 (max 0 (acc.1 + rand x y * 5))
  let rain := min 50 (max 0 acc.2.1)
  let visibility := min 100 (max 0 acc.2.2)
  let risk : ℝ := 0 + max 0 ((wind - 20) * 1.5) + max 0 ((rain - 10) * 2)
    + max 0 ((80 - visibility) * 1.5)
  { wind := wind, rain := rain, visibility := visibility, risk := min 100 risk }

/-- `updateGrid()` of `weatherSystem.js`: recompute every cell of the weather
grid from the current pattern list. -/
noncomputable def updateGrid (ws : WeatherState) (rand : ℤ → ℤ → ℝ) : WeatherState :=
  { ws with weatherGrid := fun y x => cellAt ws.patterns rand x y }

/-- The position update applied to one coordinate in `update`: move, then at
most one wrap correction in each direction. -/
def wrapCoord (gridSize v : ℚ) : ℚ :=
  let v1 := if v < 0 then v + gridSize else v
  if gridSize ≤ v1 then v1 - gridSize else v1

/-- `update(deltaTime)` of `weatherSystem.js`: advance `timeOffset`, drift all
patterns with toroidal wrap, then recompute the grid. -/
noncomputable def update (ws : WeatherState) (deltaTime : ℚ) (rand : ℤ → ℤ → ℝ) :
    WeatherState :=
  let moved :=
    { ws with
      timeOffset := ws.timeOffset + deltaTime,
      patterns := ws.patterns.map fun (p : WPattern) =>
        { p with
          x := wrapCoord ws.gridSize (p.x + p.driftX * deltaTime),
          y := wrapCoord ws.gridSize (p.y + p.driftY * deltaTime) } }
  moved.updateGrid rand

/-- `getWeatherAt(latlng)` of `weatherSystem.js`. `bounds` is always set in
our model, so only the valid/fallback branch remains. -/
def getWeatherAt (ws : WeatherState) (p : LatLng) : WCell :=
  let gridPos := ws.latLngToGrid p
  if ws.isValid gridPos.x gridPos.y then
    ws.weatherGrid gridPos.y gridPos.x
  else
    { wind := 0, rain := 0, visibility := 100, risk := 0 }

/-- `getRisk(latlng)` of `weatherSystem.js`. -/
def getRisk (ws : WeatherState) (p : LatLng) : ℝ :=
  (ws.getWeatherAt p).risk

end WeatherState

/-! ## Pathfinder (`pathfinder.js`) -/

/-- The state of a `Pathfinder` instance. `initGrid` always sets `bounds`
before the planner is used, so `bounds` is a plain field. `grid` is the
`gridSize × gridSize` terrain risk array `this.grid[y][x]` (values 0–100),
modelled as a function of `y` then `x`. `weather` is the optional
`WeatherSystem` reference installed by `setWeatherSystem`. -/
structure Pathfinder where
  gridSize : ℤ
  grid : ℤ → ℤ → ℕ
  bounds : GridBounds
  weather : Option WeatherState

namespace Pathfinder

/-- `isValid(x, y)` of `pathfinder.js`. -/
def isValid (pf : Pathfinder) (x y : ℤ) : Prop :=
  0 ≤ x ∧ x < pf.gridSize ∧ 0 ≤ y ∧ y < pf.gridSize

instance (pf : Pathfinder) (x y : ℤ) : Decidable (pf.isValid x y) := by
  unfold isValid; infer_instance

/-- `initGrid(bounds)`: store the bounds and reset every cell to base risk 10. -/
def initGrid (pf : Pathfinder) (b : GridBounds) : Pathfinder :=
  { pf with bounds := b, grid := fun _ _ => 10 }

/-- `isPointInPolygon(point, vs)`: the even-odd ray-casting test of the
source, with `x = point.lat` and `y = point.lng`, iterating `i` over the
vertices with `j` the previous index (wrapping to the last vertex at `i = 0`). -/
def isPointInPolygon (point : LatLng) (vs : List LatLng) : Bool :=
  let x := point.lat
  let y := point.lng
  (List.range vs.length).foldl
    (fun inside i =>
      let j := if i = 0 then vs.length - 1 else i - 1
      let vi := vs.getD i ⟨0, 0⟩
      let vj := vs.getD j ⟨0, 0⟩
      let xi := vi.lat
      let yi := vi.lng
      let xj := vj.lat
      let yj := vj.lng
      let intersect := ((yi > y) ≠ (yj > y)) ∧ x < (xj - xi) * (y - yi) / (yj - yi) + xi
      if intersect then !inside else inside)
    false

/-- The center of cell `(x, y)` as computed inside `markObstacles`
(`centerLat`/`centerLng`) and in `gridToLatLng`. -/
def cellCenter (b : GridBounds) (gridSize : ℤ) (x y : ℤ) : LatLng :=
  let latStep := (b.maxLat - b.minLat) / gridSize
  let lngStep := (b.maxLng - b.minLng) / gridSize
  { lat := b.minLat + (y + 1/2) * latStep, lng := b.minLng + (x + 1/2) * lngStep }

/-- `getNeighbors(x, y)`: the eight direction offsets of the source, in source
order, filtered by `isValid`. -/
def getNeighbors (pf : Pathfinder) (x y : ℤ) : List Cell :=
  let directions : List (ℤ × ℤ) :=
    [(0, -1), (0, 1), (-1, 0), (1, 0), (-1, -1), (1, -1), (-1, 1), (1, 1)]
  (directions.map fun d => Cell.mk (x + d.1) (y + d.2)).filter
    fun c => decide (pf.isValid c.x c.y)

/-- The maximum risk among the 8-connected neighbors of `(x, y)`, as computed
by the `maxNeighborRisk` accumulation loop of `applyRiskDiffusion`. -/
def maxNeighborRisk (pf : Pathfinder) (x y : ℤ) : ℕ :=
  (pf.getNeighbors x y).foldl (fun m n => max m (pf.grid n.y n.x)) 0

/-- `applyRiskDiffusion()`: one diffusion pass over a cloned grid. Cells with
risk ≥ 100 are left untouched; a cell whose maximum neighbor risk `m` exceeds
15 is raised to `Math.floor(m * 0.6)` when that exceeds its current risk.
`Math.floor(m * 0.6) = 3 * m / 5` exactly for the risk range 0–100 the grid
holds (binary floating point never crosses the floor boundary there). The
source loop only visits valid cells, hence the `isValid` guard. -/
def applyRiskDiffusion (pf : Pathfinder) : Pathfinder :=
  { pf with
    grid := fun yy xx =>
      if pf.isValid xx yy ∧ pf.grid yy xx < 100 then
        let m := pf.maxNeighborRisk xx yy
        if 15 < m ∧ pf.grid yy xx < 3 * m / 5 then 3 * m / 5 else pf.grid yy xx
      else pf.grid yy xx }

/-- `markObstacles(polygons)`: reset the grid to base risk 10, set every cell
whose center lies in some polygon to 100, then run two diffusion passes. -/
def markObstacles (pf : Pathfinder) (polygons : List (List LatLng)) : Pathfinder :=
  let marked :=
    { pf with
      grid := fun yy xx =>
        if polygons.any fun poly =>
            isPointInPolygon (cellCenter pf.bounds pf.gridSize xx yy) poly
        then 100 else 10 }
  marked.applyRiskDiffusion.applyRiskDiffusion

/-- `latLngToGrid(latlng)` of `pathfinder.js` (identical to the weather one). -/
def latLngToGrid (pf : Pathfinder) (p : LatLng) : Cell :=
  let latRange := pf.bounds.maxLat - pf.bounds.minLat
  let lngRange := pf.bounds.maxLng - pf.bounds.minLng
  let y : ℤ := ⌊(p.lat - pf.bounds.minLat) / latRange * pf.gridSize⌋
  let x : ℤ := ⌊(p.lng - pf.bounds.minLng) / lngRange * pf.gridSize⌋
  { x := max 0 (min x (pf.gridSize - 1)),
    y := max 0 (min y (pf.gridSize - 1)) }

/-- `gridToLatLng(node)` of `pathfinder.js`: the geographic center of a cell. -/
def gridToLatLng (pf : Pathfinder) (node : Cell) : LatLng :=
  cellCenter pf.bounds pf.gridSize node.x node.y

/-- `getRisk(latlng)` of `pathfinder.js`: terrain risk at the cell (0 when the
cell is invalid), combined with the weather risk by maximum when a weather
system is installed, capped at 100. -/
noncomputable def getRisk (pf : Pathfinder) (p : LatLng) : ℝ :=
  let node := pf.latLngToGrid p
  let risk : ℝ := if pf.isValid node.x node.y then (pf.grid node.y node.x : ℝ) else 0
  let risk :=
    match pf.weather with
    | some ws => max risk (ws.getRisk p)
    | none => risk
  min 100 risk

/-- `heuristic(a, b)`: straight-line Euclidean distance between grid nodes. -/
noncomputable def heuristic (a b : Cell) : ℝ :=
  Real.sqrt (((a.x : ℝ) - (b.x : ℝ)) ^ 2 + ((a.y : ℝ) - (b.y : ℝ)) ^ 2)

/-- `riskWeight` as computed at the top of `findPath`:
`Math.max(0, (100 - userRiskTolerance) / 2)`. -/
def riskWeightOf (userRiskTolerance : ℚ) : ℚ :=
  max 0 ((100 - userRiskTolerance) / 2)

/-- The `distCost` of one step inside the `findPath` neighbor loop:
`Math.sqrt((nx - cx)^2 + (ny - cy)^2)`. -/
noncomputable def distCost (current neighbor : Cell) : ℝ :=
  Real.sqrt (((neighbor.x : ℝ) - (current.x : ℝ)) ^ 2
    + ((neighbor.y : ℝ) - (current.y : ℝ)) ^ 2)

/-- The `riskCost` of one step inside the `findPath` neighbor loop:
`(riskValue * riskWeight) / 10` with `riskValue = this.grid[neighbor.y][neighbor.x]`. -/
def riskCost (riskValue : ℕ) (riskWeight : ℚ) : ℚ :=
  (riskValue * riskWeight) / 10

/-- The full cost `distCost + riskCost` that `findPath` adds to the current
`gScore` when moving from `current` into `neighbor`. -/
noncomputable def moveCost (pf : Pathfinder) (current neighbor : Cell)
    (riskWeight : ℚ) : ℝ :=
  distCost current neighbor + (riskCost (pf.grid neighbor.y neighbor.x) riskWeight : ℝ)

end Pathfinder

/-- An entry of the `openSet` array: `{x, y, f}` with the f-score frozen at
push time (the source never updates the `f` stored in the array, even when the
`fScore` map improves later). -/
structure PFNode where
  x : ℤ
  y : ℤ
  f : ℝ

/-- Association-list lookup for the `Map` objects keyed by `"x,y"` strings in
the source (the key encodes the cell injectively, so we key by the cell). -/
def lookupCell {α : Type} (l : List (Cell × α)) (c : Cell) : Option α :=
  match l with
  | [] => none
  | (k, v) :: t => if k = c then some v else lookupCell t c

namespace Pathfinder

/-- Insert one node into an ascending-by-`f` list, after all nodes of less or
equal `f` (this realizes the stability of `openSet.sort((a, b) => a.f - b.f)`:
ties keep their array order). -/
noncomputable def insertByF (n : PFNode) : List PFNode → List PFNode
  | [] => [n]
  | m :: ms => if m.f ≤ n.f then m :: insertByF n ms else n :: m :: ms

/-- `openSet.sort((a, b) => a.f - b.f)`: stable ascending sort by `f`. -/
noncomputable def sortByF (l : List PFNode) : List PFNode :=
  l.foldl (fun acc n => insertByF n acc) []

/-- The mutable state threaded through the neighbor loop of `findPath`. -/
structure SearchState where
  openSet : List PFNode
  cameFrom : List (Cell × Cell)
  gScore : List (Cell × ℝ)
  fScore : List (Cell × ℝ)

/-- The updates performed when a neighbor is relaxed successfully:
`cameFrom.set`, `gScore.set`, `fScore.set`, and a push onto `openSet` unless a
node with the same coordinates is already present (in which case the node in
the array keeps its stale `f`). -/
noncomputable def relaxUpdate (endNode current nb : Cell) (tentative : ℝ)
    (st : SearchState) : SearchState :=
  let newF := tentative + heuristic nb endNode
  { openSet :=
      if (st.openSet.find? fun n => decide (n.x = nb.x ∧ n.y = nb.y)).isSome
      then st.openSet
      else st.openSet ++ [⟨nb.x, nb.y, newF⟩],
    cameFrom := (nb, current) :: st.cameFrom,
    gScore := (nb, tentative) :: st.gScore,
    fScore := (nb, newF) :: st.fScore }

/-- The body of the `for (let neighbor of neighbors)` loop of `findPath`:
skip closed neighbors, skip cells of risk ≥ 100 (`ABSOLUTE RED LINE`),
otherwise relax when the neighbor has no g-score yet or the tentative g-score
improves on it. -/
noncomputable def relaxOne (pf : Pathfinder) (endNode : Cell) (riskWeight : ℚ)
    (current : Cell) (closedSet : List Cell) (st : SearchState) (nb : Cell) :
    SearchState :=
  if nb ∈ closedSet then st
  else
    let riskValue := pf.grid nb.y nb.x
    if 100 ≤ riskValue then st
    else
      let tentative := (lookupCell st.gScore current).getD 0
        + moveCost pf current nb riskWeight
      match lookupCell st.gScore nb with
      | none => relaxUpdate endNode current nb tentative st
      | some gOld =>
        if tentative < gOld then relaxUpdate endNode current nb tentative st else st

/-- The back-pointer walk of `reconstructPath`: follow `cameFrom` from the
goal node, prepending each predecessor. The fuel `cameFrom.length + 1` given
by `reconstructPath` is enough because the chain only moves through distinct
keys of `cameFrom` (every predecessor was closed strictly before its
successor's entry was written, and entries of closed keys are never
overwritten), so the source's unguarded `while` always terminates within it. -/
def reconstructWalk (cameFrom : List (Cell × Cell)) : ℕ → Cell → List Cell
  | 0, c => [c]
  | fuel + 1, c =>
    match lookupCell cameFrom c with
    | none => [c]
    | some prev => reconstructWalk cameFrom fuel prev ++ [c]

/-- `reconstructPath(cameFrom, current)`: walk the back-pointers, then map
every node to its geographic cell center via `gridToLatLng`. -/
def reconstructPath (pf : Pathfinder) (cameFrom : List (Cell × Cell))
    (current : Cell) : List LatLng :=
  (reconstructWalk cameFrom (cameFrom.length + 1) current).map pf.gridToLatLng

/-- The `while (openSet.length > 0)` loop of `findPath`: sort the open array
by frozen `f`, shift the first node, return the reconstructed path when it is
the goal, otherwise close it and relax its neighbors. The fuel argument makes
the model total; `findPath` passes `gridSize² + 1`, which is never exhausted
(each iteration closes a distinct valid cell — see the termination theorem),
so `none` is a marker for a case the source never reaches. -/
noncomputable def findPathLoop (pf : Pathfinder) (endNode : Cell) (riskWeight : ℚ) :
    ℕ → List PFNode → List Cell → List (Cell × Cell) → List (Cell × ℝ) →
    List (Cell × ℝ) → Option (List LatLng)
  | 0, _, _, _, _, _ => none
  | fuel + 1, openSet, closedSet, cameFrom, gScore, fScore =>
    match sortByF openSet with
    | [] => some []
    | current :: rest =>
      let currentCell : Cell := ⟨current.x, current.y⟩
      if current.x = endNode.x ∧ current.y = endNode.y then
        some (reconstructPath pf cameFrom currentCell)
      else
        let closedSet' := currentCell :: closedSet
        let st := (pf.getNeighbors current.x current.y).foldl
          (relaxOne pf endNode riskWeight currentCell closedSet')
          ⟨rest, cameFrom, gScore, fScore⟩
        findPathLoop pf endNode riskWeight fuel st.openSet closedSet' st.cameFrom
          st.gScore st.fScore

/-- The search of `findPath` after the bounds guard: initial open set
`[{x: startNode.x, y: startNode.y, f: heuristic(start, end)}]`, initial
g-score 0 and f-score `heuristic(start, end)` for the start key. -/
noncomputable def findPathRun (pf : Pathfinder) (startNode endNode : Cell)
    (riskWeight : ℚ) : Option (List LatLng) :=
  let h0 := heuristic startNode endNode
  findPathLoop pf endNode riskWeight (pf.gridSize.toNat * pf.gridSize.toNat + 1)
    [⟨startNode.x, startNode.y, h0⟩] [] [] [(startNode, 0)] [(startNode, h0)]

/-- `findPath(startLatLng, endLatLng, userRiskTolerance)` of `pathfinder.js`:
convert the endpoints to grid nodes, reject out-of-bounds endpoints with an
empty route, then run the A* loop. -/
noncomputable def findPath (pf : Pathfinder) (startLatLng endLatLng : LatLng)
    (userRiskTolerance : ℚ) : List LatLng :=
  let startNode := pf.latLngToGrid startLatLng
  let endNode := pf.latLngToGrid endLatLng
  if pf.isValid startNode.x startNode.y ∧ pf.isValid endNode.x endNode.y then
    (pf.findPathRun startNode endNode (riskWeightOf userRiskTolerance)).getD []
  else []

end Pathfinder

/-! ## Mission driver (`main.js`) -/

/-- The mission-related fields of the `missionState` object in `main.js`
(`droneMarker`, `trailLayer`, `intervalId` and `speed` are rendering/timer
handles with no algorithmic content and are omitted). -/
structure MissionState where
  active : Bool
  paused : Bool
  path : List LatLng
  currentIndex : ℕ
  progress : ℚ
  battery : ℚ
  trailPoints : List LatLng
deriving DecidableEq, Repr

/-- `startMission()` of `main.js`, restricted to its state effect: requires a
stored path of at least two points, then resets the mission state (including
the battery, which is set back to 100) and installs the calculated path. -/
def startMission (calculatedPath : List LatLng) (ms : MissionState) : MissionState :=
  if calculatedPath.length < 2 then ms
  else
    { active := true, paused := false, path := calculatedPath, currentIndex := 0,
      progress := 0, battery := 100,
      trailPoints := [calculatedPath.getD 0 ⟨0, 0⟩] }

/-- `pauseMission()` of `main.js`, restricted to its state effect. -/
def pauseMission (ms : MissionState) : MissionState :=
  if ms.active then { ms with paused := true } else ms

/-- `resumeMission()` of `main.js`, restricted to its state effect. -/
def resumeMission (ms : MissionState) : MissionState :=
  if ms.active then { ms with paused := false } else ms

/-- `abortMission()` of `main.js`, restricted to its state effect. -/
def abortMission (ms : MissionState) : MissionState :=
  { ms with active := false, paused := false }

/-- `finishMission()` of `main.js`, restricted to its state effect. -/
def finishMission (ms : MissionState) : MissionState :=
  { ms with active := false }

/-- One invocation of `simulationLoop()` in `main.js`, together with the
replanning continuation it schedules (`setTimeout(..., 1000)`) when the
sampled risk exceeds 60: the continuation runs while the mission is paused
and is modelled here as part of the same step, matching the specification's
synchronous-replanning description. Returns the updated mission state and the
updated `state.calculatedPath`. The UI, logging, marker and telemetry lines
of the source have no state effect and are omitted. -/
noncomputable def simulationTick (pf : Pathfinder) (endPoint : LatLng)
    (calculatedPath : List LatLng) (ms : MissionState) : MissionState × List LatLng :=
  if ms.battery ≤ 0 then (abortMission ms, calculatedPath)
  else
    let ms1 := { ms with progress := ms.progress + 1/5 }
    let ms2 :=
      if 1 ≤ ms1.progress then
        { ms1 with progress := 0, currentIndex := ms1.currentIndex + 1 }
      else ms1
    if (ms2.path.length : ℤ) - 1 ≤ ms2.currentIndex then
      (finishMission ms2, calculatedPath)
    else
      let currNode := ms2.path.getD ms2.currentIndex ⟨0, 0⟩
      let nextNode := ms2.path.getD (ms2.currentIndex + 1) ⟨0, 0⟩
      let currentPos : LatLng :=
        { lat := currNode.lat + (nextNode.lat - currNode.lat) * ms2.progress,
          lng := currNode.lng + (nextNode.lng - currNode.lng) * ms2.progress }
      let ms3 := { ms2 with trailPoints := ms2.trailPoints ++ [currentPos] }
      let ms4 := { ms3 with battery := ms3.battery - 1/2 }
      let risk := pf.getRisk currentPos
      if 60 < risk then
        if ms4.active ∧ ¬ms4.paused then
          let ms5 := pauseMission ms4
          let newPath := pf.findPath currentPos endPoint 10
          if newPath ≠ [] then
            let ms6 := { ms5 with path := newPath, currentIndex := 0, progress := 0 }
            let calculatedPath1 := newPath
            let ms7 := startMission calculatedPath1 ms6
            let ms8 := resumeMission ms7
            (ms8, calculatedPath1)
          else
            (abortMission ms5, calculatedPath)
        else (ms4, calculatedPath)
      else (ms4, calculatedPath)

/-! ## Spec-side definitions

These follow the specification's wording, for comparison against the
embedded source functions. -/

/-- The per-step cost as worded by the specification for claim C1: Euclidean
step distance plus `(cellRisk × riskWeight) / 10` where `cellRisk` is the
maximum of the terrain risk and the weather risk at the neighbor cell. -/
noncomputable def specMoveCost (pf : Pathfinder) (current neighbor : Cell)
    (riskWeight : ℚ) : ℝ :=
  let terrainRisk : ℝ := (pf.grid neighbor.y neighbor.x : ℝ)
  let weatherRisk : ℝ :=
    match pf.weather with
    | some ws => (ws.weatherGrid neighbor.y neighbor.x).risk
    | none => 0
  Pathfinder.distCost current neighbor
    + max terrainRisk weatherRisk * (riskWeight : ℝ) / 10

/-- An 8-connected route of grid cells from `s` to `g` avoiding every cell of
risk ≥ 100, the comparison class used by claim C4. -/
def isRoute (pf : Pathfinder) (s g : Cell) (cs : List Cell) : Prop :=
  cs.head? = some s ∧ cs.getLast? = some g ∧
  cs.Chain' (fun a b => b ∈ pf.getNeighbors a.x a.y) ∧
  ∀ c ∈ cs, pf.grid c.y c.x < 100

/-- The total Euclidean step length of a cell route (1 per orthogonal step,
√2 per diagonal step). -/
noncomputable def routeLen : List Cell → ℝ
  | [] => 0
  | [_] => 0
  | a :: b :: t => Pathfinder.distCost a b + routeLen (b :: t)

/-! ## Concrete instances used by witnesses and counterexamples -/

/-- A plain 60-cell pathfinder over the unit-per-cell box `[0,60] × [0,60]`,
all cells at base risk, no weather attached. -/
def pfPlain : Pathfinder :=
  { gridSize := 60, grid := fun _ _ => 10,
    bounds := { minLat := 0, maxLat := 60, minLng := 0, maxLng := 60 },
    weather := none }

/-- A plain 60-cell weather state with a calm grid and no patterns. -/
def wsPlain : WeatherState :=
  { gridSize := 60,
    weatherGrid := fun _ _ => { wind := 0, rain := 0, visibility := 100, risk := 0 },
    bounds := { minLat := 0, maxLat := 60, minLng := 0, maxLng := 60 },
    patterns := [], timeOffset := 0 }

/-- Weather state whose grid reports risk 50 everywhere (for the C1
counterexample: weather risk differs from terrain risk). -/
def wsRisk50 : WeatherState :=
  { wsPlain with
    weatherGrid := fun _ _ => { wind := 40, rain := 10, visibility := 80, risk := 50 } }

/-- Pathfinder with terrain risk 10 everywhere and an attached weather system
reporting weather risk 50 everywhere (C1 counterexample). -/
def pfC1 : Pathfinder :=
  { pfPlain with weather := some wsRisk50 }

/-- Weather state with a single fast-drifting pattern at the origin (C6
counterexample: a large displacement escapes the single wrap correction). -/
def wsC6 : WeatherState :=
  { wsPlain with
    patterns := [{ x := 0, y := 0, radius := 5, kind := WKind.wind,
                   intensity := 1, driftX := 1/20, driftY := 0 }] }

/-- A pathfinder for diffusion witnesses: a 3×3 grid whose center cell is a
wall (risk 100), everything else at base risk 10. -/
def pfDiff : Pathfinder :=
  { gridSize := 3,
    grid := fun yy xx => if xx = 1 ∧ yy = 1 then 100 else 10,
    bounds := { minLat := 0, maxLat := 3, minLng := 0, maxLng := 3 },
    weather := none }

/-- A square obstacle polygon strictly containing the center of cell
`(0, 0)` of a `[0,3] × [0,3]`, 3-cell grid and no other cell center. -/
def polyC2 : List LatLng :=
  [⟨1/4, 1/4⟩, ⟨1/4, 3/4⟩, ⟨3/4, 3/4⟩, ⟨3/4, 1/4⟩]

/-- Pathfinder whose obstacle set is registered through `initGrid` and
`markObstacles` (as `main.js` does before every `findPath` call): the single
polygon `polyC2` covers the start cell `(0, 0)` (C2 counterexample). -/
def pfC2 : Pathfinder :=
  (({ gridSize := 3, grid := fun _ _ => 0,
      bounds := { minLat := 0, maxLat := 0, minLng := 0, maxLng := 0 },
      weather := none } : Pathfinder).initGrid
    { minLat := 0, maxLat := 3, minLng := 0, maxLng := 3 }).markObstacles [polyC2]

/-- The center of cell `(0, 0)` of the `pfC2` grid. -/
def p00C2 : LatLng := ⟨1/2, 1/2⟩

/-- Weather state with one pattern just below the grid's maximum
x-coordinate with positive x-drift (C6 amended witness: it wraps to near 0). -/
def wsWrapEx : WeatherState :=
  { wsPlain with
    patterns := [{ x := 59, y := 0, radius := 5, kind := WKind.wind,
                   intensity := 1, driftX := 1/20, driftY := 0 }] }

/-- The loop invariant of the A* search: open nodes are valid, pairwise
distinct, not closed, and wall-free except possibly the start node; `cameFrom`
keys are valid wall-free cells, each adjacent to its predecessor value. -/
structure SearchInv (pf : Pathfinder) (startNode : Cell) (closed : List Cell)
    (st : Pathfinder.SearchState) : Prop where
  open_valid : ∀ n ∈ st.openSet, pf.isValid n.x n.y
  open_nodup : (st.openSet.map fun n => Cell.mk n.x n.y).Nodup
  open_closed : ∀ n ∈ st.openSet, Cell.mk n.x n.y ∉ closed
  open_risk : ∀ n ∈ st.openSet, Cell.mk n.x n.y = startNode ∨ pf.grid n.y n.x < 100
  cf_key_valid : ∀ e ∈ st.cameFrom, pf.isValid e.1.x e.1.y
  cf_key_risk : ∀ e ∈ st.cameFrom, pf.grid e.1.y e.1.x < 100
  cf_adj : ∀ e ∈ st.cameFrom, e.1 ∈ pf.getNeighbors e.2.x e.2.y
  cf_val_valid : ∀ e ∈ st.cameFrom, pf.isValid e.2.x e.2.y

/-- Obstacle polygons for the C3 failing input on a 4-cell grid over
`[0,4] × [0,4]`: the full rows `y = 0` and `y = 2` for `x = 0..2`, plus the
single cell `(0, 1)` — every 8-neighbor of cell `(1, 1)` except `(2, 1)`. -/
def polysC3 : List (List LatLng) :=
  [[⟨1/4, 1/4⟩, ⟨1/4, 11/4⟩, ⟨3/4, 11/4⟩, ⟨3/4, 1/4⟩],
   [⟨9/4, 1/4⟩, ⟨9/4, 11/4⟩, ⟨11/4, 11/4⟩, ⟨11/4, 1/4⟩],
   [⟨5/4, 1/4⟩, ⟨5/4, 3/4⟩, ⟨7/4, 3/4⟩, ⟨7/4, 1/4⟩]]

/-- A stormy weather state for the C3 failing input: weather risk 70
everywhere (maximum-combined risk at the drone's position exceeds 60). -/
def wsC3 : WeatherState :=
  { gridSize := 4,
    weatherGrid := fun _ _ => { wind := 65, rain := 30, visibility := 20, risk := 70 },
    bounds := { minLat := 0, maxLat := 4, minLng := 0, maxLng := 4 },
    patterns := [], timeOffset := 0 }

/-- The 4-cell pathfinder base for the C3 failing input, before obstacle
registration. -/
def pfC3base : Pathfinder :=
  ({ gridSize := 4, grid := fun _ _ => 0,
     bounds := { minLat := 0, maxLat := 0, minLng := 0, maxLng := 0 },
     weather := none } : Pathfinder).initGrid
    { minLat := 0, maxLat := 4, minLng := 0, maxLng := 4 }

/-- The C3 pathfinder: obstacles registered through `initGrid` and
`markObstacles`, with the weather system `wsC3` attached (as
`setWeatherSystem` does in `main.js`). -/
def pfC3 : Pathfinder :=
  { pfC3base.markObstacles polysC3 with weather := some wsC3 }

/-- The drone position for the C3 failing input: the center of cell `(1, 1)`. -/
def pC3 : LatLng := ⟨3/2, 3/2⟩

/-- The mission goal for the C3 failing input: the center of cell `(2, 1)`. -/
def endC3 : LatLng := ⟨3/2, 5/2⟩

/-- The mission state for the C3 failing input: mid-mission, battery 80. -/
def msC3 : MissionState :=
  { active := true, paused := false, path := [pC3, pC3], currentIndex := 0,
    progress := 3/5, battery := 80, trailPoints := [] }

/-- Obstacle polygons for the C4 counterexample on a 5-cell grid over
`[0,5] × [0,5]`: axis-aligned rectangles covering exactly the cells
`(1, 0..4)`, `(0, 2..4)`, `(3..4, 0)`, `(4, 1)`, `(3, 2)`, `(4, 3)` and
`(2, 4)` (coordinates as `(x, y)`). -/
def polysC4 : List (List LatLng) :=
  [[⟨1/4, 5/4⟩, ⟨1/4, 7/4⟩, ⟨19/4, 7/4⟩, ⟨19/4, 5/4⟩],
   [⟨9/4, 1/4⟩, ⟨9/4, 3/4⟩, ⟨19/4, 3/4⟩, ⟨19/4, 1/4⟩],
   [⟨1/4, 13/4⟩, ⟨1/4, 19/4⟩, ⟨3/4, 19/4⟩, ⟨3/4, 13/4⟩],
   [⟨5/4, 17/4⟩, ⟨5/4, 19/4⟩, ⟨7/4, 19/4⟩, ⟨7/4, 17/4⟩],
   [⟨9/4, 13/4⟩, ⟨9/4, 15/4⟩, ⟨11/4, 15/4⟩, ⟨11/4, 13/4⟩],
   [⟨13/4, 17/4⟩, ⟨13/4, 19/4⟩, ⟨15/4, 19/4⟩, ⟨15/4, 17/4⟩],
   [⟨17/4, 9/4⟩, ⟨17/4, 11/4⟩, ⟨19/4, 11/4⟩, ⟨19/4, 9/4⟩]]

/-- The 5-cell pathfinder base for the C4 counterexample, before obstacle
registration. -/
def pfC4base : Pathfinder :=
  ({ gridSize := 5, grid := fun _ _ => 0,
     bounds := { minLat := 0, maxLat := 0, minLng := 0, maxLng := 0 },
     weather := none } : Pathfinder).initGrid
    { minLat := 0, maxLat := 5, minLng := 0, maxLng := 5 }

/-- The C4 pathfinder: the `polysC4` obstacles registered through `initGrid`
and `markObstacles` on a 5-cell grid. -/
def pfC4 : Pathfinder :=
  pfC4base.markObstacles polysC4

/-- The C4 start point: the center of cell `(2, 0)`. -/
def startC4 : LatLng := ⟨1/2, 5/2⟩

/-- The C4 goal point: the center of cell `(4, 4)`. -/
def endC4 : LatLng := ⟨9/2, 9/2⟩

/-- A shorter admissible comparison route for C4 (total length `2 + 2√2`):
two orthogonal steps down the free column `x = 2`, then two diagonal steps. -/
def optRouteC4 : List Cell := [⟨2, 0⟩, ⟨2, 1⟩, ⟨2, 2⟩, ⟨3, 3⟩, ⟨4, 4⟩]

/-! ## Helper lemmas -/

/-- Round trip of the coordinate transform: the center of a valid cell maps
back to that cell (used by C8 and by the route-safety claims). -/
theorem latLngToGrid_cellCenter (pf : Pathfinder) (x y : ℤ)
    (hx0 : 0 ≤ x) (hxN : x < pf.gridSize) (hy0 : 0 ≤ y) (hyN : y < pf.gridSize)
    (hlat : pf.bounds.minLat < pf.bounds.maxLat)
    (hlng : pf.bounds.minLng < pf.bounds.maxLng) :
    pf.latLngToGrid (pf.gridToLatLng ⟨x, y⟩) = ⟨x, y⟩ := by
  have hN : (0 : ℤ) < pf.gridSize := lt_of_le_of_lt hx0 hxN
  have hNQ : (pf.gridSize : ℚ) ≠ 0 := Int.cast_ne_zero.mpr (ne_of_gt hN)
  have hlatR : pf.bounds.maxLat - pf.bounds.minLat ≠ 0 :=
    ne_of_gt (sub_pos.mpr hlat)
  have hlngR : pf.bounds.maxLng - pf.bounds.minLng ≠ 0 :=
    ne_of_gt (sub_pos.mpr hlng)
  unfold Pathfinder.latLngToGrid Pathfinder.gridToLatLng Pathfinder.cellCenter
  have elat : (pf.bounds.minLat + ((y : ℚ) + 1/2) *
      ((pf.bounds.maxLat - pf.bounds.minLat) / (pf.gridSize : ℚ)) - pf.bounds.minLat) /
      (pf.bounds.maxLat - pf.bounds.minLat) * (pf.gridSize : ℚ) = (y : ℚ) + 1/2 := by
    field_simp
    ring
  have elng : (pf.bounds.minLng + ((x : ℚ) + 1/2) *
      ((pf.bounds.maxLng - pf.bounds.minLng) / (pf.gridSize : ℚ)) - pf.bounds.minLng) /
      (pf.bounds.maxLng - pf.bounds.minLng) * (pf.gridSize : ℚ) = (x : ℚ) + 1/2 := by
    field_simp
    ring
  simp only [elat, elng]
  have fy : ⌊(y : ℚ) + 1/2⌋ = y := by
    have : ⌊(y : ℚ) + 1/2⌋ = y + ⌊(1/2 : ℚ)⌋ := Int.floor_int_add y (1/2 : ℚ)
    simp [this]
    norm_num
  have fx : ⌊(x : ℚ) + 1/2⌋ = x := by
    have : ⌊(x : ℚ) + 1/2⌋ = x + ⌊(1/2 : ℚ)⌋ := Int.floor_int_add x (1/2 : ℚ)
    simp [this]
    norm_num
  rw [fx, fy]
  have : min y (pf.gridSize - 1) = y := min_eq_left (by omega)
  rw [this]
  have : min x (pf.gridSize - 1) = x := min_eq_left (by omega)
  rw [this]
  simp [max_eq_right hx0, max_eq_right hy0]

/-- Validity of the clamped output of `latLngToGrid` (used by C9). -/
theorem latLngToGrid_valid (pf : Pathfinder) (hN : 0 < pf.gridSize) (p : LatLng) :
    pf.isValid (pf.latLngToGrid p).x (pf.latLngToGrid p).y := by
  unfold Pathfinder.latLngToGrid Pathfinder.isValid
  refine ⟨le_max_left _ _, ?_, le_max_left _ _, ?_⟩
  · exact max_lt (by omega) (lt_of_le_of_lt (min_le_right _ _) (by omega))
  · exact max_lt (by omega) (lt_of_le_of_lt (min_le_right _ _) (by omega))

/-- Validity of the clamped output of the weather module's `latLngToGrid`. -/
theorem ws_latLngToGrid_valid (ws : WeatherState) (hN : 0 < ws.gridSize)
    (p : LatLng) :
    ws.isValid (ws.latLngToGrid p).x (ws.latLngToGrid p).y := by
  unfold WeatherState.latLngToGrid WeatherState.isValid
  refine ⟨le_max_left _ _, ?_, le_max_left _ _, ?_⟩
  · exact max_lt (by omega) (lt_of_le_of_lt (min_le_right _ _) (by omega))
  · exact max_lt (by omega) (lt_of_le_of_lt (min_le_right _ _) (by omega))

/-- One wrap correction keeps a coordinate in `[0, gridSize)` provided the
displacement is at most one grid width (used by the amended C6). -/
theorem wrapCoord_mem (g v d : ℚ) (h0 : 0 ≤ v) (hg : v < g) (hd : |d| ≤ g) :
    0 ≤ WeatherState.wrapCoord g (v + d) ∧ WeatherState.wrapCoord g (v + d) < g := by
  rw [abs_le] at hd
  unfold WeatherState.wrapCoord
  dsimp only
  split_ifs with h1 h2 h3 <;> constructor <;> linarith

/-! ## Claim theorems -/

/-- Claim C8 (confirmed): for every grid cell `(x, y)` with `0 ≤ x < N` and
`0 ≤ y < N`, and every bounding region with `minLat < maxLat` and
`minLng < maxLng`, mapping the cell to its geographic center via
`gridToLatLng` and back via `latLngToGrid` yields the same cell coordinate. -/
theorem C8_roundtrip (pf : Pathfinder) (x y : ℤ)
    (hx0 : 0 ≤ x) (hxN : x < pf.gridSize) (hy0 : 0 ≤ y) (hyN : y < pf.gridSize)
    (hlat : pf.bounds.minLat < pf.bounds.maxLat)
    (hlng : pf.bounds.minLng < pf.bounds.maxLng) :
    pf.latLngToGrid (pf.gridToLatLng ⟨x, y⟩) = ⟨x, y⟩ :=
  latLngToGrid_cellCenter pf x y hx0 hxN hy0 hyN hlat hlng

/-- Witness for C8: the round trip at the concrete cell `(7, 11)` of the
60-cell pathfinder. -/
theorem C8_roundtrip_witness :
    ((0 : ℤ) ≤ 7 ∧ (7 : ℤ) < pfPlain.gridSize ∧ (0 : ℤ) ≤ 11 ∧
      (11 : ℤ) < pfPlain.gridSize ∧
      pfPlain.bounds.minLat < pfPlain.bounds.maxLat ∧
      pfPlain.bounds.minLng < pfPlain.bounds.maxLng) ∧
    pfPlain.latLngToGrid (pfPlain.gridToLatLng ⟨7, 11⟩) = ⟨7, 11⟩ :=
  ⟨⟨by decide, by decide, by decide, by decide, by decide, by decide⟩,
   C8_roundtrip pfPlain 7 11 (by decide) (by decide) (by decide) (by decide)
     (by decide) (by decide)⟩

/-- Claim C9 (confirmed): `latLngToGrid` clamps every geographic point —
including out-of-region ones — to a valid cell, so the out-of-bounds
rejection branch of `findPath` is unreachable (the guard always holds and
`findPath` always runs the search), the weather sampler never takes its
invalid-cell fallback, and terrain risk sampling never takes its
invalid-cell branch. -/
theorem C9_clamping (pf : Pathfinder) (ws : WeatherState)
    (hN : 0 < pf.gridSize) (hNw : 0 < ws.gridSize) :
    (∀ p : LatLng, pf.isValid (pf.latLngToGrid p).x (pf.latLngToGrid p).y) ∧
    (∀ (s e : LatLng) (tol : ℚ),
      pf.findPath s e tol =
        (pf.findPathRun (pf.latLngToGrid s) (pf.latLngToGrid e)
          (Pathfinder.riskWeightOf tol)).getD []) ∧
    (∀ p : LatLng,
      ws.getWeatherAt p =
        ws.weatherGrid (ws.latLngToGrid p).y (ws.latLngToGrid p).x) ∧
    (∀ p : LatLng,
      pf.getRisk p = min 100
        (match pf.weather with
         | some w => max (pf.grid (pf.latLngToGrid p).y (pf.latLngToGrid p).x : ℝ)
             (w.getRisk p)
         | none => (pf.grid (pf.latLngToGrid p).y (pf.latLngToGrid p).x : ℝ))) := by
  refine ⟨latLngToGrid_valid pf hN, ?_, ?_, ?_⟩
  · intro s e tol
    unfold Pathfinder.findPath
    rw [if_pos ⟨latLngToGrid_valid pf hN s, latLngToGrid_valid pf hN e⟩]
  · intro p
    unfold WeatherState.getWeatherAt
    rw [if_pos (ws_latLngToGrid_valid ws hNw p)]
  · intro p
    unfold Pathfinder.getRisk
    dsimp only
    rw [if_pos (latLngToGrid_valid pf hN p)]

/-- Witness for C9: the clamp maps the far-out-of-region point
`(-500, 9999)` of the 60-cell pathfinder to a valid cell. -/
theorem C9_clamping_witness :
    (0 < pfPlain.gridSize ∧ 0 < wsPlain.gridSize) ∧
    pfPlain.isValid (pfPlain.latLngToGrid ⟨-500, 9999⟩).x
      (pfPlain.latLngToGrid ⟨-500, 9999⟩).y :=
  ⟨⟨by decide, by decide⟩,
   (C9_clamping pfPlain wsPlain (by decide) (by decide)).1 ⟨-500, 9999⟩⟩

/-- Counterexample for C6: the wrap in `update` applies at most one grid-width
correction, so a pattern displaced by two grid widths (drift `1/20` for
`dt = 2400` from `x = 0` on the 60-cell grid) ends at `x = 60`, outside
`[0, gridSize)`, refuting the claim for arbitrary `dt ≥ 0` and states. -/
theorem C6_counterexample :
    ¬ ∀ q ∈ (wsC6.update 2400 fun _ _ => 0).patterns,
        0 ≤ q.x ∧ q.x < (wsC6.gridSize : ℚ) ∧ 0 ≤ q.y ∧ q.y < (wsC6.gridSize : ℚ) := by
  intro h
  obtain ⟨-, h2, -, -⟩ :=
    h { x := 60, y := 0, radius := 5, kind := WKind.wind,
        intensity := 1, driftX := 1/20, driftY := 0 }
      (by
        simp [wsC6, wsPlain, WeatherState.update, WeatherState.updateGrid,
          WeatherState.wrapCoord]
        norm_num)
  norm_num [wsC6, wsPlain] at h2

/-- Claim C6 (corrected): `update(dt)` moves each system's position by
`drift × dt` and then applies at most one wraparound correction per axis;
provided every system starts inside `[0, gridSize)` and each per-axis
displacement `drift × dt` has magnitude at most `gridSize`, every updated
coordinate lies in `[0, gridSize)` (for larger displacements the single
correction is not enough — see the counterexample). -/
theorem C6_update_wrap (ws : WeatherState) (dt : ℚ) (rand : ℤ → ℤ → ℝ)
    (hin : ∀ p ∈ ws.patterns,
      0 ≤ p.x ∧ p.x < (ws.gridSize : ℚ) ∧ 0 ≤ p.y ∧ p.y < (ws.gridSize : ℚ))
    (hdx : ∀ p ∈ ws.patterns, |p.driftX * dt| ≤ (ws.gridSize : ℚ))
    (hdy : ∀ p ∈ ws.patterns, |p.driftY * dt| ≤ (ws.gridSize : ℚ)) :
    (ws.update dt rand).patterns =
      (ws.patterns.map fun (p : WPattern) =>
        { p with
          x := WeatherState.wrapCoord ws.gridSize (p.x + p.driftX * dt),
          y := WeatherState.wrapCoord ws.gridSize (p.y + p.driftY * dt) }) ∧
    ∀ q ∈ (ws.update dt rand).patterns,
      0 ≤ q.x ∧ q.x < (ws.gridSize : ℚ) ∧ 0 ≤ q.y ∧ q.y < (ws.gridSize : ℚ) := by
  have hpat : (ws.update dt rand).patterns =
      (ws.patterns.map fun (p : WPattern) =>
        { p with
          x := WeatherState.wrapCoord ws.gridSize (p.x + p.driftX * dt),
          y := WeatherState.wrapCoord ws.gridSize (p.y + p.driftY * dt) }) := rfl
  refine ⟨hpat, ?_⟩
  intro q hq
  rw [hpat] at hq
  obtain ⟨p, hp, rfl⟩ := List.mem_map.mp hq
  obtain ⟨ha, hb, hc, hd⟩ := hin p hp
  have wx := wrapCoord_mem (ws.gridSize : ℚ) p.x (p.driftX * dt) ha hb (hdx p hp)
  have wy := wrapCoord_mem (ws.gridSize : ℚ) p.y (p.driftY * dt) hc hd (hdy p hp)
  exact ⟨wx.1, wx.2, wy.1, wy.2⟩

/-- Witness for the amended C6: a system at `x = 59` (the grid's maximum
x-cell) with positive drift `1/20` over `dt = 40` wraps to `x = 1`, near 0 and
inside `[0, 60)`. -/
theorem C6_update_wrap_witness :
    ((∀ p ∈ wsWrapEx.patterns,
        0 ≤ p.x ∧ p.x < (wsWrapEx.gridSize : ℚ) ∧ 0 ≤ p.y ∧ p.y < (wsWrapEx.gridSize : ℚ)) ∧
      (∀ p ∈ wsWrapEx.patterns, |p.driftX * 40| ≤ (wsWrapEx.gridSize : ℚ)) ∧
      (∀ p ∈ wsWrapEx.patterns, |p.driftY * 40| ≤ (wsWrapEx.gridSize : ℚ))) ∧
    (∀ q ∈ (wsWrapEx.update 40 fun _ _ => 0).patterns,
      0 ≤ q.x ∧ q.x < (wsWrapEx.gridSize : ℚ) ∧ 0 ≤ q.y ∧ q.y < (wsWrapEx.gridSize : ℚ)) ∧
    (wsWrapEx.update 40 fun _ _ => 0).patterns =
      [{ x := 1, y := 0, radius := 5, kind := WKind.wind,
         intensity := 1, driftX := 1/20, driftY := 0 }] := by
  have h1 : ∀ p ∈ wsWrapEx.patterns,
      0 ≤ p.x ∧ p.x < (wsWrapEx.gridSize : ℚ) ∧ 0 ≤ p.y ∧ p.y < (wsWrapEx.gridSize : ℚ) := by
    intro p hp
    simp only [wsWrapEx, wsPlain, List.mem_singleton] at hp
    subst hp
    norm_num [wsWrapEx, wsPlain]
  have h2 : ∀ p ∈ wsWrapEx.patterns, |p.driftX * 40| ≤ (wsWrapEx.gridSize : ℚ) := by
    intro p hp
    simp only [wsWrapEx, wsPlain, List.mem_singleton] at hp
    subst hp
    norm_num [wsWrapEx, wsPlain]
  have h3 : ∀ p ∈ wsWrapEx.patterns, |p.driftY * 40| ≤ (wsWrapEx.gridSize : ℚ) := by
    intro p hp
    simp only [wsWrapEx, wsPlain, List.mem_singleton] at hp
    subst hp
    norm_num [wsWrapEx, wsPlain]
  refine ⟨⟨h1, h2, h3⟩, (C6_update_wrap wsWrapEx 40 (fun _ _ => 0) h1 h2 h3).2, ?_⟩
  simp [wsWrapEx, wsPlain, WeatherState.update, WeatherState.updateGrid,
    WeatherState.wrapCoord]
  norm_num

/-- Claim C7 (confirmed): after every weather-grid recomputation, every cell
has wind in [0,100], rain in [0,50], visibility in [0,100] and risk in
[0,100], and the stored risk equals
`min(100, 1.5·max(0, wind−20) + 2·max(0, rain−10) + 1.5·max(0, 80−visibility))`
computed from the clamped channel values of that cell. -/
theorem C7_updateGrid_ranges (ws : WeatherState) (rand : ℤ → ℤ → ℝ) (x y : ℤ) :
    (0 ≤ ((ws.updateGrid rand).weatherGrid y x).wind ∧
      ((ws.updateGrid rand).weatherGrid y x).wind ≤ 100) ∧
    (0 ≤ ((ws.updateGrid rand).weatherGrid y x).rain ∧
      ((ws.updateGrid rand).weatherGrid y x).rain ≤ 50) ∧
    (0 ≤ ((ws.updateGrid rand).weatherGrid y x).visibility ∧
      ((ws.updateGrid rand).weatherGrid y x).visibility ≤ 100) ∧
    (0 ≤ ((ws.updateGrid rand).weatherGrid y x).risk ∧
      ((ws.updateGrid rand).weatherGrid y x).risk ≤ 100) ∧
    ((ws.updateGrid rand).weatherGrid y x).risk =
      min 100 (1.5 * max 0 (((ws.updateGrid rand).weatherGrid y x).wind - 20)
        + 2 * max 0 (((ws.updateGrid rand).weatherGrid y x).rain - 10)
        + 1.5 * max 0 (80 - ((ws.updateGrid rand).weatherGrid y x).visibility)) := by
  simp only [WeatherState.updateGrid, WeatherState.cellAt]
  refine ⟨⟨?_, ?_⟩, ⟨?_, ?_⟩, ⟨?_, ?_⟩, ⟨?_, ?_⟩, ?_⟩
  · exact le_min (by norm_num) (le_max_left 0 _)
  · exact min_le_left _ _
  · exact le_min (by norm_num) (le_max_left 0 _)
  · exact min_le_left _ _
  · exact le_min (by norm_num) (le_max_left 0 _)
  · exact min_le_left _ _
  · refine le_min (by norm_num) ?_
    have h1 : (0 : ℝ) ≤ max 0 ((min 100 (max 0 ((WeatherState.accumulate ws.patterns x y).1 + rand x y * 5)) - 20) * 1.5) := le_max_left 0 _
    have h2 : (0 : ℝ) ≤ max 0 ((min 50 (max 0 (WeatherState.accumulate ws.patterns x y).2.1) - 10) * 2) := le_max_left 0 _
    have h3 : (0 : ℝ) ≤ max 0 ((80 - min 100 (max 0 (WeatherState.accumulate ws.patterns x y).2.2)) * 1.5) := le_max_left 0 _
    linarith
  · exact min_le_left _ _
  · congr 1
    have e1 : ∀ a : ℝ, max 0 ((a - 20) * 1.5) = 1.5 * max 0 (a - 20) := by
      intro a
      rw [mul_comm, mul_max_of_nonneg _ _ (by norm_num : (0:ℝ) ≤ 1.5)]
      norm_num
    have e2 : ∀ a : ℝ, max 0 ((a - 10) * 2) = 2 * max 0 (a - 10) := by
      intro a
      rw [mul_comm, mul_max_of_nonneg _ _ (by norm_num : (0:ℝ) ≤ 2)]
      norm_num
    have e3 : ∀ a : ℝ, max 0 ((80 - a) * 1.5) = 1.5 * max 0 (80 - a) := by
      intro a
      rw [mul_comm, mul_max_of_nonneg _ _ (by norm_num : (0:ℝ) ≤ 1.5)]
      norm_num
    rw [e1, e2, e3]
    ring

/-- Claim C5 (confirmed): each diffusion pass leaves every cell of risk ≥ 100
unchanged, never decreases any cell's risk, and raises a non-block cell to
exactly `floor(maxNeighborRisk · 0.6)` (the maximum pre-pass risk among its
8-connected neighbors) precisely when that maximum exceeds 15 and the floored
value exceeds the cell's current risk; otherwise the cell is unchanged. -/
theorem C5_diffusion_pass (pf : Pathfinder) (x y : ℤ) (hv : pf.isValid x y) :
    (100 ≤ pf.grid y x → pf.applyRiskDiffusion.grid y x = pf.grid y x) ∧
    pf.grid y x ≤ pf.applyRiskDiffusion.grid y x ∧
    (pf.grid y x < 100 →
      pf.applyRiskDiffusion.grid y x =
        if 15 < pf.maxNeighborRisk x y ∧ pf.grid y x < 3 * pf.maxNeighborRisk x y / 5
        then 3 * pf.maxNeighborRisk x y / 5
        else pf.grid y x) ∧
    3 * pf.maxNeighborRisk x y / 5 = ⌊(pf.maxNeighborRisk x y : ℚ) * (3 / 5)⌋₊ := by
  have hfloor : 3 * pf.maxNeighborRisk x y / 5 =
      ⌊(pf.maxNeighborRisk x y : ℚ) * (3 / 5)⌋₊ := by
    have : (pf.maxNeighborRisk x y : ℚ) * (3 / 5) =
        ((3 * pf.maxNeighborRisk x y : ℕ) : ℚ) / ((5 : ℕ) : ℚ) := by
      push_cast
      ring
    rw [this, Nat.floor_div_nat, Nat.floor_natCast]
  refine ⟨?_, ?_, ?_, hfloor⟩
  · intro h
    simp only [Pathfinder.applyRiskDiffusion]
    rw [if_neg]
    intro hc
    omega
  · simp only [Pathfinder.applyRiskDiffusion]
    split_ifs <;> omega
  · intro h
    simp only [Pathfinder.applyRiskDiffusion]
    rw [if_pos ⟨hv, h⟩]

/-- Witness for C5: in the 3×3 grid whose center is a wall, diffusion raises
the corner cell `(0, 0)` from 10 to `floor(100 · 0.6) = 60`. -/
theorem C5_diffusion_pass_witness :
    pfDiff.isValid 0 0 ∧
    pfDiff.grid 0 0 ≤ pfDiff.applyRiskDiffusion.grid 0 0 ∧
    pfDiff.applyRiskDiffusion.grid 0 0 = 60 :=
  ⟨by decide, (C5_diffusion_pass pfDiff 0 0 (by decide)).2.1, by decide⟩

/-- Characterization of `getNeighbors` membership: a neighbor is valid and
differs from the center by one of the eight direction offsets. -/
theorem getNeighbors_charact (pf : Pathfinder) (x y : ℤ) (nb : Cell)
    (h : nb ∈ pf.getNeighbors x y) :
    pf.isValid nb.x nb.y ∧
    ((nb.x = x ∧ nb.y = y - 1) ∨ (nb.x = x ∧ nb.y = y + 1) ∨
     (nb.x = x - 1 ∧ nb.y = y) ∨ (nb.x = x + 1 ∧ nb.y = y) ∨
     (nb.x = x - 1 ∧ nb.y = y - 1) ∨ (nb.x = x + 1 ∧ nb.y = y - 1) ∨
     (nb.x = x - 1 ∧ nb.y = y + 1) ∨ (nb.x = x + 1 ∧ nb.y = y + 1)) := by
  simp only [Pathfinder.getNeighbors, List.mem_filter, List.mem_map] at h
  obtain ⟨⟨d, hd, rfl⟩, hval⟩ := h
  refine ⟨by simpa using hval, ?_⟩
  fin_cases hd <;> simp <;> omega

/-- Claim C1 (corrected): for `riskTolerance ∈ [0, 100]`,
`riskWeight = max(0, (100 − riskTolerance)/2) = (100 − riskTolerance)/2` and
the cost of moving into an admissible neighbor is the Euclidean step distance
(1 orthogonal, √2 diagonal) plus `(terrainRisk × riskWeight) / 10`, where
`terrainRisk` is the terrain grid value at the neighbor cell alone: the
weather risk is not consulted by `findPath` (see the counterexample). -/
theorem C1_cost_formula (pf : Pathfinder) (tol : ℚ) (h0 : 0 ≤ tol) (h1 : tol ≤ 100)
    (cur nb : Cell) (hnb : nb ∈ pf.getNeighbors cur.x cur.y) :
    Pathfinder.riskWeightOf tol = (100 - tol) / 2 ∧
    Pathfinder.moveCost pf cur nb (Pathfinder.riskWeightOf tol) =
      (if cur.x ≠ nb.x ∧ cur.y ≠ nb.y then Real.sqrt 2 else 1)
        + (pf.grid nb.y nb.x : ℝ) * (((100 - tol) / 2 : ℚ) : ℝ) / 10 := by
  have hw : Pathfinder.riskWeightOf tol = (100 - tol) / 2 := by
    unfold Pathfinder.riskWeightOf
    exact max_eq_right (by linarith)
  refine ⟨hw, ?_⟩
  have hrisk : ((Pathfinder.riskCost (pf.grid nb.y nb.x)
      (Pathfinder.riskWeightOf tol) : ℚ) : ℝ)
      = (pf.grid nb.y nb.x : ℝ) * (((100 - tol) / 2 : ℚ) : ℝ) / 10 := by
    rw [hw]
    unfold Pathfinder.riskCost
    push_cast
    ring
  unfold Pathfinder.moveCost
  rw [hrisk]
  congr 1
  obtain ⟨-, hcase⟩ := getNeighbors_charact pf cur.x cur.y nb hnb
  unfold Pathfinder.distCost
  rcases hcase with ⟨hx, hy⟩ | ⟨hx, hy⟩ | ⟨hx, hy⟩ | ⟨hx, hy⟩ |
    ⟨hx, hy⟩ | ⟨hx, hy⟩ | ⟨hx, hy⟩ | ⟨hx, hy⟩
  · rw [hx, hy, if_neg (fun hcon => hcon.1 rfl)]
    push_cast
    ring_nf
    norm_num [Real.sqrt_one]
  · rw [hx, hy, if_neg (fun hcon => hcon.1 rfl)]
    push_cast
    ring_nf
    norm_num [Real.sqrt_one]
  · rw [hx, hy, if_neg (fun hcon => hcon.2 rfl)]
    push_cast
    ring_nf
    norm_num [Real.sqrt_one]
  · rw [hx, hy, if_neg (fun hcon => hcon.2 rfl)]
    push_cast
    ring_nf
    norm_num [Real.sqrt_one]
  · rw [hx, hy, if_pos ⟨by omega, by omega⟩]
    push_cast
    ring_nf
  · rw [hx, hy, if_pos ⟨by omega, by omega⟩]
    push_cast
    ring_nf
  · rw [hx, hy, if_pos ⟨by omega, by omega⟩]
    push_cast
    ring_nf
  · rw [hx, hy, if_pos ⟨by omega, by omega⟩]
    push_cast
    ring_nf

/-- Witness for the amended C1 at tolerance 50 and the orthogonal step
`(0,0) → (1,0)` of the plain 60-cell pathfinder. -/
theorem C1_cost_formula_witness :
    ((0 : ℚ) ≤ 50 ∧ (50 : ℚ) ≤ 100 ∧
      (⟨1, 0⟩ : Cell) ∈ pfPlain.getNeighbors (Cell.mk 0 0).x (Cell.mk 0 0).y) ∧
    (Pathfinder.riskWeightOf 50 = (100 - 50) / 2 ∧
      Pathfinder.moveCost pfPlain ⟨0, 0⟩ ⟨1, 0⟩ (Pathfinder.riskWeightOf 50) =
        (if (Cell.mk 0 0).x ≠ (Cell.mk 1 0).x ∧ (Cell.mk 0 0).y ≠ (Cell.mk 1 0).y
         then Real.sqrt 2 else 1)
          + (pfPlain.grid (Cell.mk 1 0).y (Cell.mk 1 0).x : ℝ)
            * (((100 - 50) / 2 : ℚ) : ℝ) / 10) :=
  ⟨⟨by norm_num, by norm_num, by decide⟩,
   C1_cost_formula pfPlain 50 (by norm_num) (by norm_num) ⟨0, 0⟩ ⟨1, 0⟩ (by decide)⟩

/-- Counterexample for C1: with terrain risk 10 and weather risk 50 at the
target cell and tolerance 50 (`riskWeight = 25`), `findPath`'s step cost is
`1 + (10 · 25)/10 = 26`, but the claimed formula with
`cellRisk = max(terrain, weather) = 50` gives `1 + (50 · 25)/10 = 126`: the
cost used by `findPath` reads the terrain grid only. -/
theorem C1_counterexample :
    Pathfinder.moveCost pfC1 ⟨0, 0⟩ ⟨1, 0⟩ (Pathfinder.riskWeightOf 50) ≠
      specMoveCost pfC1 ⟨0, 0⟩ ⟨1, 0⟩ (Pathfinder.riskWeightOf 50) := by
  intro h
  simp only [Pathfinder.moveCost, specMoveCost, Pathfinder.distCost,
    Pathfinder.riskCost, Pathfinder.riskWeightOf, pfC1, pfPlain, wsRisk50,
    wsPlain] at h
  norm_num [Real.sqrt_one] at h

/-- `findPath` with equal start and goal returns the singleton route of the
shared cell's center — without ever checking that cell's risk. -/
theorem findPath_self (pf : Pathfinder) (s : LatLng) (tol : ℚ)
    (hv : pf.isValid (pf.latLngToGrid s).x (pf.latLngToGrid s).y) :
    pf.findPath s s tol = [pf.gridToLatLng (pf.latLngToGrid s)] := by
  unfold Pathfinder.findPath
  rw [if_pos ⟨hv, hv⟩]
  unfold Pathfinder.findPathRun
  simp only [Pathfinder.findPathLoop, Pathfinder.sortByF, Pathfinder.insertByF,
    List.foldl]
  rw [if_pos ⟨trivial, trivial⟩]
  unfold Pathfinder.reconstructPath Pathfinder.reconstructWalk
  simp [lookupCell]

/-- Bounding a `foldl max` accumulation by a common bound. -/
theorem foldl_max_le {α : Type} (l : List α) (f : α → ℕ) (bound : ℕ)
    (h : ∀ c ∈ l, f c ≤ bound) :
    ∀ init, init ≤ bound → l.foldl (fun m n => max m (f n)) init ≤ bound := by
  induction l with
  | nil =>
    intro init hi
    simpa using hi
  | cons a t ih =>
    intro init hi
    simp only [List.foldl_cons]
    exact ih (fun c hc => h c (List.mem_cons_of_mem a hc)) _
      (max_le hi (h a (List.mem_cons_self a t)))

/-- On a grid bounded by 100, the maximum neighbor risk is bounded by 100. -/
theorem maxNeighborRisk_le (pf : Pathfinder) (hle : ∀ x y : ℤ, pf.grid y x ≤ 100)
    (x y : ℤ) : pf.maxNeighborRisk x y ≤ 100 :=
  foldl_max_le _ _ _ (fun c _ => hle c.x c.y) 0 (by norm_num)

/-- On a grid bounded by 100, one diffusion pass keeps the bound and changes
no cell's wall status (risk ≥ 100 holds after iff it held before). -/
theorem applyRiskDiffusion_wall (pf : Pathfinder)
    (hle : ∀ x y : ℤ, pf.grid y x ≤ 100) (x y : ℤ) :
    pf.applyRiskDiffusion.grid y x ≤ 100 ∧
    (100 ≤ pf.applyRiskDiffusion.grid y x ↔ 100 ≤ pf.grid y x) := by
  have hm := maxNeighborRisk_le pf hle x y
  have hg := hle x y
  simp only [Pathfinder.applyRiskDiffusion]
  split_ifs with h1 h2
  · obtain ⟨-, hlt⟩ := h1
    omega
  · exact ⟨hg, Iff.rfl⟩
  · exact ⟨hg, Iff.rfl⟩

/-- After `markObstacles`, a cell is a wall (risk ≥ 100, in fact exactly 100)
iff its center lies inside some registered polygon, and every cell's risk is
at most 100: the marking writes exactly 100 on covered cells and 10
elsewhere, and the two diffusion passes preserve both facts. -/
theorem markObstacles_wall_iff (pf : Pathfinder) (polys : List (List LatLng))
    (x y : ℤ) :
    ((pf.markObstacles polys).grid y x = 100 ↔
      (polys.any fun poly =>
        Pathfinder.isPointInPolygon
          (Pathfinder.cellCenter pf.bounds pf.gridSize x y) poly) = true) ∧
    (pf.markObstacles polys).grid y x ≤ 100 := by
  simp only [Pathfinder.markObstacles]
  set marked : Pathfinder :=
    { pf with
      grid := fun yy xx =>
        if polys.any fun poly =>
            Pathfinder.isPointInPolygon
              (Pathfinder.cellCenter pf.bounds pf.gridSize xx yy) poly
        then 100 else 10 } with hmarked
  have hleM : ∀ xx yy : ℤ, marked.grid yy xx ≤ 100 := by
    intro xx yy
    simp only [hmarked]
    split_ifs <;> norm_num
  have hle1 : ∀ xx yy : ℤ, marked.applyRiskDiffusion.grid yy xx ≤ 100 :=
    fun xx yy => (applyRiskDiffusion_wall marked hleM xx yy).1
  have h2 := applyRiskDiffusion_wall marked.applyRiskDiffusion hle1 x y
  have h1 := applyRiskDiffusion_wall marked hleM x y
  have hmv : 100 ≤ marked.grid y x ↔
      (polys.any fun poly =>
        Pathfinder.isPointInPolygon
          (Pathfinder.cellCenter pf.bounds pf.gridSize x y) poly) = true := by
    simp only [hmarked]
    split_ifs with hh
    · simp [hh]
    · simp [hh]
  refine ⟨?_, h2.1⟩
  constructor
  · intro he
    exact hmv.mp (h1.2.mp (h2.2.mp (by omega)))
  · intro ha
    have := h2.2.mpr (h1.2.mpr (hmv.mpr ha))
    omega

/-- Counterexample for C2: with the obstacle polygon `polyC2` registered
through `initGrid` and `markObstacles`, the start cell `(0, 0)` has risk
exactly 100, yet `findPath` from that cell's center to itself returns the
non-empty route `[p00C2]` whose only point is the center of that risk-100
cell — `findPath` never checks the start cell's risk. -/
theorem C2_counterexample :
    pfC2.grid 0 0 = 100 ∧
    pfC2.latLngToGrid p00C2 = ⟨0, 0⟩ ∧
    pfC2.findPath p00C2 p00C2 50 = [p00C2] := by
  have hgrid : pfC2.grid 0 0 = 100 := by
    refine (markObstacles_wall_iff _ [polyC2] 0 0).1.mpr ?_
    norm_num [Pathfinder.isPointInPolygon, Pathfinder.cellCenter, Pathfinder.initGrid,
      polyC2, List.range, List.range.loop]
  have hnode : pfC2.latLngToGrid p00C2 = ⟨0, 0⟩ := by
    norm_num [Pathfinder.latLngToGrid, pfC2, Pathfinder.initGrid,
      Pathfinder.markObstacles, Pathfinder.applyRiskDiffusion, p00C2]
  have hvalid : pfC2.isValid (pfC2.latLngToGrid p00C2).x (pfC2.latLngToGrid p00C2).y := by
    rw [hnode]
    norm_num [Pathfinder.isValid, pfC2, Pathfinder.initGrid,
      Pathfinder.markObstacles, Pathfinder.applyRiskDiffusion]
  refine ⟨hgrid, hnode, ?_⟩
  rw [findPath_self pfC2 p00C2 50 hvalid, hnode]
  norm_num [Pathfinder.gridToLatLng, Pathfinder.cellCenter, pfC2,
    Pathfinder.initGrid, Pathfinder.markObstacles, Pathfinder.applyRiskDiffusion, p00C2]

/-- Inserting into the sorted open list yields a permutation of consing. -/
theorem insertByF_perm (n : PFNode) (l : List PFNode) :
    (Pathfinder.insertByF n l).Perm (n :: l) := by
  induction l with
  | nil => simp [Pathfinder.insertByF]
  | cons m ms ih =>
    simp only [Pathfinder.insertByF]
    split_ifs
    · exact (ih.cons m).trans (List.Perm.swap n m ms)
    · exact List.Perm.refl _

/-- The stable sort of the open list is a permutation of it. -/
theorem sortByF_perm (l : List PFNode) : (Pathfinder.sortByF l).Perm l := by
  suffices h : ∀ acc : List PFNode,
      (l.foldl (fun a n => Pathfinder.insertByF n a) acc).Perm (acc ++ l) by
    simpa [Pathfinder.sortByF] using h []
  induction l with
  | nil => simp
  | cons a t ih =>
    intro acc
    simp only [List.foldl_cons]
    exact (ih (Pathfinder.insertByF a acc)).trans
      (((insertByF_perm a acc).append_right t).trans List.perm_middle.symm)

/-- A successful association-list lookup yields a member entry. -/
theorem lookupCell_mem {α : Type} (l : List (Cell × α)) (c : Cell) (v : α)
    (h : lookupCell l c = some v) : (c, v) ∈ l := by
  induction l with
  | nil => simp [lookupCell] at h
  | cons e t ih =>
    obtain ⟨k, w⟩ := e
    rw [lookupCell] at h
    split_ifs at h with hk
    · obtain rfl := hk
      obtain rfl : w = v := by injection h
      exact List.mem_cons_self _ _
    · exact List.mem_cons_of_mem _ (ih h)

/-- A successful relaxation preserves the search invariant. -/
theorem relaxUpdate_inv (pf : Pathfinder) (endNode startNode cur nb : Cell)
    (tent : ℝ) (closed' : List Cell) (st : Pathfinder.SearchState)
    (hinv : SearchInv pf startNode closed' st)
    (hvalid : pf.isValid nb.x nb.y) (hwall : ¬ 100 ≤ pf.grid nb.y nb.x)
    (hclosed : nb ∉ closed') (hadj : nb ∈ pf.getNeighbors cur.x cur.y)
    (hcur : pf.isValid cur.x cur.y) :
    SearchInv pf startNode closed' (Pathfinder.relaxUpdate endNode cur nb tent st) := by
  have hrisk : pf.grid nb.y nb.x < 100 := Nat.lt_of_not_le hwall
  constructor
  case cf_key_valid =>
    intro e he
    simp only [Pathfinder.relaxUpdate, List.mem_cons] at he
    rcases he with rfl | he
    · exact hvalid
    · exact hinv.cf_key_valid e he
  case cf_key_risk =>
    intro e he
    simp only [Pathfinder.relaxUpdate, List.mem_cons] at he
    rcases he with rfl | he
    · exact hrisk
    · exact hinv.cf_key_risk e he
  case cf_adj =>
    intro e he
    simp only [Pathfinder.relaxUpdate, List.mem_cons] at he
    rcases he with rfl | he
    · exact hadj
    · exact hinv.cf_adj e he
  case cf_val_valid =>
    intro e he
    simp only [Pathfinder.relaxUpdate, List.mem_cons] at he
    rcases he with rfl | he
    · exact hcur
    · exact hinv.cf_val_valid e he
  case open_valid =>
    intro n hn
    simp only [Pathfinder.relaxUpdate] at hn
    split_ifs at hn
    · exact hinv.open_valid n hn
    · rcases List.mem_append.mp hn with hn | hn
      · exact hinv.open_valid n hn
      · obtain rfl := List.mem_singleton.mp hn
        exact hvalid
  case open_closed =>
    intro n hn
    simp only [Pathfinder.relaxUpdate] at hn
    split_ifs at hn
    · exact hinv.open_closed n hn
    · rcases List.mem_append.mp hn with hn | hn
      · exact hinv.open_closed n hn
      · obtain rfl := List.mem_singleton.mp hn
        exact hclosed
  case open_risk =>
    intro n hn
    simp only [Pathfinder.relaxUpdate] at hn
    split_ifs at hn
    · exact hinv.open_risk n hn
    · rcases List.mem_append.mp hn with hn | hn
      · exact hinv.open_risk n hn
      · obtain rfl := List.mem_singleton.mp hn
        exact Or.inr hrisk
  case open_nodup =>
    simp only [Pathfinder.relaxUpdate]
    split_ifs with hfind
    · exact hinv.open_nodup
    · rw [List.map_append]
      rw [List.nodup_append]
      refine ⟨hinv.open_nodup, List.nodup_singleton _, ?_⟩
      intro c hc hcs
      simp only [List.map_cons, List.map_nil, List.mem_singleton] at hcs
      subst hcs
      obtain ⟨n, hn, hcn⟩ := List.mem_map.mp hc
      apply hfind
      rw [List.find?_isSome]
      refine ⟨n, hn, ?_⟩
      rw [decide_eq_true_iff]
      have hx : n.x = nb.x := congrArg Cell.x hcn
      have hy : n.y = nb.y := congrArg Cell.y hcn
      exact ⟨hx, hy⟩

/-- The neighbor relaxation fold preserves the search invariant. -/
theorem relaxFold_inv (pf : Pathfinder) (endNode : Cell) (rw : ℚ)
    (startNode cur : Cell) (closed' : List Cell) :
    ∀ (nbs : List Cell) (st : Pathfinder.SearchState),
    (∀ c ∈ nbs, c ∈ pf.getNeighbors cur.x cur.y) →
    pf.isValid cur.x cur.y →
    SearchInv pf startNode closed' st →
    SearchInv pf startNode closed'
      (nbs.foldl (pf.relaxOne endNode rw cur closed') st) := by
  intro nbs
  induction nbs with
  | nil =>
    intro st _ _ hinv
    simpa using hinv
  | cons nb t ih =>
    intro st hsub hcur hinv
    simp only [List.foldl_cons]
    refine ih _ (fun c hc => hsub c (List.mem_cons_of_mem nb hc)) hcur ?_
    have hnbmem : nb ∈ pf.getNeighbors cur.x cur.y := hsub nb (List.mem_cons_self nb t)
    have hnbvalid : pf.isValid nb.x nb.y :=
      (getNeighbors_charact pf cur.x cur.y nb hnbmem).1
    unfold Pathfinder.relaxOne
    dsimp only
    split_ifs with hclosed hwall
    · exact hinv
    · exact hinv
    · cases hg : lookupCell st.gScore nb with
      | none =>
        simp only [hg]
        exact relaxUpdate_inv pf endNode startNode cur nb _ closed' st hinv
          hnbvalid hwall hclosed hnbmem hcur
      | some gOld =>
        simp only [hg]
        split_ifs with hlt
        · exact relaxUpdate_inv pf endNode startNode cur nb _ closed' st hinv
            hnbvalid hwall hclosed hnbmem hcur
        · exact hinv

/-- A duplicate-free list of valid cells has at most `gridSize²` entries. -/
theorem closed_length_le (pf : Pathfinder) (closed : List Cell)
    (hnodup : closed.Nodup) (hvalid : ∀ c ∈ closed, pf.isValid c.x c.y) :
    closed.length ≤ pf.gridSize.toNat * pf.gridSize.toNat := by
  classical
  set N := pf.gridSize.toNat with hN
  have hinj : ∀ c ∈ closed, ∀ d ∈ closed,
      (fun c : Cell => (c.x.toNat, c.y.toNat)) c =
        (fun c : Cell => (c.x.toNat, c.y.toNat)) d → c = d := by
    intro c hc d hd h
    obtain ⟨hcx, -, hcy, -⟩ := hvalid c hc
    obtain ⟨hdx, -, hdy, -⟩ := hvalid d hd
    simp only [Prod.mk.injEq] at h
    obtain ⟨c1, c2⟩ := c
    obtain ⟨d1, d2⟩ := d
    simp only at hcx hcy hdx hdy h
    have : c1 = d1 := by omega
    have : c2 = d2 := by omega
    simp_all
  have hmapped : (closed.map fun c : Cell => (c.x.toNat, c.y.toNat)).Nodup :=
    hnodup.map_on hinj
  have hsub : (closed.map fun c : Cell => (c.x.toNat, c.y.toNat)).toFinset ⊆
      Finset.range N ×ˢ Finset.range N := by
    intro p hp
    rw [List.mem_toFinset] at hp
    obtain ⟨c, hc, rfl⟩ := List.mem_map.mp hp
    obtain ⟨h1, h2, h3, h4⟩ := hvalid c hc
    simp only [Finset.mem_product, Finset.mem_range]
    omega
  calc closed.length
      = (closed.map fun c : Cell => (c.x.toNat, c.y.toNat)).length := by
        rw [List.length_map]
    _ = (closed.map fun c : Cell => (c.x.toNat, c.y.toNat)).toFinset.card := by
        rw [List.toFinset_card_of_nodup hmapped]
    _ ≤ (Finset.range N ×ˢ Finset.range N).card := Finset.card_le_card hsub
    _ = N * N := by simp

/-- The A* loop, run with enough fuel, always returns a result (never the
fuel-exhaustion marker), and a non-empty result is a reconstruction from a
`cameFrom` map of valid wall-free keys ending at the goal node. Each
iteration closes one more distinct valid cell, so `gridSize²` iterations
bound the search. -/
theorem findPathLoop_spec (pf : Pathfinder) (endNode startNode : Cell) (rw : ℚ) :
    ∀ (fuel : ℕ) (openSet : List PFNode) (closed : List Cell)
      (cameFrom : List (Cell × Cell)) (g f : List (Cell × ℝ)),
    SearchInv pf startNode closed ⟨openSet, cameFrom, g, f⟩ →
    closed.Nodup → (∀ c ∈ closed, pf.isValid c.x c.y) →
    pf.gridSize.toNat * pf.gridSize.toNat < fuel + closed.length →
    ∃ route, pf.findPathLoop endNode rw fuel openSet closed cameFrom g f = some route ∧
      (route = [] ∨
        ∃ (cf : List (Cell × Cell)) (cur : Cell),
          (∀ e ∈ cf, pf.isValid e.1.x e.1.y ∧ pf.grid e.1.y e.1.x < 100 ∧
            e.1 ∈ pf.getNeighbors e.2.x e.2.y ∧ pf.isValid e.2.x e.2.y) ∧
          cur.x = endNode.x ∧ cur.y = endNode.y ∧ pf.isValid cur.x cur.y ∧
          route = pf.reconstructPath cf cur) := by
  intro fuel
  induction fuel with
  | zero =>
    intro openSet closed cameFrom g f hinv hnodup hvalid hmeasure
    exfalso
    have := closed_length_le pf closed hnodup hvalid
    omega
  | succ n ih =>
    intro openSet closed cameFrom g f hinv hnodup hvalid hmeasure
    rw [Pathfinder.findPathLoop]
    cases hsort : Pathfinder.sortByF openSet with
    | nil => exact ⟨[], rfl, Or.inl rfl⟩
    | cons current rest =>
      have hcur_mem : current ∈ openSet :=
        (sortByF_perm openSet).subset (hsort ▸ List.mem_cons_self current rest)
      have hccvalid : pf.isValid current.x current.y :=
        hinv.open_valid current hcur_mem
      dsimp only
      split_ifs with hgoal
      · refine ⟨pf.reconstructPath cameFrom ⟨current.x, current.y⟩, rfl,
          Or.inr ⟨cameFrom, ⟨current.x, current.y⟩, ?_, hgoal.1, hgoal.2,
            hccvalid, rfl⟩⟩
        intro e he
        exact ⟨hinv.cf_key_valid e he, hinv.cf_key_risk e he, hinv.cf_adj e he,
          hinv.cf_val_valid e he⟩
      · have hrest_sub : ∀ m ∈ rest, m ∈ openSet := fun m hm =>
          (sortByF_perm openSet).subset (hsort ▸ List.mem_cons_of_mem current hm)
        have hsortednodup :
            ((current :: rest).map fun m => Cell.mk m.x m.y).Nodup := by
          have hp := (sortByF_perm openSet).map fun m => Cell.mk m.x m.y
          rw [hsort] at hp
          exact hp.nodup_iff.mpr hinv.open_nodup
        have hccnotin_rest :
            Cell.mk current.x current.y ∉ rest.map fun m => Cell.mk m.x m.y := by
          simp only [List.map_cons, List.nodup_cons] at hsortednodup
          exact hsortednodup.1
        have hrestnodup : (rest.map fun m => Cell.mk m.x m.y).Nodup := by
          simp only [List.map_cons, List.nodup_cons] at hsortednodup
          exact hsortednodup.2
        have hccnotclosed : Cell.mk current.x current.y ∉ closed :=
          hinv.open_closed current hcur_mem
        have hrestinv : SearchInv pf startNode
            (Cell.mk current.x current.y :: closed) ⟨rest, cameFrom, g, f⟩ := by
          constructor
          case open_valid => exact fun m hm => hinv.open_valid m (hrest_sub m hm)
          case open_nodup => exact hrestnodup
          case open_closed =>
            intro m hm
            rw [List.mem_cons]
            rintro (hc | hc)
            · exact hccnotin_rest (hc ▸ List.mem_map_of_mem _ hm)
            · exact hinv.open_closed m (hrest_sub m hm) hc
          case open_risk => exact fun m hm => hinv.open_risk m (hrest_sub m hm)
          case cf_key_valid => exact hinv.cf_key_valid
          case cf_key_risk => exact hinv.cf_key_risk
          case cf_adj => exact hinv.cf_adj
          case cf_val_valid => exact hinv.cf_val_valid
        have hfold := relaxFold_inv pf endNode rw startNode
          ⟨current.x, current.y⟩ (Cell.mk current.x current.y :: closed)
          (pf.getNeighbors current.x current.y) ⟨rest, cameFrom, g, f⟩
          (fun c hc => hc) hccvalid hrestinv
        obtain ⟨route, hroute, hpost⟩ := ih
          ((pf.getNeighbors current.x current.y).foldl
            (pf.relaxOne endNode rw ⟨current.x, current.y⟩
              (Cell.mk current.x current.y :: closed))
            ⟨rest, cameFrom, g, f⟩).openSet
          (Cell.mk current.x current.y :: closed)
          ((pf.getNeighbors current.x current.y).foldl
            (pf.relaxOne endNode rw ⟨current.x, current.y⟩
              (Cell.mk current.x current.y :: closed))
            ⟨rest, cameFrom, g, f⟩).cameFrom
          ((pf.getNeighbors current.x current.y).foldl
            (pf.relaxOne endNode rw ⟨current.x, current.y⟩
              (Cell.mk current.x current.y :: closed))
            ⟨rest, cameFrom, g, f⟩).gScore
          ((pf.getNeighbors current.x current.y).foldl
            (pf.relaxOne endNode rw ⟨current.x, current.y⟩
              (Cell.mk current.x current.y :: closed))
            ⟨rest, cameFrom, g, f⟩).fScore
          hfold
          (List.nodup_cons.mpr ⟨hccnotclosed, hnodup⟩)
          (by
            intro c hc
            rcases List.mem_cons.mp hc with rfl | hc
            · exact hccvalid
            · exact hvalid c hc)
          (by
            simp only [List.length_cons]
            omega)
        refine ⟨route, hroute, ?_⟩
        rcases hpost with h | ⟨cf, cur, hprops, hx, hy, hvalidc, hrec⟩
        · exact Or.inl h
        · exact Or.inr ⟨cf, cur, hprops, hx, hy, hvalidc, hrec⟩

/-- The initial search state of `findPathRun` satisfies the invariant. -/
theorem searchInit_inv (pf : Pathfinder) (startNode : Cell)
    (hs : pf.isValid startNode.x startNode.y) (h0 : ℝ) :
    SearchInv pf startNode []
      ⟨[⟨startNode.x, startNode.y, h0⟩], [], [(startNode, 0)],
        [(startNode, h0)]⟩ := by
  constructor
  case open_valid =>
    intro n hn
    obtain rfl := List.mem_singleton.mp hn
    exact hs
  case open_nodup => simp
  case open_closed => simp
  case open_risk =>
    intro n hn
    obtain rfl := List.mem_singleton.mp hn
    exact Or.inl rfl
  case cf_key_valid => simp
  case cf_key_risk => simp
  case cf_adj => simp
  case cf_val_valid => simp

/-- Claim C10 (confirmed): the search loop of `findPath` terminates for every
start node, goal node, risk weight and grid state within the `gridSize² + 1`
iteration bound (each iteration pops one node, closes its — previously
unclosed — cell, never re-expands closed cells, and pushes a cell only when
not already present, so the closed set grows by one distinct valid cell per
iteration): run with that fuel, the loop always returns a result rather than
the fuel-exhaustion marker. -/
theorem C10_findPath_terminates (pf : Pathfinder) (startNode endNode : Cell)
    (w : ℚ) (hs : pf.isValid startNode.x startNode.y) :
    (pf.findPathRun startNode endNode w).isSome := by
  unfold Pathfinder.findPathRun
  obtain ⟨route, hroute, -⟩ := findPathLoop_spec pf endNode startNode w
    (pf.gridSize.toNat * pf.gridSize.toNat + 1)
    [⟨startNode.x, startNode.y, Pathfinder.heuristic startNode endNode⟩]
    [] [] [(startNode, 0)] [(startNode, Pathfinder.heuristic startNode endNode)]
    (searchInit_inv pf startNode hs _) List.nodup_nil (by simp) (by simp)
  dsimp only
  rw [hroute]
  rfl

/-- Witness for C10 at the plain 60-cell pathfinder. -/
theorem C10_findPath_terminates_witness :
    pfPlain.isValid (Cell.mk 0 0).x (Cell.mk 0 0).y ∧
    (pfPlain.findPathRun ⟨0, 0⟩ ⟨1, 1⟩ (Pathfinder.riskWeightOf 50)).isSome :=
  ⟨by decide,
   C10_findPath_terminates pfPlain ⟨0, 0⟩ ⟨1, 1⟩ (Pathfinder.riskWeightOf 50)
     (by decide)⟩

/-- The back-pointer walk is never empty. -/
theorem reconstructWalk_ne_nil (cf : List (Cell × Cell)) (fuel : ℕ) (c : Cell) :
    Pathfinder.reconstructWalk cf fuel c ≠ [] := by
  cases fuel with
  | zero => simp [Pathfinder.reconstructWalk]
  | succ n =>
    rw [Pathfinder.reconstructWalk]
    cases lookupCell cf c with
    | none => simp
    | some prev => simp

/-- The back-pointer walk ends at the node it starts from. -/
theorem reconstructWalk_getLast (cf : List (Cell × Cell)) (fuel : ℕ) (c : Cell) :
    (Pathfinder.reconstructWalk cf fuel c).getLast? = some c := by
  induction fuel generalizing c with
  | zero => rfl
  | succ n ih =>
    rw [Pathfinder.reconstructWalk]
    cases lookupCell cf c with
    | none => rfl
    | some prev =>
      simp only []
      rw [List.getLast?_concat]

/-- Every element of the walk other than its first (deepest) element is a key
of the `cameFrom` map. -/
theorem reconstructWalk_tail_keys (cf : List (Cell × Cell)) (fuel : ℕ) :
    ∀ (c : Cell), ∀ x ∈ (Pathfinder.reconstructWalk cf fuel c).tail,
      (lookupCell cf x).isSome := by
  induction fuel with
  | zero =>
    intro c x hx
    simp [Pathfinder.reconstructWalk] at hx
  | succ n ih =>
    intro c x hx
    rw [Pathfinder.reconstructWalk] at hx
    cases hg : lookupCell cf c with
    | none =>
      rw [hg] at hx
      simp at hx
    | some prev =>
      rw [hg] at hx
      simp only [] at hx
      rcases hw : Pathfinder.reconstructWalk cf n prev with - | ⟨a, t⟩
      · exact absurd hw (reconstructWalk_ne_nil cf n prev)
      · rw [hw, List.cons_append, List.tail_cons] at hx
        rcases List.mem_append.mp hx with hx | hx
        · exact ih prev x (by rw [hw]; simpa using hx)
        · obtain rfl := List.mem_singleton.mp hx
          rw [hg]
          rfl

/-- The walk is 8-connected when every `cameFrom` entry links a cell to a
neighbor of its predecessor. -/
theorem reconstructWalk_chain (pf : Pathfinder) (cf : List (Cell × Cell))
    (hadj : ∀ e ∈ cf, e.1 ∈ pf.getNeighbors e.2.x e.2.y) (fuel : ℕ) :
    ∀ (c : Cell), (Pathfinder.reconstructWalk cf fuel c).Chain'
      (fun a b => b ∈ pf.getNeighbors a.x a.y) := by
  induction fuel with
  | zero =>
    intro c
    simp [Pathfinder.reconstructWalk]
  | succ n ih =>
    intro c
    rw [Pathfinder.reconstructWalk]
    cases hg : lookupCell cf c with
    | none => simp
    | some prev =>
      simp only []
      rw [List.chain'_append]
      refine ⟨ih prev, by simp, ?_⟩
      intro a ha b hb
      rw [reconstructWalk_getLast] at ha
      rw [Option.mem_some_iff] at ha
      subst ha
      simp only [List.head?_cons, Option.mem_some_iff] at hb
      subst hb
      exact hadj (c, prev) (lookupCell_mem cf c prev hg)

/-- Every element of a walk is either its first element or a key of the map;
keys are valid, so with validity of the deepest element every walk element is
valid (used for the round trip in the amended C2/C4). -/
theorem reconstructWalk_mem_valid (pf : Pathfinder) (cf : List (Cell × Cell))
    (hvv : ∀ e ∈ cf, pf.isValid e.2.x e.2.y) (fuel : ℕ) :
    ∀ (c : Cell), pf.isValid c.x c.y →
      ∀ x ∈ Pathfinder.reconstructWalk cf fuel c, pf.isValid x.x x.y := by
  induction fuel with
  | zero =>
    intro c hc x hx
    obtain rfl := List.mem_singleton.mp hx
    exact hc
  | succ n ih =>
    intro c hc x hx
    rw [Pathfinder.reconstructWalk] at hx
    cases hg : lookupCell cf c with
    | none =>
      rw [hg] at hx
      obtain rfl := List.mem_singleton.mp hx
      exact hc
    | some prev =>
      rw [hg] at hx
      simp only [] at hx
      rcases List.mem_append.mp hx with hx | hx
      · exact ih prev (hvv (c, prev) (lookupCell_mem cf c prev hg)) x hx
      · obtain rfl := List.mem_singleton.mp hx
        exact hc

/-- Structure of every `findPath` result: it is empty, or it is the walk of a
well-formed `cameFrom` map from the goal cell, mapped to cell centers. -/
theorem findPath_route_spec (pf : Pathfinder) (s e : LatLng) (tol : ℚ) :
    pf.findPath s e tol = [] ∨
    ∃ (cf : List (Cell × Cell)) (walk : List Cell),
      (∀ en ∈ cf, pf.isValid en.1.x en.1.y ∧ pf.grid en.1.y en.1.x < 100 ∧
        en.1 ∈ pf.getNeighbors en.2.x en.2.y ∧ pf.isValid en.2.x en.2.y) ∧
      pf.isValid (pf.latLngToGrid e).x (pf.latLngToGrid e).y ∧
      walk = Pathfinder.reconstructWalk cf (cf.length + 1) (pf.latLngToGrid e) ∧
      pf.findPath s e tol = walk.map pf.gridToLatLng := by
  unfold Pathfinder.findPath
  dsimp only
  split_ifs with hguard
  · obtain ⟨hs, he⟩ := hguard
    unfold Pathfinder.findPathRun
    obtain ⟨route, hroute, hpost⟩ := findPathLoop_spec pf (pf.latLngToGrid e)
      (pf.latLngToGrid s) (Pathfinder.riskWeightOf tol)
      (pf.gridSize.toNat * pf.gridSize.toNat + 1)
      [⟨(pf.latLngToGrid s).x, (pf.latLngToGrid s).y,
        Pathfinder.heuristic (pf.latLngToGrid s) (pf.latLngToGrid e)⟩]
      [] [] [(pf.latLngToGrid s, 0)]
      [(pf.latLngToGrid s, Pathfinder.heuristic (pf.latLngToGrid s) (pf.latLngToGrid e))]
      (searchInit_inv pf (pf.latLngToGrid s) hs _) List.nodup_nil (by simp) (by simp)
    dsimp only
    rw [hroute]
    rcases hpost with rfl | ⟨cf, cur, hprops, hx, hy, hcv, rfl⟩
    · exact Or.inl rfl
    · have hcur : cur = pf.latLngToGrid e := by
        obtain ⟨cx, cy⟩ := cur
        simp only at hx hy
        rw [hx, hy]
      subst hcur
      exact Or.inr ⟨cf, Pathfinder.reconstructWalk cf (cf.length + 1)
        (pf.latLngToGrid e), hprops, hcv, rfl, rfl⟩
  · exact Or.inl rfl

/-- Round trip for a valid cell (cell form of `latLngToGrid_cellCenter`). -/
theorem latLngToGrid_gridToLatLng_cell (pf : Pathfinder) (c : Cell)
    (hv : pf.isValid c.x c.y)
    (hlat : pf.bounds.minLat < pf.bounds.maxLat)
    (hlng : pf.bounds.minLng < pf.bounds.maxLng) :
    pf.latLngToGrid (pf.gridToLatLng c) = c := by
  obtain ⟨cx, cy⟩ := c
  obtain ⟨h1, h2, h3, h4⟩ := hv
  exact latLngToGrid_cellCenter pf cx cy h1 h2 h3 h4 hlat hlng

/-- Claim C2 (corrected): after `markObstacles`, every cell whose center lies
inside some obstacle polygon has risk exactly 100, and no point of a route
returned by `findPath` **other than possibly its first point** (the start
cell, whose risk `findPath` never checks — see the counterexample) is the
center of a cell of risk ≥ 100. -/
theorem C2_obstacles_route_safety (pf : Pathfinder) (polys : List (List LatLng))
    (hlat : pf.bounds.minLat < pf.bounds.maxLat)
    (hlng : pf.bounds.minLng < pf.bounds.maxLng) :
    (∀ x y : ℤ,
      (polys.any fun poly =>
        Pathfinder.isPointInPolygon
          (Pathfinder.cellCenter pf.bounds pf.gridSize x y) poly) = true →
      (pf.markObstacles polys).grid y x = 100) ∧
    (∀ (s e : LatLng) (tol : ℚ),
      ∀ p ∈ ((pf.markObstacles polys).findPath s e tol).tail,
        (pf.markObstacles polys).grid
          ((pf.markObstacles polys).latLngToGrid p).y
          ((pf.markObstacles polys).latLngToGrid p).x < 100) := by
  constructor
  · intro x y h
    exact (markObstacles_wall_iff pf polys x y).1.mpr h
  · intro s e tol p hp
    rcases findPath_route_spec (pf.markObstacles polys) s e tol with
      hempty | ⟨cf, walk, hprops, hev, hwalk, heq⟩
    · rw [hempty] at hp
      simp at hp
    · rw [heq] at hp
      rw [show (walk.map (pf.markObstacles polys).gridToLatLng).tail =
          walk.tail.map (pf.markObstacles polys).gridToLatLng from by
        cases walk <;> rfl] at hp
      obtain ⟨x, hx, rfl⟩ := List.mem_map.mp hp
      have hsome := reconstructWalk_tail_keys cf (cf.length + 1)
        ((pf.markObstacles polys).latLngToGrid e) x (by rw [← hwalk]; exact hx)
      obtain ⟨v, hv⟩ := Option.isSome_iff_exists.mp hsome
      have hentry := lookupCell_mem cf x v hv
      obtain ⟨hxvalid, hxrisk, -, -⟩ := hprops (x, v) hentry
      rw [latLngToGrid_gridToLatLng_cell (pf.markObstacles polys) x hxvalid hlat hlng]
      exact hxrisk

/-- Witness for the amended C2: the start-to-itself route on the obstacle
grid `pfC2` has an empty tail, so the tail-safety conclusion applies
trivially at this concrete input; the wall conclusion is checked at `(0,0)`. -/
theorem C2_obstacles_route_safety_witness :
    (pfPlain.bounds.minLat < pfPlain.bounds.maxLat ∧
      pfPlain.bounds.minLng < pfPlain.bounds.maxLng) ∧
    (∀ p ∈ ((pfPlain.markObstacles []).findPath ⟨1/2, 1/2⟩ ⟨7/2, 5/2⟩ 50).tail,
      (pfPlain.markObstacles []).grid
        ((pfPlain.markObstacles []).latLngToGrid p).y
        ((pfPlain.markObstacles []).latLngToGrid p).x < 100) :=
  ⟨⟨by decide, by decide⟩,
   (C2_obstacles_route_safety pfPlain [] (by decide) (by decide)).2
     ⟨1/2, 1/2⟩ ⟨7/2, 5/2⟩ 50⟩

/-- Claim C4 (corrected): at risk tolerance 100 the risk weight is 0, and any
route returned by `findPath` is an 8-connected cell route ending at the goal
cell whose cells — except possibly the first (start) cell — all have risk
below 100; but the route need **not** be a shortest such route: the frontier
keeps the f-priority frozen at first discovery even when a node's g-score
later improves, so a provably longer route can be returned (see the
counterexample). -/
theorem C4_tolerance100_route (pf : Pathfinder) (s e : LatLng)
    (hlat : pf.bounds.minLat < pf.bounds.maxLat)
    (hlng : pf.bounds.minLng < pf.bounds.maxLng) :
    Pathfinder.riskWeightOf 100 = 0 ∧
    ((pf.findPath s e 100).map pf.latLngToGrid).Chain'
      (fun a b => b ∈ pf.getNeighbors a.x a.y) ∧
    (pf.findPath s e 100 ≠ [] →
      ((pf.findPath s e 100).map pf.latLngToGrid).getLast? =
        some (pf.latLngToGrid e)) ∧
    (∀ p ∈ (pf.findPath s e 100).tail,
      pf.grid (pf.latLngToGrid p).y (pf.latLngToGrid p).x < 100) := by
  have hw : Pathfinder.riskWeightOf 100 = 0 := by
    unfold Pathfinder.riskWeightOf
    norm_num
  rcases findPath_route_spec pf s e 100 with hempty | ⟨cf, walk, hprops, hev, hwalk, heq⟩
  · rw [hempty]
    exact ⟨hw, by simp, fun hne => absurd rfl hne, by simp⟩
  · have hwalk_valid : ∀ x ∈ walk, pf.isValid x.x x.y := by
      rw [hwalk]
      exact reconstructWalk_mem_valid pf cf
        (fun en hen => (hprops en hen).2.2.2) (cf.length + 1)
        (pf.latLngToGrid e) hev
    have hmapback : (pf.findPath s e 100).map pf.latLngToGrid = walk := by
      rw [heq, List.map_map]
      have : ∀ x ∈ walk, (pf.latLngToGrid ∘ pf.gridToLatLng) x = id x := by
        intro x hx
        exact latLngToGrid_gridToLatLng_cell pf x (hwalk_valid x hx) hlat hlng
      rw [List.map_congr_left this, List.map_id]
    refine ⟨hw, ?_, ?_, ?_⟩
    · rw [hmapback, hwalk]
      exact reconstructWalk_chain pf cf (fun en hen => (hprops en hen).2.2.1)
        (cf.length + 1) (pf.latLngToGrid e)
    · intro _hne
      rw [hmapback, hwalk]
      exact reconstructWalk_getLast cf (cf.length + 1) (pf.latLngToGrid e)
    · intro p hp
      rw [heq] at hp
      rw [show (walk.map pf.gridToLatLng).tail =
          walk.tail.map pf.gridToLatLng from by cases walk <;> rfl] at hp
      obtain ⟨x, hx, rfl⟩ := List.mem_map.mp hp
      have hsome := reconstructWalk_tail_keys cf (cf.length + 1)
        (pf.latLngToGrid e) x (by rw [← hwalk]; exact hx)
      obtain ⟨v, hv⟩ := Option.isSome_iff_exists.mp hsome
      have hentry := lookupCell_mem cf x v hv
      obtain ⟨hxvalid, hxrisk, -, -⟩ := hprops (x, v) hentry
      rw [latLngToGrid_gridToLatLng_cell pf x hxvalid hlat hlng]
      exact hxrisk

/-- Witness for the amended C4 at a concrete call on the plain pathfinder. -/
theorem C4_tolerance100_route_witness :
    (pfPlain.bounds.minLat < pfPlain.bounds.maxLat ∧
      pfPlain.bounds.minLng < pfPlain.bounds.maxLng) ∧
    Pathfinder.riskWeightOf 100 = 0 ∧
    ((pfPlain.findPath ⟨1/2, 1/2⟩ ⟨5/2, 3/2⟩ 100).map pfPlain.latLngToGrid).Chain'
      (fun a b => b ∈ pfPlain.getNeighbors a.x a.y) ∧
    (pfPlain.findPath ⟨1/2, 1/2⟩ ⟨5/2, 3/2⟩ 100 ≠ [] →
      ((pfPlain.findPath ⟨1/2, 1/2⟩ ⟨5/2, 3/2⟩ 100).map pfPlain.latLngToGrid).getLast? =
        some (pfPlain.latLngToGrid ⟨5/2, 3/2⟩)) ∧
    (∀ p ∈ (pfPlain.findPath ⟨1/2, 1/2⟩ ⟨5/2, 3/2⟩ 100).tail,
      pfPlain.grid (pfPlain.latLngToGrid p).y (pfPlain.latLngToGrid p).x < 100) :=
  ⟨⟨by decide, by decide⟩,
   C4_tolerance100_route pfPlain ⟨1/2, 1/2⟩ ⟨5/2, 3/2⟩ (by decide) (by decide)⟩

/-- Neighbor-loop step, closed-neighbor case. -/
theorem relaxOne_closed (pf : Pathfinder) (endNode : Cell) (w : ℚ) (cur : Cell)
    (cs : List Cell) (st : Pathfinder.SearchState) (nb : Cell) (h : nb ∈ cs) :
    pf.relaxOne endNode w cur cs st nb = st := by
  unfold Pathfinder.relaxOne
  rw [if_pos h]

/-- Neighbor-loop step, wall case (`riskValue >= 100`). -/
theorem relaxOne_wall (pf : Pathfinder) (endNode : Cell) (w : ℚ) (cur : Cell)
    (cs : List Cell) (st : Pathfinder.SearchState) (nb : Cell)
    (h1 : nb ∉ cs) (h2 : 100 ≤ pf.grid nb.y nb.x) :
    pf.relaxOne endNode w cur cs st nb = st := by
  unfold Pathfinder.relaxOne
  dsimp only
  rw [if_neg h1, if_pos h2]

/-- Neighbor-loop step, first-discovery case (no g-score yet). -/
theorem relaxOne_fresh (pf : Pathfinder) (endNode : Cell) (w : ℚ) (cur : Cell)
    (cs : List Cell) (st : Pathfinder.SearchState) (nb : Cell)
    (h1 : nb ∉ cs) (h2 : ¬ 100 ≤ pf.grid nb.y nb.x)
    (h3 : lookupCell st.gScore nb = none) :
    pf.relaxOne endNode w cur cs st nb =
      Pathfinder.relaxUpdate endNode cur nb
        ((lookupCell st.gScore cur).getD 0 + pf.moveCost cur nb w) st := by
  unfold Pathfinder.relaxOne
  dsimp only
  rw [if_neg h1, if_neg h2, h3]

/-- Neighbor-loop step, improvement of an existing g-score. -/
theorem relaxOne_improve (pf : Pathfinder) (endNode : Cell) (w : ℚ) (cur : Cell)
    (cs : List Cell) (st : Pathfinder.SearchState) (nb : Cell) (gOld : ℝ)
    (h1 : nb ∉ cs) (h2 : ¬ 100 ≤ pf.grid nb.y nb.x)
    (h3 : lookupCell st.gScore nb = some gOld)
    (h4 : (lookupCell st.gScore cur).getD 0 + pf.moveCost cur nb w < gOld) :
    pf.relaxOne endNode w cur cs st nb =
      Pathfinder.relaxUpdate endNode cur nb
        ((lookupCell st.gScore cur).getD 0 + pf.moveCost cur nb w) st := by
  unfold Pathfinder.relaxOne
  dsimp only
  rw [if_neg h1, if_neg h2, h3]
  dsimp only
  rw [if_pos h4]

/-- Neighbor-loop step, no-improvement case. -/
theorem relaxOne_noimprove (pf : Pathfinder) (endNode : Cell) (w : ℚ) (cur : Cell)
    (cs : List Cell) (st : Pathfinder.SearchState) (nb : Cell) (gOld : ℝ)
    (h1 : nb ∉ cs) (h2 : ¬ 100 ≤ pf.grid nb.y nb.x)
    (h3 : lookupCell st.gScore nb = some gOld)
    (h4 : ¬ (lookupCell st.gScore cur).getD 0 + pf.moveCost cur nb w < gOld) :
    pf.relaxOne endNode w cur cs st nb = st := by
  unfold Pathfinder.relaxOne
  dsimp only
  rw [if_neg h1, if_neg h2, h3]
  dsimp only
  rw [if_neg h4]

/-- Successful relaxation with a push (no node with those coordinates is in
the open array). -/
theorem relaxUpdate_push (endNode cur nb : Cell) (tent : ℝ)
    (st : Pathfinder.SearchState)
    (h : (st.openSet.find? fun n => decide (n.x = nb.x ∧ n.y = nb.y)) = none) :
    Pathfinder.relaxUpdate endNode cur nb tent st =
      ⟨st.openSet ++ [⟨nb.x, nb.y, tent + Pathfinder.heuristic nb endNode⟩],
       (nb, cur) :: st.cameFrom, (nb, tent) :: st.gScore,
       (nb, tent + Pathfinder.heuristic nb endNode) :: st.fScore⟩ := by
  unfold Pathfinder.relaxUpdate
  rw [h]
  rfl

/-- Successful relaxation without a push (a node with those coordinates is
already in the open array — its stale stored `f` is kept). -/
theorem relaxUpdate_nopush (endNode cur nb : Cell) (tent : ℝ)
    (st : Pathfinder.SearchState) (m : PFNode)
    (h : (st.openSet.find? fun n => decide (n.x = nb.x ∧ n.y = nb.y)) = some m) :
    Pathfinder.relaxUpdate endNode cur nb tent st =
      ⟨st.openSet, (nb, cur) :: st.cameFrom, (nb, tent) :: st.gScore,
       (nb, tent + Pathfinder.heuristic nb endNode) :: st.fScore⟩ := by
  unfold Pathfinder.relaxUpdate
  rw [h]
  rfl

/-- Projections of the C3 pathfinder. -/
theorem pfC3_bounds : pfC3.bounds = ⟨0, 4, 0, 4⟩ := rfl

/-- Grid size of the C3 pathfinder. -/
theorem pfC3_gridSize : pfC3.gridSize = 4 := rfl

/-- A cell of the C3 grid is a wall iff its center is covered by `polysC3`
(transport of `markObstacles_wall_iff` along `pfC3.grid = (pfC3base.markObstacles polysC3).grid`). -/
theorem pfC3_wall_iff (x y : ℤ) :
    (pfC3.grid y x = 100 ↔
      (polysC3.any fun poly =>
        Pathfinder.isPointInPolygon
          (Pathfinder.cellCenter pfC3base.bounds pfC3base.gridSize x y) poly) = true) ∧
    pfC3.grid y x ≤ 100 :=
  markObstacles_wall_iff pfC3base polysC3 x y

set_option maxHeartbeats 2000000 in
/-- The wall ring of the C3 grid: every 8-neighbor of cell `(1, 1)` except
`(2, 1)` has risk 100, and `(2, 1)` is below 100. -/
theorem pfC3_walls :
    100 ≤ pfC3.grid 0 1 ∧ 100 ≤ pfC3.grid 2 1 ∧ 100 ≤ pfC3.grid 1 0 ∧
    100 ≤ pfC3.grid 0 0 ∧ 100 ≤ pfC3.grid 0 2 ∧ 100 ≤ pfC3.grid 2 0 ∧
    100 ≤ pfC3.grid 2 2 ∧ ¬ (100 ≤ pfC3.grid 1 2) := by
  have hc : ∀ x y : ℤ, Pathfinder.cellCenter pfC3base.bounds pfC3base.gridSize x y =
      ⟨(y : ℚ) + 1/2, (x : ℚ) + 1/2⟩ := by
    intro x y
    norm_num [Pathfinder.cellCenter, pfC3base, Pathfinder.initGrid]
  refine ⟨le_of_eq ((pfC3_wall_iff 1 0).1.mpr ?_).symm,
    le_of_eq ((pfC3_wall_iff 1 2).1.mpr ?_).symm,
    le_of_eq ((pfC3_wall_iff 0 1).1.mpr ?_).symm,
    le_of_eq ((pfC3_wall_iff 0 0).1.mpr ?_).symm,
    le_of_eq ((pfC3_wall_iff 2 0).1.mpr ?_).symm,
    le_of_eq ((pfC3_wall_iff 0 2).1.mpr ?_).symm,
    le_of_eq ((pfC3_wall_iff 2 2).1.mpr ?_).symm, ?_⟩
  · rw [hc]
    norm_num [polysC3, Pathfinder.isPointInPolygon, List.range, List.range.loop]
  · rw [hc]
    norm_num [polysC3, Pathfinder.isPointInPolygon, List.range, List.range.loop]
  · rw [hc]
    norm_num [polysC3, Pathfinder.isPointInPolygon, List.range, List.range.loop]
  · rw [hc]
    norm_num [polysC3, Pathfinder.isPointInPolygon, List.range, List.range.loop]
  · rw [hc]
    norm_num [polysC3, Pathfinder.isPointInPolygon, List.range, List.range.loop]
  · rw [hc]
    norm_num [polysC3, Pathfinder.isPointInPolygon, List.range, List.range.loop]
  · rw [hc]
    norm_num [polysC3, Pathfinder.isPointInPolygon, List.range, List.range.loop]
  · intro hcontra
    have heq : pfC3.grid 1 2 = 100 := le_antisymm (pfC3_wall_iff 2 1).2 hcontra
    have := (pfC3_wall_iff 2 1).1.mp heq
    rw [hc] at this
    norm_num [polysC3, Pathfinder.isPointInPolygon, List.range, List.range.loop] at this

/-- The replanning call of the C3 failing input: from the center of cell
`(1, 1)` — ringed by walls except toward `(2, 1)` — to the center of
`(2, 1)`, `findPath` returns the two-point route. -/
theorem findPathC3_eval : pfC3.findPath pC3 endC3 10 = [pC3, endC3] := by
  obtain ⟨hw1, hw2, hw3, hw4, hw5, hw6, hw7, hfree⟩ := pfC3_walls
  have hsnode : pfC3.latLngToGrid pC3 = ⟨1, 1⟩ := by
    norm_num [Pathfinder.latLngToGrid, pC3, pfC3_bounds, pfC3_gridSize]
  have henode : pfC3.latLngToGrid endC3 = ⟨2, 1⟩ := by
    norm_num [Pathfinder.latLngToGrid, endC3, pfC3_bounds, pfC3_gridSize]
  have hvs : pfC3.isValid (1 : ℤ) 1 := by
    rw [Pathfinder.isValid, pfC3_gridSize]
    norm_num
  have hve : pfC3.isValid (2 : ℤ) 1 := by
    rw [Pathfinder.isValid, pfC3_gridSize]
    norm_num
  have hgetn : pfC3.getNeighbors 1 1 =
      [⟨1, 0⟩, ⟨1, 2⟩, ⟨0, 1⟩, ⟨2, 1⟩, ⟨0, 0⟩, ⟨2, 0⟩, ⟨0, 2⟩, ⟨2, 2⟩] := by
    rw [Pathfinder.getNeighbors]
    norm_num [Pathfinder.isValid, pfC3_gridSize]
  unfold Pathfinder.findPath
  dsimp only
  rw [hsnode, henode]
  rw [if_pos ⟨hvs, hve⟩]
  unfold Pathfinder.findPathRun
  dsimp only
  rw [Pathfinder.findPathLoop]
  rw [show Pathfinder.sortByF
      [(⟨1, 1, Pathfinder.heuristic ⟨1, 1⟩ ⟨2, 1⟩⟩ : PFNode)] =
      [⟨1, 1, Pathfinder.heuristic ⟨1, 1⟩ ⟨2, 1⟩⟩] from rfl]
  dsimp only
  rw [if_neg (by decide : ¬ ((1 : ℤ) = 2 ∧ (1 : ℤ) = 1))]
  rw [hgetn]
  simp only [List.foldl_cons, List.foldl_nil]
  rw [relaxOne_wall pfC3 ⟨2, 1⟩ (Pathfinder.riskWeightOf 10) ⟨1, 1⟩ _ _ ⟨1, 0⟩
    (by decide) hw1]
  rw [relaxOne_wall pfC3 ⟨2, 1⟩ (Pathfinder.riskWeightOf 10) ⟨1, 1⟩ _ _ ⟨1, 2⟩
    (by decide) hw2]
  rw [relaxOne_wall pfC3 ⟨2, 1⟩ (Pathfinder.riskWeightOf 10) ⟨1, 1⟩ _ _ ⟨0, 1⟩
    (by decide) hw3]
  rw [relaxOne_fresh pfC3 ⟨2, 1⟩ (Pathfinder.riskWeightOf 10) ⟨1, 1⟩ _
    ⟨[], [], [(⟨1, 1⟩, 0)], [(⟨1, 1⟩, Pathfinder.heuristic ⟨1, 1⟩ ⟨2, 1⟩)]⟩ ⟨2, 1⟩
    (by decide) hfree rfl]
  rw [relaxUpdate_push ⟨2, 1⟩ ⟨1, 1⟩ ⟨2, 1⟩ _
    ⟨[], [], [(⟨1, 1⟩, 0)], [(⟨1, 1⟩, Pathfinder.heuristic ⟨1, 1⟩ ⟨2, 1⟩)]⟩ rfl]
  rw [relaxOne_wall pfC3 ⟨2, 1⟩ (Pathfinder.riskWeightOf 10) ⟨1, 1⟩ _ _ ⟨0, 0⟩
    (by decide) hw4]
  rw [relaxOne_wall pfC3 ⟨2, 1⟩ (Pathfinder.riskWeightOf 10) ⟨1, 1⟩ _ _ ⟨2, 0⟩
    (by decide) hw5]
  rw [relaxOne_wall pfC3 ⟨2, 1⟩ (Pathfinder.riskWeightOf 10) ⟨1, 1⟩ _ _ ⟨0, 2⟩
    (by decide) hw6]
  rw [relaxOne_wall pfC3 ⟨2, 1⟩ (Pathfinder.riskWeightOf 10) ⟨1, 1⟩ _ _ ⟨2, 2⟩
    (by decide) hw7]
  dsimp only
  rw [show pfC3.gridSize.toNat * pfC3.gridSize.toNat = 15 + 1 from rfl]
  rw [Pathfinder.findPathLoop]
  simp only [List.nil_append]
  rw [show ∀ n : PFNode, Pathfinder.sortByF [n] = [n] from fun n => rfl]
  dsimp only
  rw [if_pos (by norm_num : (2 : ℤ) = 2 ∧ (1 : ℤ) = 1)]
  simp only [Option.getD_some]
  unfold Pathfinder.reconstructPath
  rw [show ([((⟨2, 1⟩ : Cell), (⟨1, 1⟩ : Cell))].length + 1) = 1 + 1 from rfl]
  rw [Pathfinder.reconstructWalk]
  rw [show lookupCell [((⟨2, 1⟩ : Cell), (⟨1, 1⟩ : Cell))] ⟨2, 1⟩ =
      some ⟨1, 1⟩ from by simp [lookupCell]]
  dsimp only
  rw [show (1 : ℕ) = 0 + 1 from rfl]
  rw [Pathfinder.reconstructWalk]
  rw [show lookupCell [((⟨2, 1⟩ : Cell), (⟨1, 1⟩ : Cell))] ⟨1, 1⟩ = none from by
    simp [lookupCell]]
  norm_num [Pathfinder.gridToLatLng, Pathfinder.cellCenter, pC3, endC3,
    pfC3_bounds, pfC3_gridSize]

/-- At the C3 failing input, the combined risk sampled at the drone position
is 70 (terrain at most 100, weather 70), which exceeds the danger
threshold 60. -/
theorem pfC3_risk_high : (60 : ℝ) < pfC3.getRisk ⟨3/2, 3/2⟩ := by
  have hsnode : pfC3.latLngToGrid ⟨3/2, 3/2⟩ = ⟨1, 1⟩ := by
    norm_num [Pathfinder.latLngToGrid, pfC3_bounds, pfC3_gridSize]
  have hvalid : pfC3.isValid (1 : ℤ) 1 := by
    rw [Pathfinder.isValid, pfC3_gridSize]
    norm_num
  have hg : ((pfC3.grid 1 1 : ℕ) : ℝ) ≤ 100 := by
    have := (pfC3_wall_iff 1 1).2
    exact_mod_cast this
  have hwr : wsC3.getRisk ⟨3/2, 3/2⟩ = 70 := by
    unfold WeatherState.getRisk WeatherState.getWeatherAt
    dsimp only
    rw [if_pos]
    · rfl
    · norm_num [WeatherState.latLngToGrid, WeatherState.isValid, wsC3]
  unfold Pathfinder.getRisk
  dsimp only
  rw [hsnode]
  rw [if_pos hvalid]
  rw [show pfC3.weather = some wsC3 from rfl]
  dsimp only
  rw [hwr]
  have hle : max ((pfC3.grid 1 1 : ℕ) : ℝ) 70 ≤ 100 := max_le hg (by norm_num)
  rw [min_eq_right hle]
  have : (70 : ℝ) ≤ max ((pfC3.grid 1 1 : ℕ) : ℝ) 70 := le_max_right _ _
  linarith

/-- Claim C3: with the mission active, unpaused, and battery 80, a tick at
which the sampled risk (70) exceeds 60 pauses, replans from the interpolated
position with tolerance 10, obtains the non-empty route `[pC3, endC3]`, and
resumes active with the new route and reset index/progress — but the battery
comes out as 100, not unchanged: the code installs the new route by calling
`startMission`, which resets the battery. -/
theorem C3_battery_reset :
    msC3.active = true ∧ msC3.paused = false ∧ msC3.battery = 80 ∧
    (60 : ℝ) < pfC3.getRisk pC3 ∧
    simulationTick pfC3 endC3 [pC3, pC3] msC3 =
      ({ active := true, paused := false, path := [pC3, endC3], currentIndex := 0,
         progress := 0, battery := 100, trailPoints := [pC3] }, [pC3, endC3]) := by
  refine ⟨rfl, rfl, rfl, show (60 : ℝ) < pfC3.getRisk pC3 from pfC3_risk_high, ?_⟩
  unfold simulationTick
  rw [show msC3 = ⟨true, false, [pC3, pC3], 0, 3/5, 80, []⟩ from rfl]
  dsimp only
  rw [if_neg (by norm_num : ¬ (80:ℚ) ≤ 0)]
  rw [if_neg (by norm_num : ¬ (1:ℚ) ≤ 3/5 + 1/5)]
  dsimp only
  simp only [List.getD_cons_zero, List.getD_cons_succ, List.length_cons,
    List.length_nil, sub_self, zero_mul, add_zero, List.nil_append]
  rw [show ({ lat := pC3.lat, lng := pC3.lng } : LatLng) = pC3 from rfl]
  norm_num
  rw [if_pos (show (60:ℝ) < pfC3.getRisk pC3 from pfC3_risk_high)]
  rw [findPathC3_eval]
  simp [pauseMission, startMission, resumeMission]

/-- Ray-cast evaluation for an axis-aligned rectangle listed as
`[(a,b), (a,d), (c,d), (c,b)]` — the shape of every `polysC4` entry — at a
point strictly inside it. -/
theorem isPointInPolygon_rect_mem (x y a b c d : ℚ)
    (h1 : b < y) (h2 : y < d) (h3 : a ≤ x) (h4 : x < c) :
    Pathfinder.isPointInPolygon ⟨x, y⟩ [⟨a, b⟩, ⟨a, d⟩, ⟨c, d⟩, ⟨c, b⟩] = true := by
  unfold Pathfinder.isPointInPolygon
  simp only [List.length_cons, List.length_nil, List.range, List.range.loop,
    List.foldl_cons, List.foldl_nil, List.getD_cons_zero, List.getD_cons_succ]
  norm_num
  have ht : ¬(y < b ↔ y < d) ∧ x < c :=
    ⟨fun hiff => absurd (hiff.mpr h2) (by linarith), h4⟩
  rw [if_pos ht]
  exact Or.inr h3

/-- Ray-cast evaluation for an axis-aligned rectangle listed as
`[(a,b), (a,d), (c,d), (c,b)]` at a point outside it (four position cases). -/
theorem isPointInPolygon_rect_not_mem (x y a b c d : ℚ)
    (h : (y < b ∧ y < d) ∨ (b < y ∧ d < y) ∨
      (b < y ∧ y < d ∧ x < a ∧ x < c) ∨ (b < y ∧ y < d ∧ ¬ x < a ∧ ¬ x < c)) :
    Pathfinder.isPointInPolygon ⟨x, y⟩ [⟨a, b⟩, ⟨a, d⟩, ⟨c, d⟩, ⟨c, b⟩] = false := by
  unfold Pathfinder.isPointInPolygon
  simp only [List.length_cons, List.length_nil, List.range, List.range.loop,
    List.foldl_cons, List.foldl_nil, List.getD_cons_zero, List.getD_cons_succ]
  norm_num
  rcases h with ⟨hb, hd⟩ | ⟨hb, hd⟩ | ⟨hb, hd, hxa, hxc⟩ | ⟨hb, hd, hxa, hxc⟩
  · rw [if_neg (fun hc => hc.1 (iff_of_true hb hd))]
    intro hne
    exact absurd (iff_of_true hd hb) hne
  · rw [if_neg (fun hc => hc.1 (iff_of_false (by linarith) (by linarith)))]
    intro hne
    exact absurd (iff_of_false (by linarith) (by linarith)) hne
  · rw [if_pos ⟨fun hiff => absurd (hiff.mpr hd) (by linarith), hxc⟩]
    exact ⟨fun hiff => absurd (hiff.mp hd) (by linarith), hxa⟩
  · rw [if_neg (fun hc => hxc hc.2)]
    intro _hne
    exact not_lt.mp hxa

/-- Projections of the C4 pathfinder. -/
theorem pfC4_bounds : pfC4.bounds = ⟨0, 5, 0, 5⟩ := rfl

/-- Grid size of the C4 pathfinder. -/
theorem pfC4_gridSize : pfC4.gridSize = 5 := rfl

/-- A cell of the C4 grid is a wall iff its center is covered by `polysC4`
(transport of `markObstacles_wall_iff` along
`pfC4.grid = (pfC4base.markObstacles polysC4).grid`). -/
theorem pfC4_wall_iff (x y : ℤ) :
    (pfC4.grid y x = 100 ↔
      (polysC4.any fun poly =>
        Pathfinder.isPointInPolygon
          (Pathfinder.cellCenter pfC4base.bounds pfC4base.gridSize x y) poly) = true) ∧
    pfC4.grid y x ≤ 100 :=
  markObstacles_wall_iff pfC4base polysC4 x y

/-- The wall cells of the C4 grid touched by the search run: each has risk
exactly 100 after `markObstacles` (stated as `100 ≤`). -/
theorem pfC4_walls :
    100 ≤ pfC4.grid 0 1 ∧
    100 ≤ pfC4.grid 0 3 ∧
    100 ≤ pfC4.grid 0 4 ∧
    100 ≤ pfC4.grid 1 1 ∧
    100 ≤ pfC4.grid 1 4 ∧
    100 ≤ pfC4.grid 2 1 ∧
    100 ≤ pfC4.grid 2 3 ∧
    100 ≤ pfC4.grid 3 1 ∧
    100 ≤ pfC4.grid 3 4 ∧
    100 ≤ pfC4.grid 4 1 ∧
    100 ≤ pfC4.grid 4 2 := by
  refine ⟨le_of_eq ((pfC4_wall_iff 1 0).1.mpr ?_).symm,
    le_of_eq ((pfC4_wall_iff 3 0).1.mpr ?_).symm,
    le_of_eq ((pfC4_wall_iff 4 0).1.mpr ?_).symm,
    le_of_eq ((pfC4_wall_iff 1 1).1.mpr ?_).symm,
    le_of_eq ((pfC4_wall_iff 4 1).1.mpr ?_).symm,
    le_of_eq ((pfC4_wall_iff 1 2).1.mpr ?_).symm,
    le_of_eq ((pfC4_wall_iff 3 2).1.mpr ?_).symm,
    le_of_eq ((pfC4_wall_iff 1 3).1.mpr ?_).symm,
    le_of_eq ((pfC4_wall_iff 4 3).1.mpr ?_).symm,
    le_of_eq ((pfC4_wall_iff 1 4).1.mpr ?_).symm,
    le_of_eq ((pfC4_wall_iff 2 4).1.mpr ?_).symm⟩
  · rw [show Pathfinder.cellCenter pfC4base.bounds pfC4base.gridSize 1 0 =
        ⟨1/2, 3/2⟩ from by norm_num [Pathfinder.cellCenter, pfC4base, Pathfinder.initGrid]]
    simp only [polysC4, List.any_cons, List.any_nil]
    rw [isPointInPolygon_rect_mem (1/2) (3/2) (1/4) (5/4) (19/4) (7/4)
      (by norm_num) (by norm_num) (by norm_num) (by norm_num)]
    simp
  · rw [show Pathfinder.cellCenter pfC4base.bounds pfC4base.gridSize 3 0 =
        ⟨1/2, 7/2⟩ from by norm_num [Pathfinder.cellCenter, pfC4base, Pathfinder.initGrid]]
    simp only [polysC4, List.any_cons, List.any_nil]
    rw [isPointInPolygon_rect_mem (1/2) (7/2) (1/4) (13/4) (3/4) (19/4)
      (by norm_num) (by norm_num) (by norm_num) (by norm_num)]
    simp
  · rw [show Pathfinder.cellCenter pfC4base.bounds pfC4base.gridSize 4 0 =
        ⟨1/2, 9/2⟩ from by norm_num [Pathfinder.cellCenter, pfC4base, Pathfinder.initGrid]]
    simp only [polysC4, List.any_cons, List.any_nil]
    rw [isPointInPolygon_rect_mem (1/2) (9/2) (1/4) (13/4) (3/4) (19/4)
      (by norm_num) (by norm_num) (by norm_num) (by norm_num)]
    simp
  · rw [show Pathfinder.cellCenter pfC4base.bounds pfC4base.gridSize 1 1 =
        ⟨3/2, 3/2⟩ from by norm_num [Pathfinder.cellCenter, pfC4base, Pathfinder.initGrid]]
    simp only [polysC4, List.any_cons, List.any_nil]
    rw [isPointInPolygon_rect_mem (3/2) (3/2) (1/4) (5/4) (19/4) (7/4)
      (by norm_num) (by norm_num) (by norm_num) (by norm_num)]
    simp
  · rw [show Pathfinder.cellCenter pfC4base.bounds pfC4base.gridSize 4 1 =
        ⟨3/2, 9/2⟩ from by norm_num [Pathfinder.cellCenter, pfC4base, Pathfinder.initGrid]]
    simp only [polysC4, List.any_cons, List.any_nil]
    rw [isPointInPolygon_rect_mem (3/2) (9/2) (5/4) (17/4) (7/4) (19/4)
      (by norm_num) (by norm_num) (by norm_num) (by norm_num)]
    simp
  · rw [show Pathfinder.cellCenter pfC4base.bounds pfC4base.gridSize 1 2 =
        ⟨5/2, 3/2⟩ from by norm_num [Pathfinder.cellCenter, pfC4base, Pathfinder.initGrid]]
    simp only [polysC4, List.any_cons, List.any_nil]
    rw [isPointInPolygon_rect_mem (5/2) (3/2) (1/4) (5/4) (19/4) (7/4)
      (by norm_num) (by norm_num) (by norm_num) (by norm_num)]
    simp
  · rw [show Pathfinder.cellCenter pfC4base.bounds pfC4base.gridSize 3 2 =
        ⟨5/2, 7/2⟩ from by norm_num [Pathfinder.cellCenter, pfC4base, Pathfinder.initGrid]]
    simp only [polysC4, List.any_cons, List.any_nil]
    rw [isPointInPolygon_rect_mem (5/2) (7/2) (9/4) (13/4) (11/4) (15/4)
      (by norm_num) (by norm_num) (by norm_num) (by norm_num)]
    simp
  · rw [show Pathfinder.cellCenter pfC4base.bounds pfC4base.gridSize 1 3 =
        ⟨7/2, 3/2⟩ from by norm_num [Pathfinder.cellCenter, pfC4base, Pathfinder.initGrid]]
    simp only [polysC4, List.any_cons, List.any_nil]
    rw [isPointInPolygon_rect_mem (7/2) (3/2) (1/4) (5/4) (19/4) (7/4)
      (by norm_num) (by norm_num) (by norm_num) (by norm_num)]
    simp
  · rw [show Pathfinder.cellCenter pfC4base.bounds pfC4base.gridSize 4 3 =
        ⟨7/2, 9/2⟩ from by norm_num [Pathfinder.cellCenter, pfC4base, Pathfinder.initGrid]]
    simp only [polysC4, List.any_cons, List.any_nil]
    rw [isPointInPolygon_rect_mem (7/2) (9/2) (13/4) (17/4) (15/4) (19/4)
      (by norm_num) (by norm_num) (by norm_num) (by norm_num)]
    simp
  · rw [show Pathfinder.cellCenter pfC4base.bounds pfC4base.gridSize 1 4 =
        ⟨9/2, 3/2⟩ from by norm_num [Pathfinder.cellCenter, pfC4base, Pathfinder.initGrid]]
    simp only [polysC4, List.any_cons, List.any_nil]
    rw [isPointInPolygon_rect_mem (9/2) (3/2) (1/4) (5/4) (19/4) (7/4)
      (by norm_num) (by norm_num) (by norm_num) (by norm_num)]
    simp
  · rw [show Pathfinder.cellCenter pfC4base.bounds pfC4base.gridSize 2 4 =
        ⟨9/2, 5/2⟩ from by norm_num [Pathfinder.cellCenter, pfC4base, Pathfinder.initGrid]]
    simp only [polysC4, List.any_cons, List.any_nil]
    rw [isPointInPolygon_rect_mem (9/2) (5/2) (17/4) (9/4) (19/4) (11/4)
      (by norm_num) (by norm_num) (by norm_num) (by norm_num)]
    simp

/-- The free cells of the C4 grid touched by the search run or lying on the
comparison route: each keeps risk below 100 after `markObstacles`. -/
theorem pfC4_free :
    ¬ 100 ≤ pfC4.grid 0 2 ∧
    ¬ 100 ≤ pfC4.grid 1 2 ∧
    ¬ 100 ≤ pfC4.grid 1 3 ∧
    ¬ 100 ≤ pfC4.grid 2 2 ∧
    ¬ 100 ≤ pfC4.grid 2 4 ∧
    ¬ 100 ≤ pfC4.grid 3 2 ∧
    ¬ 100 ≤ pfC4.grid 3 3 ∧
    ¬ 100 ≤ pfC4.grid 4 3 ∧
    ¬ 100 ≤ pfC4.grid 4 4 := by
  refine ⟨?_, ?_, ?_, ?_, ?_, ?_, ?_, ?_, ?_⟩
  · intro hcontra
    have heq : pfC4.grid 0 2 = 100 := le_antisymm (pfC4_wall_iff 2 0).2 hcontra
    have hcov := (pfC4_wall_iff 2 0).1.mp heq
    rw [show Pathfinder.cellCenter pfC4base.bounds pfC4base.gridSize 2 0 =
        ⟨1/2, 5/2⟩ from by norm_num [Pathfinder.cellCenter, pfC4base, Pathfinder.initGrid]] at hcov
    simp only [polysC4, List.any_cons, List.any_nil] at hcov
    rw [isPointInPolygon_rect_not_mem (1/2) (5/2) (1/4) (5/4) (19/4) (7/4) (by norm_num),
        isPointInPolygon_rect_not_mem (1/2) (5/2) (9/4) (1/4) (19/4) (3/4) (by norm_num),
        isPointInPolygon_rect_not_mem (1/2) (5/2) (1/4) (13/4) (3/4) (19/4) (by norm_num),
        isPointInPolygon_rect_not_mem (1/2) (5/2) (5/4) (17/4) (7/4) (19/4) (by norm_num),
        isPointInPolygon_rect_not_mem (1/2) (5/2) (9/4) (13/4) (11/4) (15/4) (by norm_num),
        isPointInPolygon_rect_not_mem (1/2) (5/2) (13/4) (17/4) (15/4) (19/4) (by norm_num),
        isPointInPolygon_rect_not_mem (1/2) (5/2) (17/4) (9/4) (19/4) (11/4) (by norm_num)] at hcov
    simp at hcov
  · intro hcontra
    have heq : pfC4.grid 1 2 = 100 := le_antisymm (pfC4_wall_iff 2 1).2 hcontra
    have hcov := (pfC4_wall_iff 2 1).1.mp heq
    rw [show Pathfinder.cellCenter pfC4base.bounds pfC4base.gridSize 2 1 =
        ⟨3/2, 5/2⟩ from by norm_num [Pathfinder.cellCenter, pfC4base, Pathfinder.initGrid]] at hcov
    simp only [polysC4, List.any_cons, List.any_nil] at hcov
    rw [isPointInPolygon_rect_not_mem (3/2) (5/2) (1/4) (5/4) (19/4) (7/4) (by norm_num),
        isPointInPolygon_rect_not_mem (3/2) (5/2) (9/4) (1/4) (19/4) (3/4) (by norm_num),
        isPointInPolygon_rect_not_mem (3/2) (5/2) (1/4) (13/4) (3/4) (19/4) (by norm_num),
        isPointInPolygon_rect_not_mem (3/2) (5/2) (5/4) (17/4) (7/4) (19/4) (by norm_num),
        isPointInPolygon_rect_not_mem (3/2) (5/2) (9/4) (13/4) (11/4) (15/4) (by norm_num),
        isPointInPolygon_rect_not_mem (3/2) (5/2) (13/4) (17/4) (15/4) (19/4) (by norm_num),
        isPointInPolygon_rect_not_mem (3/2) (5/2) (17/4) (9/4) (19/4) (11/4) (by norm_num)] at hcov
    simp at hcov
  · intro hcontra
    have heq : pfC4.grid 1 3 = 100 := le_antisymm (pfC4_wall_iff 3 1).2 hcontra
    have hcov := (pfC4_wall_iff 3 1).1.mp heq
    rw [show Pathfinder.cellCenter pfC4base.bounds pfC4base.gridSize 3 1 =
        ⟨3/2, 7/2⟩ from by norm_num [Pathfinder.cellCenter, pfC4base, Pathfinder.initGrid]] at hcov
    simp only [polysC4, List.any_cons, List.any_nil] at hcov
    rw [isPointInPolygon_rect_not_mem (3/2) (7/2) (1/4) (5/4) (19/4) (7/4) (by norm_num),
        isPointInPolygon_rect_not_mem (3/2) (7/2) (9/4) (1/4) (19/4) (3/4) (by norm_num),
        isPointInPolygon_rect_not_mem (3/2) (7/2) (1/4) (13/4) (3/4) (19/4) (by norm_num),
        isPointInPolygon_rect_not_mem (3/2) (7/2) (5/4) (17/4) (7/4) (19/4) (by norm_num),
        isPointInPolygon_rect_not_mem (3/2) (7/2) (9/4) (13/4) (11/4) (15/4) (by norm_num),
        isPointInPolygon_rect_not_mem (3/2) (7/2) (13/4) (17/4) (15/4) (19/4) (by norm_num),
        isPointInPolygon_rect_not_mem (3/2) (7/2) (17/4) (9/4) (19/4) (11/4) (by norm_num)] at hcov
    simp at hcov
  · intro hcontra
    have heq : pfC4.grid 2 2 = 100 := le_antisymm (pfC4_wall_iff 2 2).2 hcontra
    have hcov := (pfC4_wall_iff 2 2).1.mp heq
    rw [show Pathfinder.cellCenter pfC4base.bounds pfC4base.gridSize 2 2 =
        ⟨5/2, 5/2⟩ from by norm_num [Pathfinder.cellCenter, pfC4base, Pathfinder.initGrid]] at hcov
    simp only [polysC4, List.any_cons, List.any_nil] at hcov
    rw [isPointInPolygon_rect_not_mem (5/2) (5/2) (1/4) (5/4) (19/4) (7/4) (by norm_num),
        isPointInPolygon_rect_not_mem (5/2) (5/2) (9/4) (1/4) (19/4) (3/4) (by norm_num),
        isPointInPolygon_rect_not_mem (5/2) (5/2) (1/4) (13/4) (3/4) (19/4) (by norm_num),
        isPointInPolygon_rect_not_mem (5/2) (5/2) (5/4) (17/4) (7/4) (19/4) (by norm_num),
        isPointInPolygon_rect_not_mem (5/2) (5/2) (9/4) (13/4) (11/4) (15/4) (by norm_num),
        isPointInPolygon_rect_not_mem (5/2) (5/2) (13/4) (17/4) (15/4) (19/4) (by norm_num),
        isPointInPolygon_rect_not_mem (5/2) (5/2) (17/4) (9/4) (19/4) (11/4) (by norm_num)] at hcov
    simp at hcov
  · intro hcontra
    have heq : pfC4.grid 2 4 = 100 := le_antisymm (pfC4_wall_iff 4 2).2 hcontra
    have hcov := (pfC4_wall_iff 4 2).1.mp heq
    rw [show Pathfinder.cellCenter pfC4base.bounds pfC4base.gridSize 4 2 =
        ⟨5/2, 9/2⟩ from by norm_num [Pathfinder.cellCenter, pfC4base, Pathfinder.initGrid]] at hcov
    simp only [polysC4, List.any_cons, List.any_nil] at hcov
    rw [isPointInPolygon_rect_not_mem (5/2) (9/2) (1/4) (5/4) (19/4) (7/4) (by norm_num),
        isPointInPolygon_rect_not_mem (5/2) (9/2) (9/4) (1/4) (19/4) (3/4) (by norm_num),
        isPointInPolygon_rect_not_mem (5/2) (9/2) (1/4) (13/4) (3/4) (19/4) (by norm_num),
        isPointInPolygon_rect_not_mem (5/2) (9/2) (5/4) (17/4) (7/4) (19/4) (by norm_num),
        isPointInPolygon_rect_not_mem (5/2) (9/2) (9/4) (13/4) (11/4) (15/4) (by norm_num),
        isPointInPolygon_rect_not_mem (5/2) (9/2) (13/4) (17/4) (15/4) (19/4) (by norm_num),
        isPointInPolygon_rect_not_mem (5/2) (9/2) (17/4) (9/4) (19/4) (11/4) (by norm_num)] at hcov
    simp at hcov
  · intro hcontra
    have heq : pfC4.grid 3 2 = 100 := le_antisymm (pfC4_wall_iff 2 3).2 hcontra
    have hcov := (pfC4_wall_iff 2 3).1.mp heq
    rw [show Pathfinder.cellCenter pfC4base.bounds pfC4base.gridSize 2 3 =
        ⟨7/2, 5/2⟩ from by norm_num [Pathfinder.cellCenter, pfC4base, Pathfinder.initGrid]] at hcov
    simp only [polysC4, List.any_cons, List.any_nil] at hcov
    rw [isPointInPolygon_rect_not_mem (7/2) (5/2) (1/4) (5/4) (19/4) (7/4) (by norm_num),
        isPointInPolygon_rect_not_mem (7/2) (5/2) (9/4) (1/4) (19/4) (3/4) (by norm_num),
        isPointInPolygon_rect_not_mem (7/2) (5/2) (1/4) (13/4) (3/4) (19/4) (by norm_num),
        isPointInPolygon_rect_not_mem (7/2) (5/2) (5/4) (17/4) (7/4) (19/4) (by norm_num),
        isPointInPolygon_rect_not_mem (7/2) (5/2) (9/4) (13/4) (11/4) (15/4) (by norm_num),
        isPointInPolygon_rect_not_mem (7/2) (5/2) (13/4) (17/4) (15/4) (19/4) (by norm_num),
        isPointInPolygon_rect_not_mem (7/2) (5/2) (17/4) (9/4) (19/4) (11/4) (by norm_num)] at hcov
    simp at hcov
  · intro hcontra
    have heq : pfC4.grid 3 3 = 100 := le_antisymm (pfC4_wall_iff 3 3).2 hcontra
    have hcov := (pfC4_wall_iff 3 3).1.mp heq
    rw [show Pathfinder.cellCenter pfC4base.bounds pfC4base.gridSize 3 3 =
        ⟨7/2, 7/2⟩ from by norm_num [Pathfinder.cellCenter, pfC4base, Pathfinder.initGrid]] at hcov
    simp only [polysC4, List.any_cons, List.any_nil] at hcov
    rw [isPointInPolygon_rect_not_mem (7/2) (7/2) (1/4) (5/4) (19/4) (7/4) (by norm_num),
        isPointInPolygon_rect_not_mem (7/2) (7/2) (9/4) (1/4) (19/4) (3/4) (by norm_num),
        isPointInPolygon_rect_not_mem (7/2) (7/2) (1/4) (13/4) (3/4) (19/4) (by norm_num),
        isPointInPolygon_rect_not_mem (7/2) (7/2) (5/4) (17/4) (7/4) (19/4) (by norm_num),
        isPointInPolygon_rect_not_mem (7/2) (7/2) (9/4) (13/4) (11/4) (15/4) (by norm_num),
        isPointInPolygon_rect_not_mem (7/2) (7/2) (13/4) (17/4) (15/4) (19/4) (by norm_num),
        isPointInPolygon_rect_not_mem (7/2) (7/2) (17/4) (9/4) (19/4) (11/4) (by norm_num)] at hcov
    simp at hcov
  · intro hcontra
    have heq : pfC4.grid 4 3 = 100 := le_antisymm (pfC4_wall_iff 3 4).2 hcontra
    have hcov := (pfC4_wall_iff 3 4).1.mp heq
    rw [show Pathfinder.cellCenter pfC4base.bounds pfC4base.gridSize 3 4 =
        ⟨9/2, 7/2⟩ from by norm_num [Pathfinder.cellCenter, pfC4base, Pathfinder.initGrid]] at hcov
    simp only [polysC4, List.any_cons, List.any_nil] at hcov
    rw [isPointInPolygon_rect_not_mem (9/2) (7/2) (1/4) (5/4) (19/4) (7/4) (by norm_num),
        isPointInPolygon_rect_not_mem (9/2) (7/2) (9/4) (1/4) (19/4) (3/4) (by norm_num),
        isPointInPolygon_rect_not_mem (9/2) (7/2) (1/4) (13/4) (3/4) (19/4) (by norm_num),
        isPointInPolygon_rect_not_mem (9/2) (7/2) (5/4) (17/4) (7/4) (19/4) (by norm_num),
        isPointInPolygon_rect_not_mem (9/2) (7/2) (9/4) (13/4) (11/4) (15/4) (by norm_num),
        isPointInPolygon_rect_not_mem (9/2) (7/2) (13/4) (17/4) (15/4) (19/4) (by norm_num),
        isPointInPolygon_rect_not_mem (9/2) (7/2) (17/4) (9/4) (19/4) (11/4) (by norm_num)] at hcov
    simp at hcov
  · intro hcontra
    have heq : pfC4.grid 4 4 = 100 := le_antisymm (pfC4_wall_iff 4 4).2 hcontra
    have hcov := (pfC4_wall_iff 4 4).1.mp heq
    rw [show Pathfinder.cellCenter pfC4base.bounds pfC4base.gridSize 4 4 =
        ⟨9/2, 9/2⟩ from by norm_num [Pathfinder.cellCenter, pfC4base, Pathfinder.initGrid]] at hcov
    simp only [polysC4, List.any_cons, List.any_nil] at hcov
    rw [isPointInPolygon_rect_not_mem (9/2) (9/2) (1/4) (5/4) (19/4) (7/4) (by norm_num),
        isPointInPolygon_rect_not_mem (9/2) (9/2) (9/4) (1/4) (19/4) (3/4) (by norm_num),
        isPointInPolygon_rect_not_mem (9/2) (9/2) (1/4) (13/4) (3/4) (19/4) (by norm_num),
        isPointInPolygon_rect_not_mem (9/2) (9/2) (5/4) (17/4) (7/4) (19/4) (by norm_num),
        isPointInPolygon_rect_not_mem (9/2) (9/2) (9/4) (13/4) (11/4) (15/4) (by norm_num),
        isPointInPolygon_rect_not_mem (9/2) (9/2) (13/4) (17/4) (15/4) (19/4) (by norm_num),
        isPointInPolygon_rect_not_mem (9/2) (9/2) (17/4) (9/4) (19/4) (11/4) (by norm_num)] at hcov
    simp at hcov

/-- `moveCost` at risk weight 0 (tolerance 100) is the bare step distance. -/
theorem moveCost_zero (pf : Pathfinder) (c n : Cell) :
    pf.moveCost c n 0 = Pathfinder.distCost c n := by
  unfold Pathfinder.moveCost Pathfinder.riskCost
  norm_num

set_option maxHeartbeats 2000000 in
/-- The A* call of the C4 counterexample, evaluated: `findPath` at tolerance
100 on the `pfC4` grid returns the six-point route through `(2,3)` and
`(3,4)` of length `4 + √2`, although a route of length `2 + 2√2` exists. The
cell `(2,2)` is discovered with g-score `2√2` via `(3,1)`, later improved to
`2` via `(2,1)` while already in the open array — where its frozen f-score
`4√2` keeps it behind `(2,3)`/`(3,4)`/`(4,4)` (all of f `≤ 4 + √2 < 4√2`), so
the diagonal shortcut `(2,2)-(3,3)-(4,4)` is never taken. -/
theorem findPathC4_eval : pfC4.findPath startC4 endC4 100 =
    [⟨1/2, 5/2⟩, ⟨3/2, 5/2⟩, ⟨5/2, 5/2⟩, ⟨7/2, 5/2⟩, ⟨9/2, 7/2⟩, ⟨9/2, 9/2⟩] := by
  obtain ⟨hw10, hw30, hw40, hw11, hw41, hw12, hw32, hw13, hw43, hw14, hw24⟩ := pfC4_walls
  obtain ⟨hf20, hf21, hf31, hf22, hf42, hf23, hf33, hf34, hf44⟩ := pfC4_free
  have hmz := moveCost_zero pfC4
  have hsq2 : Real.sqrt 2 ^ 2 = 2 := Real.sq_sqrt (by norm_num)
  have hs2nn : (0 : ℝ) ≤ Real.sqrt 2 := Real.sqrt_nonneg 2
  have h2lo : (1.414 : ℝ) < Real.sqrt 2 := by nlinarith [hsq2, hs2nn]
  have h2hi : Real.sqrt 2 < 1.415 := by nlinarith [hsq2, hs2nn]
  have h5hi : Real.sqrt 5 < 2.237 := by
    nlinarith [Real.sq_sqrt (show (0 : ℝ) ≤ 5 by norm_num), Real.sqrt_nonneg 5]
  have h10hi : Real.sqrt 10 < 3.163 := by
    nlinarith [Real.sq_sqrt (show (0 : ℝ) ≤ 10 by norm_num), Real.sqrt_nonneg 10]
  have h13lo : (3.605 : ℝ) < Real.sqrt 13 := by
    nlinarith [Real.sq_sqrt (show (0 : ℝ) ≤ 13 by norm_num), Real.sqrt_nonneg 13]
  have h13hi : Real.sqrt 13 < 3.606 := by
    nlinarith [Real.sq_sqrt (show (0 : ℝ) ≤ 13 by norm_num), Real.sqrt_nonneg 13]
  have hA : ¬ (1 + Real.sqrt 13 ≤ Real.sqrt 2 + Real.sqrt 10) := by
    intro hcon
    linarith [h13lo, h2hi, h10hi]
  have hB : (1 + Real.sqrt 13 : ℝ) ≤ 4 * Real.sqrt 2 := by linarith [h13hi, h2lo]
  have hC : (1 + Real.sqrt 13 : ℝ) ≤ 2 * Real.sqrt 2 + 2 := by linarith [h13hi, h2lo]
  have hD : ¬ (4 * Real.sqrt 2 ≤ 2 * Real.sqrt 2 + 2) := by
    intro hcon
    linarith [h2lo]
  have hE : (2 * Real.sqrt 2 + 2 : ℝ) ≤ 4 * Real.sqrt 2 := by linarith [h2lo]
  have hG : ¬ (4 * Real.sqrt 2 ≤ 3 + Real.sqrt 5) := by
    intro hcon
    linarith [h2lo, h5hi]
  have hH : ¬ (4 * Real.sqrt 2 ≤ 4 + Real.sqrt 2) := by
    intro hcon
    linarith [h2lo, h2hi]
  have hsqrt4 : Real.sqrt 4 = 2 := by
    rw [show (4 : ℝ) = 2 ^ 2 by norm_num, Real.sqrt_sq (by norm_num : (0 : ℝ) ≤ 2)]
  have hsqrt8 : Real.sqrt 8 = 2 * Real.sqrt 2 := by
    rw [show (8 : ℝ) = 2 ^ 2 * 2 by norm_num, Real.sqrt_mul (by positivity) 2,
      Real.sqrt_sq (by norm_num : (0 : ℝ) ≤ 2)]
  have hh21 : Pathfinder.heuristic ⟨2, 1⟩ ⟨4, 4⟩ = Real.sqrt 13 := by
    norm_num [Pathfinder.heuristic]
  have hh31 : Pathfinder.heuristic ⟨3, 1⟩ ⟨4, 4⟩ = Real.sqrt 10 := by
    norm_num [Pathfinder.heuristic]
  have hh22 : Pathfinder.heuristic ⟨2, 2⟩ ⟨4, 4⟩ = 2 * Real.sqrt 2 := by
    norm_num [Pathfinder.heuristic, hsqrt8]
  have hh42 : Pathfinder.heuristic ⟨4, 2⟩ ⟨4, 4⟩ = 2 := by
    norm_num [Pathfinder.heuristic, hsqrt4]
  have hh33 : Pathfinder.heuristic ⟨3, 3⟩ ⟨4, 4⟩ = Real.sqrt 2 := by
    norm_num [Pathfinder.heuristic]
  have hh23 : Pathfinder.heuristic ⟨2, 3⟩ ⟨4, 4⟩ = Real.sqrt 5 := by
    norm_num [Pathfinder.heuristic]
  have hh34 : Pathfinder.heuristic ⟨3, 4⟩ ⟨4, 4⟩ = 1 := by
    norm_num [Pathfinder.heuristic, Real.sqrt_one]
  have hh44 : Pathfinder.heuristic ⟨4, 4⟩ ⟨4, 4⟩ = 0 := by
    norm_num [Pathfinder.heuristic, Real.sqrt_zero]
  have hd2021 : Pathfinder.distCost ⟨2, 0⟩ ⟨2, 1⟩ = 1 := by
    norm_num [Pathfinder.distCost, Real.sqrt_one]
  have hd2031 : Pathfinder.distCost ⟨2, 0⟩ ⟨3, 1⟩ = Real.sqrt 2 := by
    norm_num [Pathfinder.distCost]
  have hd3121 : Pathfinder.distCost ⟨3, 1⟩ ⟨2, 1⟩ = 1 := by
    norm_num [Pathfinder.distCost, Real.sqrt_one]
  have hd3122 : Pathfinder.distCost ⟨3, 1⟩ ⟨2, 2⟩ = Real.sqrt 2 := by
    norm_num [Pathfinder.distCost]
  have hd3142 : Pathfinder.distCost ⟨3, 1⟩ ⟨4, 2⟩ = Real.sqrt 2 := by
    norm_num [Pathfinder.distCost]
  have hd2122 : Pathfinder.distCost ⟨2, 1⟩ ⟨2, 2⟩ = 1 := by
    norm_num [Pathfinder.distCost, Real.sqrt_one]
  have hd4233 : Pathfinder.distCost ⟨4, 2⟩ ⟨3, 3⟩ = Real.sqrt 2 := by
    norm_num [Pathfinder.distCost]
  have hd2223 : Pathfinder.distCost ⟨2, 2⟩ ⟨2, 3⟩ = 1 := by
    norm_num [Pathfinder.distCost, Real.sqrt_one]
  have hd2233 : Pathfinder.distCost ⟨2, 2⟩ ⟨3, 3⟩ = Real.sqrt 2 := by
    norm_num [Pathfinder.distCost]
  have hd2333 : Pathfinder.distCost ⟨2, 3⟩ ⟨3, 3⟩ = 1 := by
    norm_num [Pathfinder.distCost, Real.sqrt_one]
  have hd2334 : Pathfinder.distCost ⟨2, 3⟩ ⟨3, 4⟩ = Real.sqrt 2 := by
    norm_num [Pathfinder.distCost]
  have hd3433 : Pathfinder.distCost ⟨3, 4⟩ ⟨3, 3⟩ = 1 := by
    norm_num [Pathfinder.distCost, Real.sqrt_one]
  have hd3444 : Pathfinder.distCost ⟨3, 4⟩ ⟨4, 4⟩ = 1 := by
    norm_num [Pathfinder.distCost, Real.sqrt_one]
  have hsnode : pfC4.latLngToGrid startC4 = ⟨2, 0⟩ := by
    norm_num [Pathfinder.latLngToGrid, startC4, pfC4_bounds, pfC4_gridSize]
  have henode : pfC4.latLngToGrid endC4 = ⟨4, 4⟩ := by
    norm_num [Pathfinder.latLngToGrid, endC4, pfC4_bounds, pfC4_gridSize]
  have hvs : pfC4.isValid (2 : ℤ) 0 := by
    rw [Pathfinder.isValid, pfC4_gridSize]
    norm_num
  have hve : pfC4.isValid (4 : ℤ) 4 := by
    rw [Pathfinder.isValid, pfC4_gridSize]
    norm_num
  have hn20 : pfC4.getNeighbors 2 0 = [⟨2, 1⟩, ⟨1, 0⟩, ⟨3, 0⟩, ⟨1, 1⟩, ⟨3, 1⟩] := by
    rw [Pathfinder.getNeighbors]
    norm_num [Pathfinder.isValid, pfC4_gridSize]
  have hn31 : pfC4.getNeighbors 3 1 =
      [⟨3, 0⟩, ⟨3, 2⟩, ⟨2, 1⟩, ⟨4, 1⟩, ⟨2, 0⟩, ⟨4, 0⟩, ⟨2, 2⟩, ⟨4, 2⟩] := by
    rw [Pathfinder.getNeighbors]
    norm_num [Pathfinder.isValid, pfC4_gridSize]
  have hn21 : pfC4.getNeighbors 2 1 =
      [⟨2, 0⟩, ⟨2, 2⟩, ⟨1, 1⟩, ⟨3, 1⟩, ⟨1, 0⟩, ⟨3, 0⟩, ⟨1, 2⟩, ⟨3, 2⟩] := by
    rw [Pathfinder.getNeighbors]
    norm_num [Pathfinder.isValid, pfC4_gridSize]
  have hn42 : pfC4.getNeighbors 4 2 = [⟨4, 1⟩, ⟨4, 3⟩, ⟨3, 2⟩, ⟨3, 1⟩, ⟨3, 3⟩] := by
    rw [Pathfinder.getNeighbors]
    norm_num [Pathfinder.isValid, pfC4_gridSize]
  have hn22 : pfC4.getNeighbors 2 2 =
      [⟨2, 1⟩, ⟨2, 3⟩, ⟨1, 2⟩, ⟨3, 2⟩, ⟨1, 1⟩, ⟨3, 1⟩, ⟨1, 3⟩, ⟨3, 3⟩] := by
    rw [Pathfinder.getNeighbors]
    norm_num [Pathfinder.isValid, pfC4_gridSize]
  have hn23 : pfC4.getNeighbors 2 3 =
      [⟨2, 2⟩, ⟨2, 4⟩, ⟨1, 3⟩, ⟨3, 3⟩, ⟨1, 2⟩, ⟨3, 2⟩, ⟨1, 4⟩, ⟨3, 4⟩] := by
    rw [Pathfinder.getNeighbors]
    norm_num [Pathfinder.isValid, pfC4_gridSize]
  have hn34 : pfC4.getNeighbors 3 4 = [⟨3, 3⟩, ⟨2, 4⟩, ⟨4, 4⟩, ⟨2, 3⟩, ⟨4, 3⟩] := by
    rw [Pathfinder.getNeighbors]
    norm_num [Pathfinder.isValid, pfC4_gridSize]
  have hso2 : Pathfinder.sortByF [⟨2, 1, 1 + Real.sqrt 13⟩, ⟨3, 1, Real.sqrt 2 + Real.sqrt 10⟩] = [⟨3, 1, Real.sqrt 2 + Real.sqrt 10⟩, ⟨2, 1, 1 + Real.sqrt 13⟩] := by
    simp only [Pathfinder.sortByF, List.foldl_cons, List.foldl_nil, Pathfinder.insertByF]
    rw [if_neg hA]
  have hso3 : Pathfinder.sortByF [⟨2, 1, 1 + Real.sqrt 13⟩, ⟨2, 2, 4 * Real.sqrt 2⟩, ⟨4, 2, 2 * Real.sqrt 2 + 2⟩] = [⟨2, 1, 1 + Real.sqrt 13⟩, ⟨4, 2, 2 * Real.sqrt 2 + 2⟩, ⟨2, 2, 4 * Real.sqrt 2⟩] := by
    simp only [Pathfinder.sortByF, List.foldl_cons, List.foldl_nil, Pathfinder.insertByF]
    rw [if_pos hB]
    simp only [Pathfinder.insertByF]
    rw [if_pos hC, if_neg hD]
  have hso4 : Pathfinder.sortByF [⟨4, 2, 2 * Real.sqrt 2 + 2⟩, ⟨2, 2, 4 * Real.sqrt 2⟩] = [⟨4, 2, 2 * Real.sqrt 2 + 2⟩, ⟨2, 2, 4 * Real.sqrt 2⟩] := by
    simp only [Pathfinder.sortByF, List.foldl_cons, List.foldl_nil, Pathfinder.insertByF]
    rw [if_pos hE]
  have hso5 : Pathfinder.sortByF [⟨2, 2, 4 * Real.sqrt 2⟩, ⟨3, 3, 4 * Real.sqrt 2⟩] = [⟨2, 2, 4 * Real.sqrt 2⟩, ⟨3, 3, 4 * Real.sqrt 2⟩] := by
    simp only [Pathfinder.sortByF, List.foldl_cons, List.foldl_nil, Pathfinder.insertByF]
    rw [if_pos le_rfl]
  have hso6 : Pathfinder.sortByF [⟨3, 3, 4 * Real.sqrt 2⟩, ⟨2, 3, 3 + Real.sqrt 5⟩] = [⟨2, 3, 3 + Real.sqrt 5⟩, ⟨3, 3, 4 * Real.sqrt 2⟩] := by
    simp only [Pathfinder.sortByF, List.foldl_cons, List.foldl_nil, Pathfinder.insertByF]
    rw [if_neg hG]
  have hso7 : Pathfinder.sortByF [⟨3, 3, 4 * Real.sqrt 2⟩, ⟨3, 4, 4 + Real.sqrt 2⟩] = [⟨3, 4, 4 + Real.sqrt 2⟩, ⟨3, 3, 4 * Real.sqrt 2⟩] := by
    simp only [Pathfinder.sortByF, List.foldl_cons, List.foldl_nil, Pathfinder.insertByF]
    rw [if_neg hH]
  have hso8 : Pathfinder.sortByF [⟨3, 3, 4 * Real.sqrt 2⟩, ⟨4, 4, 4 + Real.sqrt 2⟩] = [⟨4, 4, 4 + Real.sqrt 2⟩, ⟨3, 3, 4 * Real.sqrt 2⟩] := by
    simp only [Pathfinder.sortByF, List.foldl_cons, List.foldl_nil, Pathfinder.insertByF]
    rw [if_neg hH]
  unfold Pathfinder.findPath
  dsimp only
  rw [hsnode, henode]
  rw [if_pos ⟨hvs, hve⟩]
  unfold Pathfinder.findPathRun
  dsimp only
  rw [show Pathfinder.riskWeightOf 100 = 0 from by norm_num [Pathfinder.riskWeightOf]]
  rw [Pathfinder.findPathLoop]
  rw [show Pathfinder.sortByF [(⟨2, 0, Pathfinder.heuristic ⟨2, 0⟩ ⟨4, 4⟩⟩ : PFNode)] = [⟨2, 0, Pathfinder.heuristic ⟨2, 0⟩ ⟨4, 4⟩⟩] from rfl]
  dsimp only
  rw [if_neg (show ¬ ((2 : ℤ) = 4 ∧ (0 : ℤ) = 4) from by decide)]
  rw [hn20]
  simp only [List.foldl_cons, List.foldl_nil]
  rw [relaxOne_fresh pfC4 ⟨4, 4⟩ 0 ⟨2, 0⟩ [⟨2, 0⟩] ⟨[], [], [(⟨2, 0⟩, 0)], [(⟨2, 0⟩, Pathfinder.heuristic ⟨2, 0⟩ ⟨4, 4⟩)]⟩ ⟨2, 1⟩ (by decide) hf21 rfl]
  rw [show (lookupCell [((⟨2, 0⟩ : Cell), (0 : ℝ))] ⟨2, 0⟩).getD 0 + pfC4.moveCost ⟨2, 0⟩ ⟨2, 1⟩ 0 = 1 from by
    rw [show lookupCell [((⟨2, 0⟩ : Cell), (0 : ℝ))] ⟨2, 0⟩ = some 0 from rfl, Option.getD_some, hmz, hd2021]
    norm_num]
  rw [relaxUpdate_push ⟨4, 4⟩ ⟨2, 0⟩ ⟨2, 1⟩ 1 ⟨[], [], [(⟨2, 0⟩, 0)], [(⟨2, 0⟩, Pathfinder.heuristic ⟨2, 0⟩ ⟨4, 4⟩)]⟩ rfl]
  rw [hh21]
  dsimp only
  simp only [List.cons_append, List.nil_append]
  rw [relaxOne_wall pfC4 ⟨4, 4⟩ 0 ⟨2, 0⟩ _ _ ⟨1, 0⟩ (by decide) hw10]
  rw [relaxOne_wall pfC4 ⟨4, 4⟩ 0 ⟨2, 0⟩ _ _ ⟨3, 0⟩ (by decide) hw30]
  rw [relaxOne_wall pfC4 ⟨4, 4⟩ 0 ⟨2, 0⟩ _ _ ⟨1, 1⟩ (by decide) hw11]
  rw [relaxOne_fresh pfC4 ⟨4, 4⟩ 0 ⟨2, 0⟩ [⟨2, 0⟩] ⟨[⟨2, 1, 1 + Real.sqrt 13⟩], [(⟨2, 1⟩, ⟨2, 0⟩)], [(⟨2, 1⟩, 1), (⟨2, 0⟩, 0)], [(⟨2, 1⟩, 1 + Real.sqrt 13), (⟨2, 0⟩, Pathfinder.heuristic ⟨2, 0⟩ ⟨4, 4⟩)]⟩ ⟨3, 1⟩ (by decide) hf31 rfl]
  rw [show (lookupCell [((⟨2, 1⟩ : Cell), (1 : ℝ)), (⟨2, 0⟩, 0)] ⟨2, 0⟩).getD 0 + pfC4.moveCost ⟨2, 0⟩ ⟨3, 1⟩ 0 =
      Real.sqrt 2 from by
    rw [show lookupCell [((⟨2, 1⟩ : Cell), (1 : ℝ)), (⟨2, 0⟩, 0)] ⟨2, 0⟩ = some 0 from rfl, Option.getD_some, hmz, hd2031]
    norm_num]
  rw [relaxUpdate_push ⟨4, 4⟩ ⟨2, 0⟩ ⟨3, 1⟩ (Real.sqrt 2) ⟨[⟨2, 1, 1 + Real.sqrt 13⟩], [(⟨2, 1⟩, ⟨2, 0⟩)], [(⟨2, 1⟩, 1), (⟨2, 0⟩, 0)], [(⟨2, 1⟩, 1 + Real.sqrt 13), (⟨2, 0⟩, Pathfinder.heuristic ⟨2, 0⟩ ⟨4, 4⟩)]⟩ rfl]
  rw [hh31]
  dsimp only
  simp only [List.cons_append, List.nil_append]
  rw [show pfC4.gridSize.toNat * pfC4.gridSize.toNat = 24 + 1 from rfl]
  rw [Pathfinder.findPathLoop]
  rw [hso2]
  dsimp only
  rw [if_neg (show ¬ ((3 : ℤ) = 4 ∧ (1 : ℤ) = 4) from by decide)]
  rw [hn31]
  simp only [List.foldl_cons, List.foldl_nil]
  rw [relaxOne_wall pfC4 ⟨4, 4⟩ 0 ⟨3, 1⟩ _ _ ⟨3, 0⟩ (by decide) hw30]
  rw [relaxOne_wall pfC4 ⟨4, 4⟩ 0 ⟨3, 1⟩ _ _ ⟨3, 2⟩ (by decide) hw32]
  rw [relaxOne_noimprove pfC4 ⟨4, 4⟩ 0 ⟨3, 1⟩ [⟨3, 1⟩, ⟨2, 0⟩] ⟨[⟨2, 1, 1 + Real.sqrt 13⟩], [(⟨3, 1⟩, ⟨2, 0⟩), (⟨2, 1⟩, ⟨2, 0⟩)], [(⟨3, 1⟩, Real.sqrt 2), (⟨2, 1⟩, 1), (⟨2, 0⟩, 0)], [(⟨3, 1⟩, Real.sqrt 2 + Real.sqrt 10), (⟨2, 1⟩, 1 + Real.sqrt 13), (⟨2, 0⟩, Pathfinder.heuristic ⟨2, 0⟩ ⟨4, 4⟩)]⟩ ⟨2, 1⟩ 1
    (by decide) hf21 rfl
    (by rw [show lookupCell [((⟨3, 1⟩ : Cell), Real.sqrt 2), (⟨2, 1⟩, 1), (⟨2, 0⟩, 0)] ⟨3, 1⟩ = some (Real.sqrt 2) from rfl,
          Option.getD_some, hmz, hd3121]
        linarith [hs2nn])]
  rw [relaxOne_wall pfC4 ⟨4, 4⟩ 0 ⟨3, 1⟩ _ _ ⟨4, 1⟩ (by decide) hw41]
  rw [relaxOne_closed pfC4 ⟨4, 4⟩ 0 ⟨3, 1⟩ [⟨3, 1⟩, ⟨2, 0⟩] _ ⟨2, 0⟩ (by decide)]
  rw [relaxOne_wall pfC4 ⟨4, 4⟩ 0 ⟨3, 1⟩ _ _ ⟨4, 0⟩ (by decide) hw40]
  rw [relaxOne_fresh pfC4 ⟨4, 4⟩ 0 ⟨3, 1⟩ [⟨3, 1⟩, ⟨2, 0⟩] ⟨[⟨2, 1, 1 + Real.sqrt 13⟩], [(⟨3, 1⟩, ⟨2, 0⟩), (⟨2, 1⟩, ⟨2, 0⟩)], [(⟨3, 1⟩, Real.sqrt 2), (⟨2, 1⟩, 1), (⟨2, 0⟩, 0)], [(⟨3, 1⟩, Real.sqrt 2 + Real.sqrt 10), (⟨2, 1⟩, 1 + Real.sqrt 13), (⟨2, 0⟩, Pathfinder.heuristic ⟨2, 0⟩ ⟨4, 4⟩)]⟩ ⟨2, 2⟩ (by decide) hf22 rfl]
  rw [show (lookupCell [((⟨3, 1⟩ : Cell), Real.sqrt 2), (⟨2, 1⟩, 1), (⟨2, 0⟩, 0)] ⟨3, 1⟩).getD 0 + pfC4.moveCost ⟨3, 1⟩ ⟨2, 2⟩ 0 =
      2 * Real.sqrt 2 from by
    rw [show lookupCell [((⟨3, 1⟩ : Cell), Real.sqrt 2), (⟨2, 1⟩, 1), (⟨2, 0⟩, 0)] ⟨3, 1⟩ = some (Real.sqrt 2) from rfl,
      Option.getD_some, hmz, hd3122]
    ring]
  rw [relaxUpdate_push ⟨4, 4⟩ ⟨3, 1⟩ ⟨2, 2⟩ (2 * Real.sqrt 2) ⟨[⟨2, 1, 1 + Real.sqrt 13⟩], [(⟨3, 1⟩, ⟨2, 0⟩), (⟨2, 1⟩, ⟨2, 0⟩)], [(⟨3, 1⟩, Real.sqrt 2), (⟨2, 1⟩, 1), (⟨2, 0⟩, 0)], [(⟨3, 1⟩, Real.sqrt 2 + Real.sqrt 10), (⟨2, 1⟩, 1 + Real.sqrt 13), (⟨2, 0⟩, Pathfinder.heuristic ⟨2, 0⟩ ⟨4, 4⟩)]⟩ rfl]
  rw [hh22]
  rw [show (2 * Real.sqrt 2 + 2 * Real.sqrt 2 : ℝ) = 4 * Real.sqrt 2 from by ring]
  dsimp only
  simp only [List.cons_append, List.nil_append]
  rw [relaxOne_fresh pfC4 ⟨4, 4⟩ 0 ⟨3, 1⟩ [⟨3, 1⟩, ⟨2, 0⟩] ⟨[⟨2, 1, 1 + Real.sqrt 13⟩, ⟨2, 2, 4 * Real.sqrt 2⟩], [(⟨2, 2⟩, ⟨3, 1⟩), (⟨3, 1⟩, ⟨2, 0⟩), (⟨2, 1⟩, ⟨2, 0⟩)], [(⟨2, 2⟩, 2 * Real.sqrt 2), (⟨3, 1⟩, Real.sqrt 2), (⟨2, 1⟩, 1), (⟨2, 0⟩, 0)], [(⟨2, 2⟩, 4 * Real.sqrt 2), (⟨3, 1⟩, Real.sqrt 2 + Real.sqrt 10), (⟨2, 1⟩, 1 + Real.sqrt 13), (⟨2, 0⟩, Pathfinder.heuristic ⟨2, 0⟩ ⟨4, 4⟩)]⟩ ⟨4, 2⟩ (by decide) hf42 rfl]
  rw [show (lookupCell [(⟨2, 2⟩, 2 * Real.sqrt 2), (⟨3, 1⟩, Real.sqrt 2), (⟨2, 1⟩, 1), (⟨2, 0⟩, 0)] ⟨3, 1⟩).getD 0 + pfC4.moveCost ⟨3, 1⟩ ⟨4, 2⟩ 0 =
      2 * Real.sqrt 2 from by
    rw [show lookupCell [(⟨2, 2⟩, 2 * Real.sqrt 2), (⟨3, 1⟩, Real.sqrt 2), (⟨2, 1⟩, 1), (⟨2, 0⟩, 0)] ⟨3, 1⟩ = some (Real.sqrt 2) from rfl,
      Option.getD_some, hmz, hd3142]
    ring]
  rw [relaxUpdate_push ⟨4, 4⟩ ⟨3, 1⟩ ⟨4, 2⟩ (2 * Real.sqrt 2) ⟨[⟨2, 1, 1 + Real.sqrt 13⟩, ⟨2, 2, 4 * Real.sqrt 2⟩], [(⟨2, 2⟩, ⟨3, 1⟩), (⟨3, 1⟩, ⟨2, 0⟩), (⟨2, 1⟩, ⟨2, 0⟩)], [(⟨2, 2⟩, 2 * Real.sqrt 2), (⟨3, 1⟩, Real.sqrt 2), (⟨2, 1⟩, 1), (⟨2, 0⟩, 0)], [(⟨2, 2⟩, 4 * Real.sqrt 2), (⟨3, 1⟩, Real.sqrt 2 + Real.sqrt 10), (⟨2, 1⟩, 1 + Real.sqrt 13), (⟨2, 0⟩, Pathfinder.heuristic ⟨2, 0⟩ ⟨4, 4⟩)]⟩ rfl]
  rw [hh42]
  dsimp only
  simp only [List.cons_append, List.nil_append]
  rw [show (24 : ℕ) = 23 + 1 from rfl]
  rw [Pathfinder.findPathLoop]
  rw [hso3]
  dsimp only
  rw [if_neg (show ¬ ((2 : ℤ) = 4 ∧ (1 : ℤ) = 4) from by decide)]
  rw [hn21]
  simp only [List.foldl_cons, List.foldl_nil]
  rw [relaxOne_closed pfC4 ⟨4, 4⟩ 0 ⟨2, 1⟩ [⟨2, 1⟩, ⟨3, 1⟩, ⟨2, 0⟩] _ ⟨2, 0⟩ (by decide)]
  rw [relaxOne_improve pfC4 ⟨4, 4⟩ 0 ⟨2, 1⟩ [⟨2, 1⟩, ⟨3, 1⟩, ⟨2, 0⟩] ⟨[⟨4, 2, 2 * Real.sqrt 2 + 2⟩, ⟨2, 2, 4 * Real.sqrt 2⟩], [(⟨4, 2⟩, ⟨3, 1⟩), (⟨2, 2⟩, ⟨3, 1⟩), (⟨3, 1⟩, ⟨2, 0⟩), (⟨2, 1⟩, ⟨2, 0⟩)], [(⟨4, 2⟩, 2 * Real.sqrt 2), (⟨2, 2⟩, 2 * Real.sqrt 2), (⟨3, 1⟩, Real.sqrt 2), (⟨2, 1⟩, 1), (⟨2, 0⟩, 0)], [(⟨4, 2⟩, 2 * Real.sqrt 2 + 2), (⟨2, 2⟩, 4 * Real.sqrt 2), (⟨3, 1⟩, Real.sqrt 2 + Real.sqrt 10), (⟨2, 1⟩, 1 + Real.sqrt 13), (⟨2, 0⟩, Pathfinder.heuristic ⟨2, 0⟩ ⟨4, 4⟩)]⟩ ⟨2, 2⟩ (2 * Real.sqrt 2)
    (by decide) hf22 rfl
    (by rw [show lookupCell [((⟨4, 2⟩ : Cell), 2 * Real.sqrt 2), (⟨2, 2⟩, 2 * Real.sqrt 2), (⟨3, 1⟩, Real.sqrt 2), (⟨2, 1⟩, 1), (⟨2, 0⟩, 0)] ⟨2, 1⟩ = some 1 from rfl, Option.getD_some, hmz, hd2122]
        linarith [h2lo])]
  rw [show (lookupCell [((⟨4, 2⟩ : Cell), 2 * Real.sqrt 2), (⟨2, 2⟩, 2 * Real.sqrt 2), (⟨3, 1⟩, Real.sqrt 2), (⟨2, 1⟩, 1), (⟨2, 0⟩, 0)] ⟨2, 1⟩).getD 0 + pfC4.moveCost ⟨2, 1⟩ ⟨2, 2⟩ 0 = 2 from by
    rw [show lookupCell [((⟨4, 2⟩ : Cell), 2 * Real.sqrt 2), (⟨2, 2⟩, 2 * Real.sqrt 2), (⟨3, 1⟩, Real.sqrt 2), (⟨2, 1⟩, 1), (⟨2, 0⟩, 0)] ⟨2, 1⟩ = some 1 from rfl, Option.getD_some, hmz, hd2122]
    norm_num]
  rw [relaxUpdate_nopush ⟨4, 4⟩ ⟨2, 1⟩ ⟨2, 2⟩ 2 ⟨[⟨4, 2, 2 * Real.sqrt 2 + 2⟩, ⟨2, 2, 4 * Real.sqrt 2⟩], [(⟨4, 2⟩, ⟨3, 1⟩), (⟨2, 2⟩, ⟨3, 1⟩), (⟨3, 1⟩, ⟨2, 0⟩), (⟨2, 1⟩, ⟨2, 0⟩)], [(⟨4, 2⟩, 2 * Real.sqrt 2), (⟨2, 2⟩, 2 * Real.sqrt 2), (⟨3, 1⟩, Real.sqrt 2), (⟨2, 1⟩, 1), (⟨2, 0⟩, 0)], [(⟨4, 2⟩, 2 * Real.sqrt 2 + 2), (⟨2, 2⟩, 4 * Real.sqrt 2), (⟨3, 1⟩, Real.sqrt 2 + Real.sqrt 10), (⟨2, 1⟩, 1 + Real.sqrt 13), (⟨2, 0⟩, Pathfinder.heuristic ⟨2, 0⟩ ⟨4, 4⟩)]⟩ ⟨2, 2, 4 * Real.sqrt 2⟩ rfl]
  rw [hh22]
  dsimp only
  rw [relaxOne_wall pfC4 ⟨4, 4⟩ 0 ⟨2, 1⟩ _ _ ⟨1, 1⟩ (by decide) hw11]
  rw [relaxOne_closed pfC4 ⟨4, 4⟩ 0 ⟨2, 1⟩ [⟨2, 1⟩, ⟨3, 1⟩, ⟨2, 0⟩] _ ⟨3, 1⟩ (by decide)]
  rw [relaxOne_wall pfC4 ⟨4, 4⟩ 0 ⟨2, 1⟩ _ _ ⟨1, 0⟩ (by decide) hw10]
  rw [relaxOne_wall pfC4 ⟨4, 4⟩ 0 ⟨2, 1⟩ _ _ ⟨3, 0⟩ (by decide) hw30]
  rw [relaxOne_wall pfC4 ⟨4, 4⟩ 0 ⟨2, 1⟩ _ _ ⟨1, 2⟩ (by decide) hw12]
  rw [relaxOne_wall pfC4 ⟨4, 4⟩ 0 ⟨2, 1⟩ _ _ ⟨3, 2⟩ (by decide) hw32]
  dsimp only
  rw [show (23 : ℕ) = 22 + 1 from rfl]
  rw [Pathfinder.findPathLoop]
  rw [hso4]
  dsimp only
  rw [if_neg (show ¬ ((4 : ℤ) = 4 ∧ (2 : ℤ) = 4) from by decide)]
  rw [hn42]
  simp only [List.foldl_cons, List.foldl_nil]
  rw [relaxOne_wall pfC4 ⟨4, 4⟩ 0 ⟨4, 2⟩ _ _ ⟨4, 1⟩ (by decide) hw41]
  rw [relaxOne_wall pfC4 ⟨4, 4⟩ 0 ⟨4, 2⟩ _ _ ⟨4, 3⟩ (by decide) hw43]
  rw [relaxOne_wall pfC4 ⟨4, 4⟩ 0 ⟨4, 2⟩ _ _ ⟨3, 2⟩ (by decide) hw32]
  rw [relaxOne_closed pfC4 ⟨4, 4⟩ 0 ⟨4, 2⟩ [⟨4, 2⟩, ⟨2, 1⟩, ⟨3, 1⟩, ⟨2, 0⟩] _ ⟨3, 1⟩ (by decide)]
  rw [relaxOne_fresh pfC4 ⟨4, 4⟩ 0 ⟨4, 2⟩ [⟨4, 2⟩, ⟨2, 1⟩, ⟨3, 1⟩, ⟨2, 0⟩] ⟨[⟨2, 2, 4 * Real.sqrt 2⟩], [(⟨2, 2⟩, ⟨2, 1⟩), (⟨4, 2⟩, ⟨3, 1⟩), (⟨2, 2⟩, ⟨3, 1⟩), (⟨3, 1⟩, ⟨2, 0⟩), (⟨2, 1⟩, ⟨2, 0⟩)], [(⟨2, 2⟩, 2), (⟨4, 2⟩, 2 * Real.sqrt 2), (⟨2, 2⟩, 2 * Real.sqrt 2), (⟨3, 1⟩, Real.sqrt 2), (⟨2, 1⟩, 1), (⟨2, 0⟩, 0)], [(⟨2, 2⟩, 2 + 2 * Real.sqrt 2), (⟨4, 2⟩, 2 * Real.sqrt 2 + 2), (⟨2, 2⟩, 4 * Real.sqrt 2), (⟨3, 1⟩, Real.sqrt 2 + Real.sqrt 10), (⟨2, 1⟩, 1 + Real.sqrt 13), (⟨2, 0⟩, Pathfinder.heuristic ⟨2, 0⟩ ⟨4, 4⟩)]⟩ ⟨3, 3⟩ (by decide) hf33 rfl]
  rw [show (lookupCell [((⟨2, 2⟩ : Cell), (2 : ℝ)), (⟨4, 2⟩, 2 * Real.sqrt 2), (⟨2, 2⟩, 2 * Real.sqrt 2), (⟨3, 1⟩, Real.sqrt 2), (⟨2, 1⟩, 1), (⟨2, 0⟩, 0)] ⟨4, 2⟩).getD 0 + pfC4.moveCost ⟨4, 2⟩ ⟨3, 3⟩ 0 =
      3 * Real.sqrt 2 from by
    rw [show lookupCell [((⟨2, 2⟩ : Cell), (2 : ℝ)), (⟨4, 2⟩, 2 * Real.sqrt 2), (⟨2, 2⟩, 2 * Real.sqrt 2), (⟨3, 1⟩, Real.sqrt 2), (⟨2, 1⟩, 1), (⟨2, 0⟩, 0)] ⟨4, 2⟩ = some (2 * Real.sqrt 2) from rfl,
      Option.getD_some, hmz, hd4233]
    ring]
  rw [relaxUpdate_push ⟨4, 4⟩ ⟨4, 2⟩ ⟨3, 3⟩ (3 * Real.sqrt 2) ⟨[⟨2, 2, 4 * Real.sqrt 2⟩], [(⟨2, 2⟩, ⟨2, 1⟩), (⟨4, 2⟩, ⟨3, 1⟩), (⟨2, 2⟩, ⟨3, 1⟩), (⟨3, 1⟩, ⟨2, 0⟩), (⟨2, 1⟩, ⟨2, 0⟩)], [(⟨2, 2⟩, 2), (⟨4, 2⟩, 2 * Real.sqrt 2), (⟨2, 2⟩, 2 * Real.sqrt 2), (⟨3, 1⟩, Real.sqrt 2), (⟨2, 1⟩, 1), (⟨2, 0⟩, 0)], [(⟨2, 2⟩, 2 + 2 * Real.sqrt 2), (⟨4, 2⟩, 2 * Real.sqrt 2 + 2), (⟨2, 2⟩, 4 * Real.sqrt 2), (⟨3, 1⟩, Real.sqrt 2 + Real.sqrt 10), (⟨2, 1⟩, 1 + Real.sqrt 13), (⟨2, 0⟩, Pathfinder.heuristic ⟨2, 0⟩ ⟨4, 4⟩)]⟩ rfl]
  rw [hh33]
  rw [show (3 * Real.sqrt 2 + Real.sqrt 2 : ℝ) = 4 * Real.sqrt 2 from by ring]
  dsimp only
  simp only [List.cons_append, List.nil_append]
  rw [show (22 : ℕ) = 21 + 1 from rfl]
  rw [Pathfinder.findPathLoop]
  rw [hso5]
  dsimp only
  rw [if_neg (show ¬ ((2 : ℤ) = 4 ∧ (2 : ℤ) = 4) from by decide)]
  rw [hn22]
  simp only [List.foldl_cons, List.foldl_nil]
  rw [relaxOne_closed pfC4 ⟨4, 4⟩ 0 ⟨2, 2⟩ [⟨2, 2⟩, ⟨4, 2⟩, ⟨2, 1⟩, ⟨3, 1⟩, ⟨2, 0⟩] _ ⟨2, 1⟩ (by decide)]
  rw [relaxOne_fresh pfC4 ⟨4, 4⟩ 0 ⟨2, 2⟩ [⟨2, 2⟩, ⟨4, 2⟩, ⟨2, 1⟩, ⟨3, 1⟩, ⟨2, 0⟩] ⟨[⟨3, 3, 4 * Real.sqrt 2⟩], [(⟨3, 3⟩, ⟨4, 2⟩), (⟨2, 2⟩, ⟨2, 1⟩), (⟨4, 2⟩, ⟨3, 1⟩), (⟨2, 2⟩, ⟨3, 1⟩), (⟨3, 1⟩, ⟨2, 0⟩), (⟨2, 1⟩, ⟨2, 0⟩)], [(⟨3, 3⟩, 3 * Real.sqrt 2), (⟨2, 2⟩, 2), (⟨4, 2⟩, 2 * Real.sqrt 2), (⟨2, 2⟩, 2 * Real.sqrt 2), (⟨3, 1⟩, Real.sqrt 2), (⟨2, 1⟩, 1), (⟨2, 0⟩, 0)], [(⟨3, 3⟩, 4 * Real.sqrt 2), (⟨2, 2⟩, 2 + 2 * Real.sqrt 2), (⟨4, 2⟩, 2 * Real.sqrt 2 + 2), (⟨2, 2⟩, 4 * Real.sqrt 2), (⟨3, 1⟩, Real.sqrt 2 + Real.sqrt 10), (⟨2, 1⟩, 1 + Real.sqrt 13), (⟨2, 0⟩, Pathfinder.heuristic ⟨2, 0⟩ ⟨4, 4⟩)]⟩ ⟨2, 3⟩ (by decide) hf23 rfl]
  rw [show (lookupCell [((⟨3, 3⟩ : Cell), 3 * Real.sqrt 2), (⟨2, 2⟩, 2), (⟨4, 2⟩, 2 * Real.sqrt 2), (⟨2, 2⟩, 2 * Real.sqrt 2), (⟨3, 1⟩, Real.sqrt 2), (⟨2, 1⟩, 1), (⟨2, 0⟩, 0)] ⟨2, 2⟩).getD 0 + pfC4.moveCost ⟨2, 2⟩ ⟨2, 3⟩ 0 = 3 from by
    rw [show lookupCell [((⟨3, 3⟩ : Cell), 3 * Real.sqrt 2), (⟨2, 2⟩, 2), (⟨4, 2⟩, 2 * Real.sqrt 2), (⟨2, 2⟩, 2 * Real.sqrt 2), (⟨3, 1⟩, Real.sqrt 2), (⟨2, 1⟩, 1), (⟨2, 0⟩, 0)] ⟨2, 2⟩ = some 2 from rfl, Option.getD_some, hmz, hd2223]
    norm_num]
  rw [relaxUpdate_push ⟨4, 4⟩ ⟨2, 2⟩ ⟨2, 3⟩ 3 ⟨[⟨3, 3, 4 * Real.sqrt 2⟩], [(⟨3, 3⟩, ⟨4, 2⟩), (⟨2, 2⟩, ⟨2, 1⟩), (⟨4, 2⟩, ⟨3, 1⟩), (⟨2, 2⟩, ⟨3, 1⟩), (⟨3, 1⟩, ⟨2, 0⟩), (⟨2, 1⟩, ⟨2, 0⟩)], [(⟨3, 3⟩, 3 * Real.sqrt 2), (⟨2, 2⟩, 2), (⟨4, 2⟩, 2 * Real.sqrt 2), (⟨2, 2⟩, 2 * Real.sqrt 2), (⟨3, 1⟩, Real.sqrt 2), (⟨2, 1⟩, 1), (⟨2, 0⟩, 0)], [(⟨3, 3⟩, 4 * Real.sqrt 2), (⟨2, 2⟩, 2 + 2 * Real.sqrt 2), (⟨4, 2⟩, 2 * Real.sqrt 2 + 2), (⟨2, 2⟩, 4 * Real.sqrt 2), (⟨3, 1⟩, Real.sqrt 2 + Real.sqrt 10), (⟨2, 1⟩, 1 + Real.sqrt 13), (⟨2, 0⟩, Pathfinder.heuristic ⟨2, 0⟩ ⟨4, 4⟩)]⟩ rfl]
  rw [hh23]
  dsimp only
  simp only [List.cons_append, List.nil_append]
  rw [relaxOne_wall pfC4 ⟨4, 4⟩ 0 ⟨2, 2⟩ _ _ ⟨1, 2⟩ (by decide) hw12]
  rw [relaxOne_wall pfC4 ⟨4, 4⟩ 0 ⟨2, 2⟩ _ _ ⟨3, 2⟩ (by decide) hw32]
  rw [relaxOne_wall pfC4 ⟨4, 4⟩ 0 ⟨2, 2⟩ _ _ ⟨1, 1⟩ (by decide) hw11]
  rw [relaxOne_closed pfC4 ⟨4, 4⟩ 0 ⟨2, 2⟩ [⟨2, 2⟩, ⟨4, 2⟩, ⟨2, 1⟩, ⟨3, 1⟩, ⟨2, 0⟩] _ ⟨3, 1⟩ (by decide)]
  rw [relaxOne_wall pfC4 ⟨4, 4⟩ 0 ⟨2, 2⟩ _ _ ⟨1, 3⟩ (by decide) hw13]
  rw [relaxOne_improve pfC4 ⟨4, 4⟩ 0 ⟨2, 2⟩ [⟨2, 2⟩, ⟨4, 2⟩, ⟨2, 1⟩, ⟨3, 1⟩, ⟨2, 0⟩] ⟨[⟨3, 3, 4 * Real.sqrt 2⟩, ⟨2, 3, 3 + Real.sqrt 5⟩], [(⟨2, 3⟩, ⟨2, 2⟩), (⟨3, 3⟩, ⟨4, 2⟩), (⟨2, 2⟩, ⟨2, 1⟩), (⟨4, 2⟩, ⟨3, 1⟩), (⟨2, 2⟩, ⟨3, 1⟩), (⟨3, 1⟩, ⟨2, 0⟩), (⟨2, 1⟩, ⟨2, 0⟩)], [(⟨2, 3⟩, 3), (⟨3, 3⟩, 3 * Real.sqrt 2), (⟨2, 2⟩, 2), (⟨4, 2⟩, 2 * Real.sqrt 2), (⟨2, 2⟩, 2 * Real.sqrt 2), (⟨3, 1⟩, Real.sqrt 2), (⟨2, 1⟩, 1), (⟨2, 0⟩, 0)], [(⟨2, 3⟩, 3 + Real.sqrt 5), (⟨3, 3⟩, 4 * Real.sqrt 2), (⟨2, 2⟩, 2 + 2 * Real.sqrt 2), (⟨4, 2⟩, 2 * Real.sqrt 2 + 2), (⟨2, 2⟩, 4 * Real.sqrt 2), (⟨3, 1⟩, Real.sqrt 2 + Real.sqrt 10), (⟨2, 1⟩, 1 + Real.sqrt 13), (⟨2, 0⟩, Pathfinder.heuristic ⟨2, 0⟩ ⟨4, 4⟩)]⟩ ⟨3, 3⟩ (3 * Real.sqrt 2)
    (by decide) hf33 rfl
    (by rw [show lookupCell [((⟨2, 3⟩ : Cell), (3 : ℝ)), (⟨3, 3⟩, 3 * Real.sqrt 2), (⟨2, 2⟩, 2), (⟨4, 2⟩, 2 * Real.sqrt 2), (⟨2, 2⟩, 2 * Real.sqrt 2), (⟨3, 1⟩, Real.sqrt 2), (⟨2, 1⟩, 1), (⟨2, 0⟩, 0)] ⟨2, 2⟩ = some 2 from rfl, Option.getD_some, hmz, hd2233]
        linarith [h2lo, h2hi])]
  rw [show (lookupCell [((⟨2, 3⟩ : Cell), (3 : ℝ)), (⟨3, 3⟩, 3 * Real.sqrt 2), (⟨2, 2⟩, 2), (⟨4, 2⟩, 2 * Real.sqrt 2), (⟨2, 2⟩, 2 * Real.sqrt 2), (⟨3, 1⟩, Real.sqrt 2), (⟨2, 1⟩, 1), (⟨2, 0⟩, 0)] ⟨2, 2⟩).getD 0 + pfC4.moveCost ⟨2, 2⟩ ⟨3, 3⟩ 0 =
      2 + Real.sqrt 2 from by
    rw [show lookupCell [((⟨2, 3⟩ : Cell), (3 : ℝ)), (⟨3, 3⟩, 3 * Real.sqrt 2), (⟨2, 2⟩, 2), (⟨4, 2⟩, 2 * Real.sqrt 2), (⟨2, 2⟩, 2 * Real.sqrt 2), (⟨3, 1⟩, Real.sqrt 2), (⟨2, 1⟩, 1), (⟨2, 0⟩, 0)] ⟨2, 2⟩ = some 2 from rfl, Option.getD_some, hmz, hd2233]]
  rw [relaxUpdate_nopush ⟨4, 4⟩ ⟨2, 2⟩ ⟨3, 3⟩ (2 + Real.sqrt 2) ⟨[⟨3, 3, 4 * Real.sqrt 2⟩, ⟨2, 3, 3 + Real.sqrt 5⟩], [(⟨2, 3⟩, ⟨2, 2⟩), (⟨3, 3⟩, ⟨4, 2⟩), (⟨2, 2⟩, ⟨2, 1⟩), (⟨4, 2⟩, ⟨3, 1⟩), (⟨2, 2⟩, ⟨3, 1⟩), (⟨3, 1⟩, ⟨2, 0⟩), (⟨2, 1⟩, ⟨2, 0⟩)], [(⟨2, 3⟩, 3), (⟨3, 3⟩, 3 * Real.sqrt 2), (⟨2, 2⟩, 2), (⟨4, 2⟩, 2 * Real.sqrt 2), (⟨2, 2⟩, 2 * Real.sqrt 2), (⟨3, 1⟩, Real.sqrt 2), (⟨2, 1⟩, 1), (⟨2, 0⟩, 0)], [(⟨2, 3⟩, 3 + Real.sqrt 5), (⟨3, 3⟩, 4 * Real.sqrt 2), (⟨2, 2⟩, 2 + 2 * Real.sqrt 2), (⟨4, 2⟩, 2 * Real.sqrt 2 + 2), (⟨2, 2⟩, 4 * Real.sqrt 2), (⟨3, 1⟩, Real.sqrt 2 + Real.sqrt 10), (⟨2, 1⟩, 1 + Real.sqrt 13), (⟨2, 0⟩, Pathfinder.heuristic ⟨2, 0⟩ ⟨4, 4⟩)]⟩ ⟨3, 3, 4 * Real.sqrt 2⟩ rfl]
  rw [hh33]
  rw [show (2 + Real.sqrt 2 + Real.sqrt 2 : ℝ) = 2 + 2 * Real.sqrt 2 from by ring]
  dsimp only
  rw [show (21 : ℕ) = 20 + 1 from rfl]
  rw [Pathfinder.findPathLoop]
  rw [hso6]
  dsimp only
  rw [if_neg (show ¬ ((2 : ℤ) = 4 ∧ (3 : ℤ) = 4) from by decide)]
  rw [hn23]
  simp only [List.foldl_cons, List.foldl_nil]
  rw [relaxOne_closed pfC4 ⟨4, 4⟩ 0 ⟨2, 3⟩ [⟨2, 3⟩, ⟨2, 2⟩, ⟨4, 2⟩, ⟨2, 1⟩, ⟨3, 1⟩, ⟨2, 0⟩] _ ⟨2, 2⟩ (by decide)]
  rw [relaxOne_wall pfC4 ⟨4, 4⟩ 0 ⟨2, 3⟩ _ _ ⟨2, 4⟩ (by decide) hw24]
  rw [relaxOne_wall pfC4 ⟨4, 4⟩ 0 ⟨2, 3⟩ _ _ ⟨1, 3⟩ (by decide) hw13]
  rw [relaxOne_noimprove pfC4 ⟨4, 4⟩ 0 ⟨2, 3⟩ [⟨2, 3⟩, ⟨2, 2⟩, ⟨4, 2⟩, ⟨2, 1⟩, ⟨3, 1⟩, ⟨2, 0⟩] ⟨[⟨3, 3, 4 * Real.sqrt 2⟩], [(⟨3, 3⟩, ⟨2, 2⟩), (⟨2, 3⟩, ⟨2, 2⟩), (⟨3, 3⟩, ⟨4, 2⟩), (⟨2, 2⟩, ⟨2, 1⟩), (⟨4, 2⟩, ⟨3, 1⟩), (⟨2, 2⟩, ⟨3, 1⟩), (⟨3, 1⟩, ⟨2, 0⟩), (⟨2, 1⟩, ⟨2, 0⟩)], [(⟨3, 3⟩, 2 + Real.sqrt 2), (⟨2, 3⟩, 3), (⟨3, 3⟩, 3 * Real.sqrt 2), (⟨2, 2⟩, 2), (⟨4, 2⟩, 2 * Real.sqrt 2), (⟨2, 2⟩, 2 * Real.sqrt 2), (⟨3, 1⟩, Real.sqrt 2), (⟨2, 1⟩, 1), (⟨2, 0⟩, 0)], [(⟨3, 3⟩, 2 + 2 * Real.sqrt 2), (⟨2, 3⟩, 3 + Real.sqrt 5), (⟨3, 3⟩, 4 * Real.sqrt 2), (⟨2, 2⟩, 2 + 2 * Real.sqrt 2), (⟨4, 2⟩, 2 * Real.sqrt 2 + 2), (⟨2, 2⟩, 4 * Real.sqrt 2), (⟨3, 1⟩, Real.sqrt 2 + Real.sqrt 10), (⟨2, 1⟩, 1 + Real.sqrt 13), (⟨2, 0⟩, Pathfinder.heuristic ⟨2, 0⟩ ⟨4, 4⟩)]⟩ ⟨3, 3⟩ (2 + Real.sqrt 2)
    (by decide) hf33 rfl
    (by rw [show lookupCell [((⟨3, 3⟩ : Cell), 2 + Real.sqrt 2), (⟨2, 3⟩, 3), (⟨3, 3⟩, 3 * Real.sqrt 2), (⟨2, 2⟩, 2), (⟨4, 2⟩, 2 * Real.sqrt 2), (⟨2, 2⟩, 2 * Real.sqrt 2), (⟨3, 1⟩, Real.sqrt 2), (⟨2, 1⟩, 1), (⟨2, 0⟩, 0)] ⟨2, 3⟩ = some 3 from rfl, Option.getD_some, hmz, hd2333]
        linarith [h2hi])]
  rw [relaxOne_wall pfC4 ⟨4, 4⟩ 0 ⟨2, 3⟩ _ _ ⟨1, 2⟩ (by decide) hw12]
  rw [relaxOne_wall pfC4 ⟨4, 4⟩ 0 ⟨2, 3⟩ _ _ ⟨3, 2⟩ (by decide) hw32]
  rw [relaxOne_wall pfC4 ⟨4, 4⟩ 0 ⟨2, 3⟩ _ _ ⟨1, 4⟩ (by decide) hw14]
  rw [relaxOne_fresh pfC4 ⟨4, 4⟩ 0 ⟨2, 3⟩ [⟨2, 3⟩, ⟨2, 2⟩, ⟨4, 2⟩, ⟨2, 1⟩, ⟨3, 1⟩, ⟨2, 0⟩] ⟨[⟨3, 3, 4 * Real.sqrt 2⟩], [(⟨3, 3⟩, ⟨2, 2⟩), (⟨2, 3⟩, ⟨2, 2⟩), (⟨3, 3⟩, ⟨4, 2⟩), (⟨2, 2⟩, ⟨2, 1⟩), (⟨4, 2⟩, ⟨3, 1⟩), (⟨2, 2⟩, ⟨3, 1⟩), (⟨3, 1⟩, ⟨2, 0⟩), (⟨2, 1⟩, ⟨2, 0⟩)], [(⟨3, 3⟩, 2 + Real.sqrt 2), (⟨2, 3⟩, 3), (⟨3, 3⟩, 3 * Real.sqrt 2), (⟨2, 2⟩, 2), (⟨4, 2⟩, 2 * Real.sqrt 2), (⟨2, 2⟩, 2 * Real.sqrt 2), (⟨3, 1⟩, Real.sqrt 2), (⟨2, 1⟩, 1), (⟨2, 0⟩, 0)], [(⟨3, 3⟩, 2 + 2 * Real.sqrt 2), (⟨2, 3⟩, 3 + Real.sqrt 5), (⟨3, 3⟩, 4 * Real.sqrt 2), (⟨2, 2⟩, 2 + 2 * Real.sqrt 2), (⟨4, 2⟩, 2 * Real.sqrt 2 + 2), (⟨2, 2⟩, 4 * Real.sqrt 2), (⟨3, 1⟩, Real.sqrt 2 + Real.sqrt 10), (⟨2, 1⟩, 1 + Real.sqrt 13), (⟨2, 0⟩, Pathfinder.heuristic ⟨2, 0⟩ ⟨4, 4⟩)]⟩ ⟨3, 4⟩ (by decide) hf34 rfl]
  rw [show (lookupCell [((⟨3, 3⟩ : Cell), 2 + Real.sqrt 2), (⟨2, 3⟩, 3), (⟨3, 3⟩, 3 * Real.sqrt 2), (⟨2, 2⟩, 2), (⟨4, 2⟩, 2 * Real.sqrt 2), (⟨2, 2⟩, 2 * Real.sqrt 2), (⟨3, 1⟩, Real.sqrt 2), (⟨2, 1⟩, 1), (⟨2, 0⟩, 0)] ⟨2, 3⟩).getD 0 + pfC4.moveCost ⟨2, 3⟩ ⟨3, 4⟩ 0 =
      3 + Real.sqrt 2 from by
    rw [show lookupCell [((⟨3, 3⟩ : Cell), 2 + Real.sqrt 2), (⟨2, 3⟩, 3), (⟨3, 3⟩, 3 * Real.sqrt 2), (⟨2, 2⟩, 2), (⟨4, 2⟩, 2 * Real.sqrt 2), (⟨2, 2⟩, 2 * Real.sqrt 2), (⟨3, 1⟩, Real.sqrt 2), (⟨2, 1⟩, 1), (⟨2, 0⟩, 0)] ⟨2, 3⟩ = some 3 from rfl, Option.getD_some, hmz, hd2334]]
  rw [relaxUpdate_push ⟨4, 4⟩ ⟨2, 3⟩ ⟨3, 4⟩ (3 + Real.sqrt 2) ⟨[⟨3, 3, 4 * Real.sqrt 2⟩], [(⟨3, 3⟩, ⟨2, 2⟩), (⟨2, 3⟩, ⟨2, 2⟩), (⟨3, 3⟩, ⟨4, 2⟩), (⟨2, 2⟩, ⟨2, 1⟩), (⟨4, 2⟩, ⟨3, 1⟩), (⟨2, 2⟩, ⟨3, 1⟩), (⟨3, 1⟩, ⟨2, 0⟩), (⟨2, 1⟩, ⟨2, 0⟩)], [(⟨3, 3⟩, 2 + Real.sqrt 2), (⟨2, 3⟩, 3), (⟨3, 3⟩, 3 * Real.sqrt 2), (⟨2, 2⟩, 2), (⟨4, 2⟩, 2 * Real.sqrt 2), (⟨2, 2⟩, 2 * Real.sqrt 2), (⟨3, 1⟩, Real.sqrt 2), (⟨2, 1⟩, 1), (⟨2, 0⟩, 0)], [(⟨3, 3⟩, 2 + 2 * Real.sqrt 2), (⟨2, 3⟩, 3 + Real.sqrt 5), (⟨3, 3⟩, 4 * Real.sqrt 2), (⟨2, 2⟩, 2 + 2 * Real.sqrt 2), (⟨4, 2⟩, 2 * Real.sqrt 2 + 2), (⟨2, 2⟩, 4 * Real.sqrt 2), (⟨3, 1⟩, Real.sqrt 2 + Real.sqrt 10), (⟨2, 1⟩, 1 + Real.sqrt 13), (⟨2, 0⟩, Pathfinder.heuristic ⟨2, 0⟩ ⟨4, 4⟩)]⟩ rfl]
  rw [hh34]
  rw [show (3 + Real.sqrt 2 + 1 : ℝ) = 4 + Real.sqrt 2 from by ring]
  dsimp only
  simp only [List.cons_append, List.nil_append]
  rw [show (20 : ℕ) = 19 + 1 from rfl]
  rw [Pathfinder.findPathLoop]
  rw [hso7]
  dsimp only
  rw [if_neg (show ¬ ((3 : ℤ) = 4 ∧ (4 : ℤ) = 4) from by decide)]
  rw [hn34]
  simp only [List.foldl_cons, List.foldl_nil]
  rw [relaxOne_noimprove pfC4 ⟨4, 4⟩ 0 ⟨3, 4⟩ [⟨3, 4⟩, ⟨2, 3⟩, ⟨2, 2⟩, ⟨4, 2⟩, ⟨2, 1⟩, ⟨3, 1⟩, ⟨2, 0⟩] ⟨[⟨3, 3, 4 * Real.sqrt 2⟩], [(⟨3, 4⟩, ⟨2, 3⟩), (⟨3, 3⟩, ⟨2, 2⟩), (⟨2, 3⟩, ⟨2, 2⟩), (⟨3, 3⟩, ⟨4, 2⟩), (⟨2, 2⟩, ⟨2, 1⟩), (⟨4, 2⟩, ⟨3, 1⟩), (⟨2, 2⟩, ⟨3, 1⟩), (⟨3, 1⟩, ⟨2, 0⟩), (⟨2, 1⟩, ⟨2, 0⟩)], [(⟨3, 4⟩, 3 + Real.sqrt 2), (⟨3, 3⟩, 2 + Real.sqrt 2), (⟨2, 3⟩, 3), (⟨3, 3⟩, 3 * Real.sqrt 2), (⟨2, 2⟩, 2), (⟨4, 2⟩, 2 * Real.sqrt 2), (⟨2, 2⟩, 2 * Real.sqrt 2), (⟨3, 1⟩, Real.sqrt 2), (⟨2, 1⟩, 1), (⟨2, 0⟩, 0)], [(⟨3, 4⟩, 4 + Real.sqrt 2), (⟨3, 3⟩, 2 + 2 * Real.sqrt 2), (⟨2, 3⟩, 3 + Real.sqrt 5), (⟨3, 3⟩, 4 * Real.sqrt 2), (⟨2, 2⟩, 2 + 2 * Real.sqrt 2), (⟨4, 2⟩, 2 * Real.sqrt 2 + 2), (⟨2, 2⟩, 4 * Real.sqrt 2), (⟨3, 1⟩, Real.sqrt 2 + Real.sqrt 10), (⟨2, 1⟩, 1 + Real.sqrt 13), (⟨2, 0⟩, Pathfinder.heuristic ⟨2, 0⟩ ⟨4, 4⟩)]⟩ ⟨3, 3⟩ (2 + Real.sqrt 2)
    (by decide) hf33 rfl
    (by rw [show lookupCell [((⟨3, 4⟩ : Cell), 3 + Real.sqrt 2), (⟨3, 3⟩, 2 + Real.sqrt 2), (⟨2, 3⟩, 3), (⟨3, 3⟩, 3 * Real.sqrt 2), (⟨2, 2⟩, 2), (⟨4, 2⟩, 2 * Real.sqrt 2), (⟨2, 2⟩, 2 * Real.sqrt 2), (⟨3, 1⟩, Real.sqrt 2), (⟨2, 1⟩, 1), (⟨2, 0⟩, 0)] ⟨3, 4⟩ = some (3 + Real.sqrt 2) from rfl,
          Option.getD_some, hmz, hd3433]
        linarith)]
  rw [relaxOne_wall pfC4 ⟨4, 4⟩ 0 ⟨3, 4⟩ _ _ ⟨2, 4⟩ (by decide) hw24]
  rw [relaxOne_fresh pfC4 ⟨4, 4⟩ 0 ⟨3, 4⟩ [⟨3, 4⟩, ⟨2, 3⟩, ⟨2, 2⟩, ⟨4, 2⟩, ⟨2, 1⟩, ⟨3, 1⟩, ⟨2, 0⟩] ⟨[⟨3, 3, 4 * Real.sqrt 2⟩], [(⟨3, 4⟩, ⟨2, 3⟩), (⟨3, 3⟩, ⟨2, 2⟩), (⟨2, 3⟩, ⟨2, 2⟩), (⟨3, 3⟩, ⟨4, 2⟩), (⟨2, 2⟩, ⟨2, 1⟩), (⟨4, 2⟩, ⟨3, 1⟩), (⟨2, 2⟩, ⟨3, 1⟩), (⟨3, 1⟩, ⟨2, 0⟩), (⟨2, 1⟩, ⟨2, 0⟩)], [(⟨3, 4⟩, 3 + Real.sqrt 2), (⟨3, 3⟩, 2 + Real.sqrt 2), (⟨2, 3⟩, 3), (⟨3, 3⟩, 3 * Real.sqrt 2), (⟨2, 2⟩, 2), (⟨4, 2⟩, 2 * Real.sqrt 2), (⟨2, 2⟩, 2 * Real.sqrt 2), (⟨3, 1⟩, Real.sqrt 2), (⟨2, 1⟩, 1), (⟨2, 0⟩, 0)], [(⟨3, 4⟩, 4 + Real.sqrt 2), (⟨3, 3⟩, 2 + 2 * Real.sqrt 2), (⟨2, 3⟩, 3 + Real.sqrt 5), (⟨3, 3⟩, 4 * Real.sqrt 2), (⟨2, 2⟩, 2 + 2 * Real.sqrt 2), (⟨4, 2⟩, 2 * Real.sqrt 2 + 2), (⟨2, 2⟩, 4 * Real.sqrt 2), (⟨3, 1⟩, Real.sqrt 2 + Real.sqrt 10), (⟨2, 1⟩, 1 + Real.sqrt 13), (⟨2, 0⟩, Pathfinder.heuristic ⟨2, 0⟩ ⟨4, 4⟩)]⟩ ⟨4, 4⟩ (by decide) hf44 rfl]
  rw [show (lookupCell [((⟨3, 4⟩ : Cell), 3 + Real.sqrt 2), (⟨3, 3⟩, 2 + Real.sqrt 2), (⟨2, 3⟩, 3), (⟨3, 3⟩, 3 * Real.sqrt 2), (⟨2, 2⟩, 2), (⟨4, 2⟩, 2 * Real.sqrt 2), (⟨2, 2⟩, 2 * Real.sqrt 2), (⟨3, 1⟩, Real.sqrt 2), (⟨2, 1⟩, 1), (⟨2, 0⟩, 0)] ⟨3, 4⟩).getD 0 + pfC4.moveCost ⟨3, 4⟩ ⟨4, 4⟩ 0 =
      4 + Real.sqrt 2 from by
    rw [show lookupCell [((⟨3, 4⟩ : Cell), 3 + Real.sqrt 2), (⟨3, 3⟩, 2 + Real.sqrt 2), (⟨2, 3⟩, 3), (⟨3, 3⟩, 3 * Real.sqrt 2), (⟨2, 2⟩, 2), (⟨4, 2⟩, 2 * Real.sqrt 2), (⟨2, 2⟩, 2 * Real.sqrt 2), (⟨3, 1⟩, Real.sqrt 2), (⟨2, 1⟩, 1), (⟨2, 0⟩, 0)] ⟨3, 4⟩ = some (3 + Real.sqrt 2) from rfl,
      Option.getD_some, hmz, hd3444]
    ring]
  rw [relaxUpdate_push ⟨4, 4⟩ ⟨3, 4⟩ ⟨4, 4⟩ (4 + Real.sqrt 2) ⟨[⟨3, 3, 4 * Real.sqrt 2⟩], [(⟨3, 4⟩, ⟨2, 3⟩), (⟨3, 3⟩, ⟨2, 2⟩), (⟨2, 3⟩, ⟨2, 2⟩), (⟨3, 3⟩, ⟨4, 2⟩), (⟨2, 2⟩, ⟨2, 1⟩), (⟨4, 2⟩, ⟨3, 1⟩), (⟨2, 2⟩, ⟨3, 1⟩), (⟨3, 1⟩, ⟨2, 0⟩), (⟨2, 1⟩, ⟨2, 0⟩)], [(⟨3, 4⟩, 3 + Real.sqrt 2), (⟨3, 3⟩, 2 + Real.sqrt 2), (⟨2, 3⟩, 3), (⟨3, 3⟩, 3 * Real.sqrt 2), (⟨2, 2⟩, 2), (⟨4, 2⟩, 2 * Real.sqrt 2), (⟨2, 2⟩, 2 * Real.sqrt 2), (⟨3, 1⟩, Real.sqrt 2), (⟨2, 1⟩, 1), (⟨2, 0⟩, 0)], [(⟨3, 4⟩, 4 + Real.sqrt 2), (⟨3, 3⟩, 2 + 2 * Real.sqrt 2), (⟨2, 3⟩, 3 + Real.sqrt 5), (⟨3, 3⟩, 4 * Real.sqrt 2), (⟨2, 2⟩, 2 + 2 * Real.sqrt 2), (⟨4, 2⟩, 2 * Real.sqrt 2 + 2), (⟨2, 2⟩, 4 * Real.sqrt 2), (⟨3, 1⟩, Real.sqrt 2 + Real.sqrt 10), (⟨2, 1⟩, 1 + Real.sqrt 13), (⟨2, 0⟩, Pathfinder.heuristic ⟨2, 0⟩ ⟨4, 4⟩)]⟩ rfl]
  rw [hh44]
  rw [show (4 + Real.sqrt 2 + 0 : ℝ) = 4 + Real.sqrt 2 from by ring]
  dsimp only
  simp only [List.cons_append, List.nil_append]
  rw [relaxOne_closed pfC4 ⟨4, 4⟩ 0 ⟨3, 4⟩ [⟨3, 4⟩, ⟨2, 3⟩, ⟨2, 2⟩, ⟨4, 2⟩, ⟨2, 1⟩, ⟨3, 1⟩, ⟨2, 0⟩] _ ⟨2, 3⟩ (by decide)]
  rw [relaxOne_wall pfC4 ⟨4, 4⟩ 0 ⟨3, 4⟩ _ _ ⟨4, 3⟩ (by decide) hw43]
  dsimp only
  rw [show (19 : ℕ) = 18 + 1 from rfl]
  rw [Pathfinder.findPathLoop]
  rw [hso8]
  dsimp only
  rw [if_pos (show (4 : ℤ) = 4 ∧ (4 : ℤ) = 4 from by decide)]
  simp only [Option.getD_some]
  unfold Pathfinder.reconstructPath
  rw [show Pathfinder.reconstructWalk [(⟨4, 4⟩, ⟨3, 4⟩), (⟨3, 4⟩, ⟨2, 3⟩), (⟨3, 3⟩, ⟨2, 2⟩), (⟨2, 3⟩, ⟨2, 2⟩), (⟨3, 3⟩, ⟨4, 2⟩), (⟨2, 2⟩, ⟨2, 1⟩), (⟨4, 2⟩, ⟨3, 1⟩), (⟨2, 2⟩, ⟨3, 1⟩), (⟨3, 1⟩, ⟨2, 0⟩), (⟨2, 1⟩, ⟨2, 0⟩)]
      (([(⟨4, 4⟩, ⟨3, 4⟩), (⟨3, 4⟩, ⟨2, 3⟩), (⟨3, 3⟩, ⟨2, 2⟩), (⟨2, 3⟩, ⟨2, 2⟩), (⟨3, 3⟩, ⟨4, 2⟩), (⟨2, 2⟩, ⟨2, 1⟩), (⟨4, 2⟩, ⟨3, 1⟩), (⟨2, 2⟩, ⟨3, 1⟩), (⟨3, 1⟩, ⟨2, 0⟩), (⟨2, 1⟩, ⟨2, 0⟩)] : List (Cell × Cell)).length + 1) ⟨4, 4⟩ =
      [⟨2, 0⟩, ⟨2, 1⟩, ⟨2, 2⟩, ⟨2, 3⟩, ⟨3, 4⟩, ⟨4, 4⟩] from rfl]
  norm_num [Pathfinder.gridToLatLng, Pathfinder.cellCenter, pfC4_bounds, pfC4_gridSize]

/-- Claim C4's shortest-route assertion refuted at a concrete input: on the
`pfC4` obstacle grid, `findPath` at tolerance 100 returns an admissible route
of Euclidean length `4 + √2` from cell `(2,0)` to `(4,4)`, while `optRouteC4`
is an admissible 8-connected route between the same cells of length
`2 + 2√2 < 4 + √2`. -/
theorem C4_counterexample :
    Pathfinder.riskWeightOf 100 = 0 ∧
    isRoute pfC4 ⟨2, 0⟩ ⟨4, 4⟩ ((pfC4.findPath startC4 endC4 100).map pfC4.latLngToGrid) ∧
    isRoute pfC4 ⟨2, 0⟩ ⟨4, 4⟩ optRouteC4 ∧
    routeLen optRouteC4 <
      routeLen ((pfC4.findPath startC4 endC4 100).map pfC4.latLngToGrid) := by
  obtain ⟨hf20, hf21, hf31, hf22, hf42, hf23, hf33, hf34, hf44⟩ := pfC4_free
  have h2hi : Real.sqrt 2 < 1.415 := by
    nlinarith [Real.sq_sqrt (show (0 : ℝ) ≤ 2 by norm_num), Real.sqrt_nonneg 2]
  have hn20 : pfC4.getNeighbors 2 0 = [⟨2, 1⟩, ⟨1, 0⟩, ⟨3, 0⟩, ⟨1, 1⟩, ⟨3, 1⟩] := by
    rw [Pathfinder.getNeighbors]
    norm_num [Pathfinder.isValid, pfC4_gridSize]
  have hn21 : pfC4.getNeighbors 2 1 =
      [⟨2, 0⟩, ⟨2, 2⟩, ⟨1, 1⟩, ⟨3, 1⟩, ⟨1, 0⟩, ⟨3, 0⟩, ⟨1, 2⟩, ⟨3, 2⟩] := by
    rw [Pathfinder.getNeighbors]
    norm_num [Pathfinder.isValid, pfC4_gridSize]
  have hn22 : pfC4.getNeighbors 2 2 =
      [⟨2, 1⟩, ⟨2, 3⟩, ⟨1, 2⟩, ⟨3, 2⟩, ⟨1, 1⟩, ⟨3, 1⟩, ⟨1, 3⟩, ⟨3, 3⟩] := by
    rw [Pathfinder.getNeighbors]
    norm_num [Pathfinder.isValid, pfC4_gridSize]
  have hn23 : pfC4.getNeighbors 2 3 =
      [⟨2, 2⟩, ⟨2, 4⟩, ⟨1, 3⟩, ⟨3, 3⟩, ⟨1, 2⟩, ⟨3, 2⟩, ⟨1, 4⟩, ⟨3, 4⟩] := by
    rw [Pathfinder.getNeighbors]
    norm_num [Pathfinder.isValid, pfC4_gridSize]
  have hn33 : pfC4.getNeighbors 3 3 =
      [⟨3, 2⟩, ⟨3, 4⟩, ⟨2, 3⟩, ⟨4, 3⟩, ⟨2, 2⟩, ⟨4, 2⟩, ⟨2, 4⟩, ⟨4, 4⟩] := by
    rw [Pathfinder.getNeighbors]
    norm_num [Pathfinder.isValid, pfC4_gridSize]
  have hn34 : pfC4.getNeighbors 3 4 = [⟨3, 3⟩, ⟨2, 4⟩, ⟨4, 4⟩, ⟨2, 3⟩, ⟨4, 3⟩] := by
    rw [Pathfinder.getNeighbors]
    norm_num [Pathfinder.isValid, pfC4_gridSize]
  have hd2021 : Pathfinder.distCost ⟨2, 0⟩ ⟨2, 1⟩ = 1 := by
    norm_num [Pathfinder.distCost, Real.sqrt_one]
  have hd2122 : Pathfinder.distCost ⟨2, 1⟩ ⟨2, 2⟩ = 1 := by
    norm_num [Pathfinder.distCost, Real.sqrt_one]
  have hd2223 : Pathfinder.distCost ⟨2, 2⟩ ⟨2, 3⟩ = 1 := by
    norm_num [Pathfinder.distCost, Real.sqrt_one]
  have hd2334 : Pathfinder.distCost ⟨2, 3⟩ ⟨3, 4⟩ = Real.sqrt 2 := by
    norm_num [Pathfinder.distCost]
  have hd3444 : Pathfinder.distCost ⟨3, 4⟩ ⟨4, 4⟩ = 1 := by
    norm_num [Pathfinder.distCost, Real.sqrt_one]
  have hd2233 : Pathfinder.distCost ⟨2, 2⟩ ⟨3, 3⟩ = Real.sqrt 2 := by
    norm_num [Pathfinder.distCost]
  have hd3344 : Pathfinder.distCost ⟨3, 3⟩ ⟨4, 4⟩ = Real.sqrt 2 := by
    norm_num [Pathfinder.distCost]
  have hmap : (pfC4.findPath startC4 endC4 100).map pfC4.latLngToGrid =
      [⟨2, 0⟩, ⟨2, 1⟩, ⟨2, 2⟩, ⟨2, 3⟩, ⟨3, 4⟩, ⟨4, 4⟩] := by
    rw [findPathC4_eval]
    simp only [List.map_cons, List.map_nil]
    norm_num [Pathfinder.latLngToGrid, pfC4_bounds, pfC4_gridSize]
  have hlen1 : routeLen optRouteC4 = 2 + 2 * Real.sqrt 2 := by
    simp only [optRouteC4, routeLen, hd2021, hd2122, hd2233, hd3344]
    ring
  have hlen2 : routeLen [⟨2, 0⟩, ⟨2, 1⟩, ⟨2, 2⟩, ⟨2, 3⟩, ⟨3, 4⟩, ⟨4, 4⟩] =
      4 + Real.sqrt 2 := by
    simp only [routeLen, hd2021, hd2122, hd2223, hd2334, hd3444]
    ring
  refine ⟨by norm_num [Pathfinder.riskWeightOf], ?_, ?_, ?_⟩
  · rw [hmap]
    unfold isRoute
    refine ⟨rfl, rfl, ?_, ?_⟩
    · simp only [List.chain'_cons, List.chain'_singleton, and_true]
      refine ⟨?_, ?_, ?_, ?_, ?_⟩
      · rw [show pfC4.getNeighbors (⟨2, 0⟩ : Cell).x (⟨2, 0⟩ : Cell).y =
            [⟨2, 1⟩, ⟨1, 0⟩, ⟨3, 0⟩, ⟨1, 1⟩, ⟨3, 1⟩] from hn20]
        decide
      · rw [show pfC4.getNeighbors (⟨2, 1⟩ : Cell).x (⟨2, 1⟩ : Cell).y =
            [⟨2, 0⟩, ⟨2, 2⟩, ⟨1, 1⟩, ⟨3, 1⟩, ⟨1, 0⟩, ⟨3, 0⟩, ⟨1, 2⟩, ⟨3, 2⟩] from hn21]
        decide
      · rw [show pfC4.getNeighbors (⟨2, 2⟩ : Cell).x (⟨2, 2⟩ : Cell).y =
            [⟨2, 1⟩, ⟨2, 3⟩, ⟨1, 2⟩, ⟨3, 2⟩, ⟨1, 1⟩, ⟨3, 1⟩, ⟨1, 3⟩, ⟨3, 3⟩] from hn22]
        decide
      · rw [show pfC4.getNeighbors (⟨2, 3⟩ : Cell).x (⟨2, 3⟩ : Cell).y =
            [⟨2, 2⟩, ⟨2, 4⟩, ⟨1, 3⟩, ⟨3, 3⟩, ⟨1, 2⟩, ⟨3, 2⟩, ⟨1, 4⟩, ⟨3, 4⟩] from hn23]
        decide
      · rw [show pfC4.getNeighbors (⟨3, 4⟩ : Cell).x (⟨3, 4⟩ : Cell).y =
            [⟨3, 3⟩, ⟨2, 4⟩, ⟨4, 4⟩, ⟨2, 3⟩, ⟨4, 3⟩] from hn34]
        decide
    · intro c hc
      simp only [List.mem_cons, List.not_mem_nil, or_false] at hc
      rcases hc with rfl | rfl | rfl | rfl | rfl | rfl
      · exact not_le.mp hf20
      · exact not_le.mp hf21
      · exact not_le.mp hf22
      · exact not_le.mp hf23
      · exact not_le.mp hf34
      · exact not_le.mp hf44
  · unfold isRoute optRouteC4
    refine ⟨rfl, rfl, ?_, ?_⟩
    · simp only [List.chain'_cons, List.chain'_singleton, and_true]
      refine ⟨?_, ?_, ?_, ?_⟩
      · rw [show pfC4.getNeighbors (⟨2, 0⟩ : Cell).x (⟨2, 0⟩ : Cell).y =
            [⟨2, 1⟩, ⟨1, 0⟩, ⟨3, 0⟩, ⟨1, 1⟩, ⟨3, 1⟩] from hn20]
        decide
      · rw [show pfC4.getNeighbors (⟨2, 1⟩ : Cell).x (⟨2, 1⟩ : Cell).y =
            [⟨2, 0⟩, ⟨2, 2⟩, ⟨1, 1⟩, ⟨3, 1⟩, ⟨1, 0⟩, ⟨3, 0⟩, ⟨1, 2⟩, ⟨3, 2⟩] from hn21]
        decide
      · rw [show pfC4.getNeighbors (⟨2, 2⟩ : Cell).x (⟨2, 2⟩ : Cell).y =
            [⟨2, 1⟩, ⟨2, 3⟩, ⟨1, 2⟩, ⟨3, 2⟩, ⟨1, 1⟩, ⟨3, 1⟩, ⟨1, 3⟩, ⟨3, 3⟩] from hn22]
        decide
      · rw [show pfC4.getNeighbors (⟨3, 3⟩ : Cell).x (⟨3, 3⟩ : Cell).y =
            [⟨3, 2⟩, ⟨3, 4⟩, ⟨2, 3⟩, ⟨4, 3⟩, ⟨2, 2⟩, ⟨4, 2⟩, ⟨2, 4⟩, ⟨4, 4⟩] from hn33]
        decide
    · intro c hc
      simp only [List.mem_cons, List.not_mem_nil, or_false] at hc
      rcases hc with rfl | rfl | rfl | rfl | rfl
      · exact not_le.mp hf20
      · exact not_le.mp hf21
      · exact not_le.mp hf22
      · exact not_le.mp hf33
      · exact not_le.mp hf44
  · rw [hmap, hlen1, hlen2]
    linarith [h2hi]
